import Mathlib

/-!
Verification of the half-space extractor and the per-pixel slab ray tracer of
`Dodecahedron.c`.

The C code works on `double`; the shallow embedding models `double` arithmetic
as exact real arithmetic (`ℝ`).  Pure functions of the source (`dot`, `cross`,
`length`, `normalize`, `add`, `subtract`, `scale`, `rotate`,
`computeBasePlanes`) become Lean functions over `ℝ`; the per-pixel loop of
`main` becomes a fold (`runSlab`) plus a pure pixel function (`shadePixel`).
All definitions live in the `Dodeca` namespace because several source names
(`normalize`, `length`, ...) collide with Mathlib's root namespace.

For the one claim that requires evaluating the extractor on the concrete
20-vertex golden-ratio point set, a computable mirror of the algorithm over
integer pairs denoting `a + b·√5` (`Z5`, with the vertex coordinates scaled
by 4 and every tolerance comparison cross-multiplied into an exact integer
comparison) is developed and proved to refine the real-valued embedding;
the plane count is then decided by kernel computation in chunks.
-/

namespace Dodeca

open Classical

noncomputable section

/-- `Vec3` of `Dodecahedron.c` (struct of three doubles, modelled over ℝ). -/
structure Vec3 where
  x : ℝ
  y : ℝ
  z : ℝ

/-- `Plane` of `Dodecahedron.c`: outward normal `n` and offset `d`. -/
structure Plane where
  n : Vec3
  d : ℝ

/-- `TOL` of the source (`1e-6`). -/
def TOL : ℝ := 1 / 1000000

/-- The duplicate-plane tolerance of `computeBasePlanes` (`1e-3`). -/
def DUP_TOL : ℝ := 1 / 1000

/-- `dot` of the source. -/
def dot (a b : Vec3) : ℝ := a.x * b.x + a.y * b.y + a.z * b.z

/-- `cross` of the source. -/
def cross (a b : Vec3) : Vec3 :=
  ⟨a.y * b.z - a.z * b.y, a.z * b.x - a.x * b.z, a.x * b.y - a.y * b.x⟩

/-- `length` of the source. -/
def length (v : Vec3) : ℝ := Real.sqrt (dot v v)

/-- `normalize` of the source: guarded division by the length. -/
def normalize (v : Vec3) : Vec3 :=
  let len := length v
  if len < TOL then v else ⟨v.x / len, v.y / len, v.z / len⟩

/-- `add` of the source. -/
def add (a b : Vec3) : Vec3 := ⟨a.x + b.x, a.y + b.y, a.z + b.z⟩

/-- `subtract` of the source. -/
def subtract (a b : Vec3) : Vec3 := ⟨a.x - b.x, a.y - b.y, a.z - b.z⟩

/-- `scale` of the source. -/
def scale (v : Vec3) (s : ℝ) : Vec3 := ⟨v.x * s, v.y * s, v.z * s⟩

/-- `rotate` of the source: rotation about the y-axis by `angle` composed with
a rotation about the x-axis by `angle / 2`. -/
def rotate (v : Vec3) (angle : ℝ) : Vec3 :=
  let cosA := Real.cos angle
  let sinA := Real.sin angle
  let x := cosA * v.x + sinA * v.z
  let z := -sinA * v.x + cosA * v.z
  let y := v.y
  let cosB := Real.cos (angle * (1 / 2))
  let sinB := Real.sin (angle * (1 / 2))
  let y2 := cosB * y - sinB * z
  let z2 := sinB * y + cosB * z
  ⟨x, y2, z2⟩

/-! ### The half-space extractor `computeBasePlanes` -/

/-- The index triples `(i, j, k)` with `i < j < k < n`, in the order the three
nested loops of `computeBasePlanes` enumerate them. -/
def triples (n : ℕ) : List (ℕ × ℕ × ℕ) :=
  (List.range n).flatMap fun i =>
    (List.range n).flatMap fun j =>
      (List.range n).flatMap fun k =>
        if i < j ∧ j < k then [(i, j, k)] else []

/-- The duplicate test of `computeBasePlanes`: an already accepted plane `p`
rejects a candidate `pl` when their normals' dot product is within `1e-3` of
`1` and their offsets differ by less than `1e-3`. -/
def dupPred (p pl : Plane) : Prop :=
  |dot p.n pl.n - 1| < DUP_TOL ∧ |p.d - pl.d| < DUP_TOL

/-- The body of the triple loop of `computeBasePlanes`: process one triple
`(i, j, k)` against the accumulator of accepted planes. -/
def planeStep (vs : List Vec3) (maxPlanes : ℕ) (acc : List Plane)
    (t : ℕ × ℕ × ℕ) : List Plane :=
  let vi := vs.getD t.1 ⟨0, 0, 0⟩
  let vj := vs.getD t.2.1 ⟨0, 0, 0⟩
  let vk := vs.getD t.2.2 ⟨0, 0, 0⟩
  let n0 := cross (subtract vj vi) (subtract vk vi)
  if length n0 < TOL then acc
  else
    let n := normalize n0
    let d := dot n vi
    let allBelow := ∀ vm ∈ vs, dot n vm - d ≤ TOL
    let allAbove := ∀ vm ∈ vs, -TOL ≤ dot n vm - d
    if ¬(allBelow ∨ allAbove) then acc
    else
      let n2 := if allAbove then scale n (-1) else n
      let d2 := if allAbove then -d else d
      let dup := ∃ p ∈ acc, dupPred p ⟨n2, d2⟩
      if ¬dup ∧ acc.length < maxPlanes then acc ++ [⟨n2, d2⟩] else acc

/-- `computeBasePlanes` of the source: fold the triple loop body over all
index triples, starting from an empty plane list. -/
def computeBasePlanes (vs : List Vec3) (maxPlanes : ℕ) : List Plane :=
  (triples vs.length).foldl (planeStep vs maxPlanes) []

/-- The geometric candidate a triple contributes, independent of the
accumulator: `none` when the triple is degenerate or does not bound the point
set, otherwise the oriented candidate plane of `computeBasePlanes`. -/
def candO (vs : List Vec3) (t : ℕ × ℕ × ℕ) : Option Plane :=
  let vi := vs.getD t.1 ⟨0, 0, 0⟩
  let vj := vs.getD t.2.1 ⟨0, 0, 0⟩
  let vk := vs.getD t.2.2 ⟨0, 0, 0⟩
  let n0 := cross (subtract vj vi) (subtract vk vi)
  if length n0 < TOL then none
  else
    let n := normalize n0
    let d := dot n vi
    let allBelow := ∀ vm ∈ vs, dot n vm - d ≤ TOL
    let allAbove := ∀ vm ∈ vs, -TOL ≤ dot n vm - d
    if ¬(allBelow ∨ allAbove) then none
    else if allAbove then some ⟨scale n (-1), -d⟩ else some ⟨n, d⟩

/-! ### The per-frame and per-pixel code of `main` -/

/-- `camPos` of `main`: `{ 0, 0, -5 }`. -/
def camPos : Vec3 := ⟨0, 0, -5⟩

/-- `scaleFactor` of `main`: `300.0`. -/
def scaleFactor : ℝ := 300

/-- `halfWidth` of `main`: `WINDOW_WIDTH / 2.0`. -/
def halfWidth : ℝ := 800 / 2

/-- `halfHeight` of `main`: `WINDOW_HEIGHT / 2.0`. -/
def halfHeight : ℝ := 600 / 2

/-- `lightDir` of `main`: `normalize((Vec3){ 1, 1, -1 })`. -/
def lightDir : Vec3 := normalize ⟨1, 1, -1⟩

/-- The background pixel value of `main` (`0x00FF00`). -/
def bgColor : ℤ := 0x00FF00

/-- The per-frame rotated plane set of `main`: each base normal is rotated by
the frame angle, each offset is copied unchanged. -/
def rotatedPlanes (angle : ℝ) (base : List Plane) : List Plane :=
  base.map fun pl => ⟨rotate pl.n angle, pl.d⟩

/-- The view ray direction `main` builds for pixel `(x, y)`:
`normalize({ (x - halfWidth) / scaleFactor, (halfHeight - y) / scaleFactor, 5 })`. -/
def rayOf (px py : ℤ) : Vec3 :=
  let u := ((px : ℝ) - halfWidth) / scaleFactor
  let v := (halfHeight - (py : ℝ)) / scaleFactor
  normalize ⟨u, v, 5⟩

/-- The slab state of `main`'s per-pixel loop: `tNear`, `tFar`, and the
tracked entering plane (`activePlaneIndex`, modelled by the plane itself). -/
def SlabState := ℝ × ℝ × Option Plane

/-- Initial slab state of `main`: `tNear = -1e9`, `tFar = 1e9`, no active
plane. -/
def slabInit : SlabState := (-1000000000, 1000000000, none)

/-- One iteration of `main`'s plane loop over the slab state. -/
def slabStep (rayDir : Vec3) (st : SlabState) (pl : Plane) : SlabState :=
  let denom := dot pl.n rayDir
  if |denom| < TOL then st
  else
    let t := (pl.d - dot pl.n camPos) / denom
    if denom < 0 then
      (if t > st.1 then (t, st.2.1, some pl) else st)
    else
      (if t < st.2.1 then (st.1, t, st.2.2) else st)

/-- `main`'s whole plane loop for one pixel. -/
def runSlab (planes : List Plane) (rayDir : Vec3) : SlabState :=
  planes.foldl (slabStep rayDir) slabInit

/-- The miss test of `main`: `tNear > tFar || tFar < 0`. -/
def missOf (st : SlabState) : Prop := st.1 > st.2.1 ∨ st.2.1 < 0

/-- The visible hit parameter of `main`: `(tNear >= 0) ? tNear : tFar`. -/
def tHitOf (st : SlabState) : ℝ := if st.1 ≥ 0 then st.1 else st.2.1

/-- The shading normal choice of `main`: the tracked entering plane's normal
when one was recorded, else the fallback `{0, 0, 1}`. -/
def surfNOf (act : Option Plane) : Vec3 :=
  match act with
  | some pl => pl.n
  | none => ⟨0, 0, 1⟩

/-- The 8-bit intensity `main` computes from a raw diffuse dot product:
clamp below at 0, scale by 255, truncate to int, clamp above at 255. -/
def intensity (d : ℝ) : ℤ :=
  let diff := if d < 0 then 0 else d
  let c := ⌊diff * 255⌋
  if c > 255 then 255 else c

/-- The packed greyscale pixel `main` builds: `(c << 16) | (c << 8) | c`. -/
def greyColor (c : ℤ) : ℤ := c * 65536 + c * 256 + c

/-- The full per-pixel computation of `main` (one iteration of the nested
pixel loop, returning the packed color written to the buffer). -/
def shadePixel (planes : List Plane) (px py : ℤ) : ℤ :=
  let rayDir := rayOf px py
  let st := runSlab planes rayDir
  if missOf st then bgColor
  else
    let tHit := tHitOf st
    let hitPoint := add camPos (scale rayDir tHit)
    let surfNormal := surfNOf st.2.2
    let diff := dot surfNormal lightDir
    greyColor (intensity diff)

end

/-! ### The concrete dodecahedron input of `main` -/

noncomputable section

/-- `phi` of the source: the golden ratio `(1 + sqrt(5)) / 2`. -/
def phi : ℝ := (1 + Real.sqrt 5) / 2

/-- `invphi` of the source: `1.0 / phi`. -/
def invphi : ℝ := 1 / phi

/-- `baseVertices` of the source: the 20 vertices of a dodecahedron from the
golden-ratio construction. -/
def baseVertices : List Vec3 :=
  [⟨-1, -1, -1⟩, ⟨-1, -1, 1⟩, ⟨-1, 1, -1⟩, ⟨-1, 1, 1⟩,
   ⟨1, -1, -1⟩, ⟨1, -1, 1⟩, ⟨1, 1, -1⟩, ⟨1, 1, 1⟩,
   ⟨0, -invphi, -phi⟩, ⟨0, -invphi, phi⟩,
   ⟨0, invphi, -phi⟩, ⟨0, invphi, phi⟩,
   ⟨-phi, 0, -invphi⟩, ⟨-phi, 0, invphi⟩,
   ⟨phi, 0, -invphi⟩, ⟨phi, 0, invphi⟩,
   ⟨-invphi, -phi, 0⟩, ⟨-invphi, phi, 0⟩,
   ⟨invphi, -phi, 0⟩, ⟨invphi, phi, 0⟩]

/-- `modelScale` of `main`: `0.5`. -/
def modelScale : ℝ := 1 / 2

/-- `scaledVertices` of `main`: every base vertex scaled by `modelScale`. -/
def scaledVertices : List Vec3 := baseVertices.map fun v => scale v modelScale

end

/-! ### A computable mirror of the extractor over ℤ[√5]

The source's arithmetic on the dodecahedron input lives in the field ℚ(√5).
To decide the plane count by computation, the extractor is mirrored over
pairs of integers `(a, b)` denoting `a + b·√5`, with the vertex coordinates
scaled by `4` (making them integral) and every tolerance comparison
cross-multiplied into an exact integer comparison.  The mirror is proved
below to track the real-valued `computeBasePlanes` step by step. -/

/-- An element `a + b·√5` of ℤ[√5]. -/
structure Z5 where
  a : ℤ
  b : ℤ
deriving DecidableEq

namespace Z5

/-- Componentwise addition. -/
protected def add (x y : Z5) : Z5 := ⟨x.a + y.a, x.b + y.b⟩

/-- Componentwise subtraction. -/
protected def sub (x y : Z5) : Z5 := ⟨x.a - y.a, x.b - y.b⟩

/-- Multiplication using `√5 · √5 = 5`. -/
protected def mul (x y : Z5) : Z5 :=
  ⟨x.a * y.a + 5 * (x.b * y.b), x.a * y.b + x.b * y.a⟩

/-- Negation. -/
protected def neg (x : Z5) : Z5 := ⟨-x.a, -x.b⟩

instance : Add Z5 := ⟨Z5.add⟩
instance : Sub Z5 := ⟨Z5.sub⟩
instance : Mul Z5 := ⟨Z5.mul⟩
instance : Neg Z5 := ⟨Z5.neg⟩
instance : Zero Z5 := ⟨⟨0, 0⟩⟩
instance : One Z5 := ⟨⟨1, 0⟩⟩

/-- The integer `k` as an element of ℤ[√5]. -/
def ofInt (k : ℤ) : Z5 := ⟨k, 0⟩

/-- Decides `0 < a + b·√5` by integer sign analysis and squaring. -/
def posB (z : Z5) : Bool :=
  if 0 ≤ z.a then
    if 0 ≤ z.b then decide (z.a ≠ 0 ∨ z.b ≠ 0)
    else decide (5 * z.b ^ 2 < z.a ^ 2)
  else decide (0 < z.b ∧ z.a ^ 2 < 5 * z.b ^ 2)

/-- Decides `x < y` in ℤ[√5]. -/
def ltB (x y : Z5) : Bool := (y - x).posB

end Z5

/-- A 3-vector over ℤ[√5]. -/
structure Vec3Z where
  x : Z5
  y : Z5
  z : Z5
deriving DecidableEq

/-- Dot product over ℤ[√5]. -/
def dotZ (u v : Vec3Z) : Z5 := u.x * v.x + u.y * v.y + u.z * v.z

/-- Cross product over ℤ[√5]. -/
def crossZ (u v : Vec3Z) : Vec3Z :=
  ⟨u.y * v.z - u.z * v.y, u.z * v.x - u.x * v.z, u.x * v.y - u.y * v.x⟩

/-- Vector subtraction over ℤ[√5]. -/
def subZ (u v : Vec3Z) : Vec3Z := ⟨u.x - v.x, u.y - v.y, u.z - v.z⟩

/-- Vector negation over ℤ[√5]. -/
def negZ (u : Vec3Z) : Vec3Z := ⟨-u.x, -u.y, -u.z⟩

/-- A candidate plane of the mirror: the unnormalized cross product `raw`
(scaled by `64` against the real algorithm) and `a = dotZ raw vi`
(the unnormalized offset, scaled by `256`). -/
structure PlaneZ where
  raw : Vec3Z
  a : Z5
deriving DecidableEq

/-- Mirror of `side > TOL`, i.e. `s/(4·√q) > 1e-6`, cross-multiplied. -/
def sideGtZ (s q : Z5) : Bool :=
  s.posB && Z5.ltB (Z5.ofInt 16 * q) (Z5.ofInt (10 ^ 12) * (s * s))

/-- Mirror of `side < -TOL`, i.e. `s/(4·√q) < -1e-6`, cross-multiplied. -/
def sideLtZ (s q : Z5) : Bool :=
  (-s).posB && Z5.ltB (Z5.ofInt 16 * q) (Z5.ofInt (10 ^ 12) * (s * s))

/-- Decides `X < Y·√Q` (for `Q > 0`) by sign analysis and squaring. -/
def ltSqrtB (X Y Q : Z5) : Bool :=
  if Y.posB then ((-X).posB || Z5.ltB (X * X) (Y * Y * Q))
  else ((-X).posB && Z5.ltB (Y * Y * Q) (X * X))

/-- Mirror of the duplicate test of `computeBasePlanes`. -/
def dupZ (p c : PlaneZ) : Bool :=
  let qp := dotZ p.raw p.raw
  let qc := dotZ c.raw c.raw
  let r := dotZ p.raw c.raw
  let bigQ := qp * qc
  (r.posB && Z5.ltB (Z5.ofInt (999 ^ 2) * bigQ) (Z5.ofInt (10 ^ 6) * (r * r))
    && Z5.ltB (Z5.ofInt (10 ^ 6) * (r * r)) (Z5.ofInt (1001 ^ 2) * bigQ))
    && ltSqrtB
        (Z5.ofInt (10 ^ 6) * (p.a * p.a * qc + c.a * c.a * qp) - Z5.ofInt 16 * bigQ)
        (Z5.ofInt (2 * 10 ^ 6) * (p.a * c.a)) bigQ

/-- Mirror of the geometric candidate `candO`. -/
def candZ (vsZ : List Vec3Z) (t : ℕ × ℕ × ℕ) : Option PlaneZ :=
  let vi := vsZ.getD t.1 ⟨0, 0, 0⟩
  let vj := vsZ.getD t.2.1 ⟨0, 0, 0⟩
  let vk := vsZ.getD t.2.2 ⟨0, 0, 0⟩
  let raw := crossZ (subZ vj vi) (subZ vk vi)
  let q := dotZ raw raw
  if Z5.ltB (Z5.ofInt (10 ^ 12) * q) (Z5.ofInt 256) then none
  else
    let allBelowB := vsZ.all fun vm => !(sideGtZ (dotZ raw (subZ vm vi)) q)
    let allAboveB := vsZ.all fun vm => !(sideLtZ (dotZ raw (subZ vm vi)) q)
    if !(allBelowB || allAboveB) then none
    else if allAboveB then some ⟨negZ raw, -(dotZ raw vi)⟩ else some ⟨raw, dotZ raw vi⟩

/-- Mirror of the triple loop body. -/
def planeStepZ (vsZ : List Vec3Z) (maxP : ℕ) (acc : List PlaneZ)
    (t : ℕ × ℕ × ℕ) : List PlaneZ :=
  match candZ vsZ t with
  | none => acc
  | some c =>
      if (!(acc.any fun p => dupZ p c)) && decide (acc.length < maxP)
      then acc ++ [c] else acc

/-- Mirror of `computeBasePlanes`. -/
def computeBasePlanesZ (vsZ : List Vec3Z) (maxP : ℕ) : List PlaneZ :=
  (triples vsZ.length).foldl (planeStepZ vsZ maxP) []

/-- The 20 dodecahedron vertices scaled by `4 · 0.5 = 2`, with coordinates in
ℤ[√5]: `2·φ = 1 + √5` and `2/φ = -1 + √5`. -/
def dodecaZ : List Vec3Z :=
  [⟨⟨-2, 0⟩, ⟨-2, 0⟩, ⟨-2, 0⟩⟩, ⟨⟨-2, 0⟩, ⟨-2, 0⟩, ⟨2, 0⟩⟩,
   ⟨⟨-2, 0⟩, ⟨2, 0⟩, ⟨-2, 0⟩⟩, ⟨⟨-2, 0⟩, ⟨2, 0⟩, ⟨2, 0⟩⟩,
   ⟨⟨2, 0⟩, ⟨-2, 0⟩, ⟨-2, 0⟩⟩, ⟨⟨2, 0⟩, ⟨-2, 0⟩, ⟨2, 0⟩⟩,
   ⟨⟨2, 0⟩, ⟨2, 0⟩, ⟨-2, 0⟩⟩, ⟨⟨2, 0⟩, ⟨2, 0⟩, ⟨2, 0⟩⟩,
   ⟨⟨0, 0⟩, ⟨1, -1⟩, ⟨-1, -1⟩⟩, ⟨⟨0, 0⟩, ⟨1, -1⟩, ⟨1, 1⟩⟩,
   ⟨⟨0, 0⟩, ⟨-1, 1⟩, ⟨-1, -1⟩⟩, ⟨⟨0, 0⟩, ⟨-1, 1⟩, ⟨1, 1⟩⟩,
   ⟨⟨-1, -1⟩, ⟨0, 0⟩, ⟨1, -1⟩⟩, ⟨⟨-1, -1⟩, ⟨0, 0⟩, ⟨-1, 1⟩⟩,
   ⟨⟨1, 1⟩, ⟨0, 0⟩, ⟨1, -1⟩⟩, ⟨⟨1, 1⟩, ⟨0, 0⟩, ⟨-1, 1⟩⟩,
   ⟨⟨1, -1⟩, ⟨-1, -1⟩, ⟨0, 0⟩⟩, ⟨⟨1, -1⟩, ⟨1, 1⟩, ⟨0, 0⟩⟩,
   ⟨⟨-1, 1⟩, ⟨-1, -1⟩, ⟨0, 0⟩⟩, ⟨⟨-1, 1⟩, ⟨1, 1⟩, ⟨0, 0⟩⟩]

/-- The mirror's accepted-plane list after the first 60 triples. -/
def accS0 : List PlaneZ :=
  [⟨⟨⟨-8, 0⟩, ⟨4, -4⟩, ⟨0, 0⟩⟩, ⟨8, 8⟩⟩, ⟨⟨⟨4, -4⟩, ⟨0, 0⟩, ⟨-8, 0⟩⟩, ⟨8, 8⟩⟩, ⟨⟨⟨0, 0⟩, ⟨4, -4⟩, ⟨-12, 4⟩⟩, ⟨16, 0⟩⟩]

/-- The mirror's accepted-plane list after the first 120 triples. -/
def accS1 : List PlaneZ :=
  [⟨⟨⟨-8, 0⟩, ⟨4, -4⟩, ⟨0, 0⟩⟩, ⟨8, 8⟩⟩, ⟨⟨⟨4, -4⟩, ⟨0, 0⟩, ⟨-8, 0⟩⟩, ⟨8, 8⟩⟩, ⟨⟨⟨0, 0⟩, ⟨4, -4⟩, ⟨-12, 4⟩⟩, ⟨16, 0⟩⟩]

/-- The mirror's accepted-plane list after the first 180 triples. -/
def accS2 : List PlaneZ :=
  [⟨⟨⟨-8, 0⟩, ⟨4, -4⟩, ⟨0, 0⟩⟩, ⟨8, 8⟩⟩, ⟨⟨⟨4, -4⟩, ⟨0, 0⟩, ⟨-8, 0⟩⟩, ⟨8, 8⟩⟩, ⟨⟨⟨0, 0⟩, ⟨4, -4⟩, ⟨-12, 4⟩⟩, ⟨16, 0⟩⟩]

/-- The mirror's accepted-plane list after the first 240 triples. -/
def accS3 : List PlaneZ :=
  [⟨⟨⟨-8, 0⟩, ⟨4, -4⟩, ⟨0, 0⟩⟩, ⟨8, 8⟩⟩, ⟨⟨⟨4, -4⟩, ⟨0, 0⟩, ⟨-8, 0⟩⟩, ⟨8, 8⟩⟩, ⟨⟨⟨0, 0⟩, ⟨4, -4⟩, ⟨-12, 4⟩⟩, ⟨16, 0⟩⟩, ⟨⟨⟨4, -4⟩, ⟨0, 0⟩, ⟨8, 0⟩⟩, ⟨8, 8⟩⟩, ⟨⟨⟨0, 0⟩, ⟨4, -4⟩, ⟨12, -4⟩⟩, ⟨16, 0⟩⟩]

/-- The mirror's accepted-plane list after the first 300 triples. -/
def accS4 : List PlaneZ :=
  [⟨⟨⟨-8, 0⟩, ⟨4, -4⟩, ⟨0, 0⟩⟩, ⟨8, 8⟩⟩, ⟨⟨⟨4, -4⟩, ⟨0, 0⟩, ⟨-8, 0⟩⟩, ⟨8, 8⟩⟩, ⟨⟨⟨0, 0⟩, ⟨4, -4⟩, ⟨-12, 4⟩⟩, ⟨16, 0⟩⟩, ⟨⟨⟨4, -4⟩, ⟨0, 0⟩, ⟨8, 0⟩⟩, ⟨8, 8⟩⟩, ⟨⟨⟨0, 0⟩, ⟨4, -4⟩, ⟨12, -4⟩⟩, ⟨16, 0⟩⟩]

/-- The mirror's accepted-plane list after the first 360 triples. -/
def accS5 : List PlaneZ :=
  [⟨⟨⟨-8, 0⟩, ⟨4, -4⟩, ⟨0, 0⟩⟩, ⟨8, 8⟩⟩, ⟨⟨⟨4, -4⟩, ⟨0, 0⟩, ⟨-8, 0⟩⟩, ⟨8, 8⟩⟩, ⟨⟨⟨0, 0⟩, ⟨4, -4⟩, ⟨-12, 4⟩⟩, ⟨16, 0⟩⟩, ⟨⟨⟨4, -4⟩, ⟨0, 0⟩, ⟨8, 0⟩⟩, ⟨8, 8⟩⟩, ⟨⟨⟨0, 0⟩, ⟨4, -4⟩, ⟨12, -4⟩⟩, ⟨16, 0⟩⟩, ⟨⟨⟨-8, 0⟩, ⟨-4, 4⟩, ⟨0, 0⟩⟩, ⟨8, 8⟩⟩]

/-- The mirror's accepted-plane list after the first 420 triples. -/
def accS6 : List PlaneZ :=
  [⟨⟨⟨-8, 0⟩, ⟨4, -4⟩, ⟨0, 0⟩⟩, ⟨8, 8⟩⟩, ⟨⟨⟨4, -4⟩, ⟨0, 0⟩, ⟨-8, 0⟩⟩, ⟨8, 8⟩⟩, ⟨⟨⟨0, 0⟩, ⟨4, -4⟩, ⟨-12, 4⟩⟩, ⟨16, 0⟩⟩, ⟨⟨⟨4, -4⟩, ⟨0, 0⟩, ⟨8, 0⟩⟩, ⟨8, 8⟩⟩, ⟨⟨⟨0, 0⟩, ⟨4, -4⟩, ⟨12, -4⟩⟩, ⟨16, 0⟩⟩, ⟨⟨⟨-8, 0⟩, ⟨-4, 4⟩, ⟨0, 0⟩⟩, ⟨8, 8⟩⟩, ⟨⟨⟨0, 0⟩, ⟨-4, 4⟩, ⟨-12, 4⟩⟩, ⟨16, 0⟩⟩]

/-- The mirror's accepted-plane list after the first 480 triples. -/
def accS7 : List PlaneZ :=
  [⟨⟨⟨-8, 0⟩, ⟨4, -4⟩, ⟨0, 0⟩⟩, ⟨8, 8⟩⟩, ⟨⟨⟨4, -4⟩, ⟨0, 0⟩, ⟨-8, 0⟩⟩, ⟨8, 8⟩⟩, ⟨⟨⟨0, 0⟩, ⟨4, -4⟩, ⟨-12, 4⟩⟩, ⟨16, 0⟩⟩, ⟨⟨⟨4, -4⟩, ⟨0, 0⟩, ⟨8, 0⟩⟩, ⟨8, 8⟩⟩, ⟨⟨⟨0, 0⟩, ⟨4, -4⟩, ⟨12, -4⟩⟩, ⟨16, 0⟩⟩, ⟨⟨⟨-8, 0⟩, ⟨-4, 4⟩, ⟨0, 0⟩⟩, ⟨8, 8⟩⟩, ⟨⟨⟨0, 0⟩, ⟨-4, 4⟩, ⟨-12, 4⟩⟩, ⟨16, 0⟩⟩]

/-- The mirror's accepted-plane list after the first 540 triples. -/
def accS8 : List PlaneZ :=
  [⟨⟨⟨-8, 0⟩, ⟨4, -4⟩, ⟨0, 0⟩⟩, ⟨8, 8⟩⟩, ⟨⟨⟨4, -4⟩, ⟨0, 0⟩, ⟨-8, 0⟩⟩, ⟨8, 8⟩⟩, ⟨⟨⟨0, 0⟩, ⟨4, -4⟩, ⟨-12, 4⟩⟩, ⟨16, 0⟩⟩, ⟨⟨⟨4, -4⟩, ⟨0, 0⟩, ⟨8, 0⟩⟩, ⟨8, 8⟩⟩, ⟨⟨⟨0, 0⟩, ⟨4, -4⟩, ⟨12, -4⟩⟩, ⟨16, 0⟩⟩, ⟨⟨⟨-8, 0⟩, ⟨-4, 4⟩, ⟨0, 0⟩⟩, ⟨8, 8⟩⟩, ⟨⟨⟨0, 0⟩, ⟨-4, 4⟩, ⟨-12, 4⟩⟩, ⟨16, 0⟩⟩, ⟨⟨⟨0, 0⟩, ⟨-4, 4⟩, ⟨12, -4⟩⟩, ⟨16, 0⟩⟩]

/-- The mirror's accepted-plane list after the first 600 triples. -/
def accS9 : List PlaneZ :=
  [⟨⟨⟨-8, 0⟩, ⟨4, -4⟩, ⟨0, 0⟩⟩, ⟨8, 8⟩⟩, ⟨⟨⟨4, -4⟩, ⟨0, 0⟩, ⟨-8, 0⟩⟩, ⟨8, 8⟩⟩, ⟨⟨⟨0, 0⟩, ⟨4, -4⟩, ⟨-12, 4⟩⟩, ⟨16, 0⟩⟩, ⟨⟨⟨4, -4⟩, ⟨0, 0⟩, ⟨8, 0⟩⟩, ⟨8, 8⟩⟩, ⟨⟨⟨0, 0⟩, ⟨4, -4⟩, ⟨12, -4⟩⟩, ⟨16, 0⟩⟩, ⟨⟨⟨-8, 0⟩, ⟨-4, 4⟩, ⟨0, 0⟩⟩, ⟨8, 8⟩⟩, ⟨⟨⟨0, 0⟩, ⟨-4, 4⟩, ⟨-12, 4⟩⟩, ⟨16, 0⟩⟩, ⟨⟨⟨0, 0⟩, ⟨-4, 4⟩, ⟨12, -4⟩⟩, ⟨16, 0⟩⟩, ⟨⟨⟨8, 0⟩, ⟨4, -4⟩, ⟨0, 0⟩⟩, ⟨8, 8⟩⟩, ⟨⟨⟨-4, 4⟩, ⟨0, 0⟩, ⟨-8, 0⟩⟩, ⟨8, 8⟩⟩]

/-- The mirror's accepted-plane list after the first 660 triples. -/
def accS10 : List PlaneZ :=
  [⟨⟨⟨-8, 0⟩, ⟨4, -4⟩, ⟨0, 0⟩⟩, ⟨8, 8⟩⟩, ⟨⟨⟨4, -4⟩, ⟨0, 0⟩, ⟨-8, 0⟩⟩, ⟨8, 8⟩⟩, ⟨⟨⟨0, 0⟩, ⟨4, -4⟩, ⟨-12, 4⟩⟩, ⟨16, 0⟩⟩, ⟨⟨⟨4, -4⟩, ⟨0, 0⟩, ⟨8, 0⟩⟩, ⟨8, 8⟩⟩, ⟨⟨⟨0, 0⟩, ⟨4, -4⟩, ⟨12, -4⟩⟩, ⟨16, 0⟩⟩, ⟨⟨⟨-8, 0⟩, ⟨-4, 4⟩, ⟨0, 0⟩⟩, ⟨8, 8⟩⟩, ⟨⟨⟨0, 0⟩, ⟨-4, 4⟩, ⟨-12, 4⟩⟩, ⟨16, 0⟩⟩, ⟨⟨⟨0, 0⟩, ⟨-4, 4⟩, ⟨12, -4⟩⟩, ⟨16, 0⟩⟩, ⟨⟨⟨8, 0⟩, ⟨4, -4⟩, ⟨0, 0⟩⟩, ⟨8, 8⟩⟩, ⟨⟨⟨-4, 4⟩, ⟨0, 0⟩, ⟨-8, 0⟩⟩, ⟨8, 8⟩⟩]

/-- The mirror's accepted-plane list after the first 720 triples. -/
def accS11 : List PlaneZ :=
  [⟨⟨⟨-8, 0⟩, ⟨4, -4⟩, ⟨0, 0⟩⟩, ⟨8, 8⟩⟩, ⟨⟨⟨4, -4⟩, ⟨0, 0⟩, ⟨-8, 0⟩⟩, ⟨8, 8⟩⟩, ⟨⟨⟨0, 0⟩, ⟨4, -4⟩, ⟨-12, 4⟩⟩, ⟨16, 0⟩⟩, ⟨⟨⟨4, -4⟩, ⟨0, 0⟩, ⟨8, 0⟩⟩, ⟨8, 8⟩⟩, ⟨⟨⟨0, 0⟩, ⟨4, -4⟩, ⟨12, -4⟩⟩, ⟨16, 0⟩⟩, ⟨⟨⟨-8, 0⟩, ⟨-4, 4⟩, ⟨0, 0⟩⟩, ⟨8, 8⟩⟩, ⟨⟨⟨0, 0⟩, ⟨-4, 4⟩, ⟨-12, 4⟩⟩, ⟨16, 0⟩⟩, ⟨⟨⟨0, 0⟩, ⟨-4, 4⟩, ⟨12, -4⟩⟩, ⟨16, 0⟩⟩, ⟨⟨⟨8, 0⟩, ⟨4, -4⟩, ⟨0, 0⟩⟩, ⟨8, 8⟩⟩, ⟨⟨⟨-4, 4⟩, ⟨0, 0⟩, ⟨-8, 0⟩⟩, ⟨8, 8⟩⟩, ⟨⟨⟨-4, 4⟩, ⟨0, 0⟩, ⟨8, 0⟩⟩, ⟨8, 8⟩⟩]

/-- The mirror's accepted-plane list after the first 780 triples. -/
def accS12 : List PlaneZ :=
  [⟨⟨⟨-8, 0⟩, ⟨4, -4⟩, ⟨0, 0⟩⟩, ⟨8, 8⟩⟩, ⟨⟨⟨4, -4⟩, ⟨0, 0⟩, ⟨-8, 0⟩⟩, ⟨8, 8⟩⟩, ⟨⟨⟨0, 0⟩, ⟨4, -4⟩, ⟨-12, 4⟩⟩, ⟨16, 0⟩⟩, ⟨⟨⟨4, -4⟩, ⟨0, 0⟩, ⟨8, 0⟩⟩, ⟨8, 8⟩⟩, ⟨⟨⟨0, 0⟩, ⟨4, -4⟩, ⟨12, -4⟩⟩, ⟨16, 0⟩⟩, ⟨⟨⟨-8, 0⟩, ⟨-4, 4⟩, ⟨0, 0⟩⟩, ⟨8, 8⟩⟩, ⟨⟨⟨0, 0⟩, ⟨-4, 4⟩, ⟨-12, 4⟩⟩, ⟨16, 0⟩⟩, ⟨⟨⟨0, 0⟩, ⟨-4, 4⟩, ⟨12, -4⟩⟩, ⟨16, 0⟩⟩, ⟨⟨⟨8, 0⟩, ⟨4, -4⟩, ⟨0, 0⟩⟩, ⟨8, 8⟩⟩, ⟨⟨⟨-4, 4⟩, ⟨0, 0⟩, ⟨-8, 0⟩⟩, ⟨8, 8⟩⟩, ⟨⟨⟨-4, 4⟩, ⟨0, 0⟩, ⟨8, 0⟩⟩, ⟨8, 8⟩⟩]

/-- The mirror's accepted-plane list after the first 840 triples. -/
def accS13 : List PlaneZ :=
  [⟨⟨⟨-8, 0⟩, ⟨4, -4⟩, ⟨0, 0⟩⟩, ⟨8, 8⟩⟩, ⟨⟨⟨4, -4⟩, ⟨0, 0⟩, ⟨-8, 0⟩⟩, ⟨8, 8⟩⟩, ⟨⟨⟨0, 0⟩, ⟨4, -4⟩, ⟨-12, 4⟩⟩, ⟨16, 0⟩⟩, ⟨⟨⟨4, -4⟩, ⟨0, 0⟩, ⟨8, 0⟩⟩, ⟨8, 8⟩⟩, ⟨⟨⟨0, 0⟩, ⟨4, -4⟩, ⟨12, -4⟩⟩, ⟨16, 0⟩⟩, ⟨⟨⟨-8, 0⟩, ⟨-4, 4⟩, ⟨0, 0⟩⟩, ⟨8, 8⟩⟩, ⟨⟨⟨0, 0⟩, ⟨-4, 4⟩, ⟨-12, 4⟩⟩, ⟨16, 0⟩⟩, ⟨⟨⟨0, 0⟩, ⟨-4, 4⟩, ⟨12, -4⟩⟩, ⟨16, 0⟩⟩, ⟨⟨⟨8, 0⟩, ⟨4, -4⟩, ⟨0, 0⟩⟩, ⟨8, 8⟩⟩, ⟨⟨⟨-4, 4⟩, ⟨0, 0⟩, ⟨-8, 0⟩⟩, ⟨8, 8⟩⟩, ⟨⟨⟨-4, 4⟩, ⟨0, 0⟩, ⟨8, 0⟩⟩, ⟨8, 8⟩⟩, ⟨⟨⟨8, 0⟩, ⟨-4, 4⟩, ⟨0, 0⟩⟩, ⟨8, 8⟩⟩]

/-- The mirror's accepted-plane list after the first 900 triples. -/
def accS14 : List PlaneZ :=
  [⟨⟨⟨-8, 0⟩, ⟨4, -4⟩, ⟨0, 0⟩⟩, ⟨8, 8⟩⟩, ⟨⟨⟨4, -4⟩, ⟨0, 0⟩, ⟨-8, 0⟩⟩, ⟨8, 8⟩⟩, ⟨⟨⟨0, 0⟩, ⟨4, -4⟩, ⟨-12, 4⟩⟩, ⟨16, 0⟩⟩, ⟨⟨⟨4, -4⟩, ⟨0, 0⟩, ⟨8, 0⟩⟩, ⟨8, 8⟩⟩, ⟨⟨⟨0, 0⟩, ⟨4, -4⟩, ⟨12, -4⟩⟩, ⟨16, 0⟩⟩, ⟨⟨⟨-8, 0⟩, ⟨-4, 4⟩, ⟨0, 0⟩⟩, ⟨8, 8⟩⟩, ⟨⟨⟨0, 0⟩, ⟨-4, 4⟩, ⟨-12, 4⟩⟩, ⟨16, 0⟩⟩, ⟨⟨⟨0, 0⟩, ⟨-4, 4⟩, ⟨12, -4⟩⟩, ⟨16, 0⟩⟩, ⟨⟨⟨8, 0⟩, ⟨4, -4⟩, ⟨0, 0⟩⟩, ⟨8, 8⟩⟩, ⟨⟨⟨-4, 4⟩, ⟨0, 0⟩, ⟨-8, 0⟩⟩, ⟨8, 8⟩⟩, ⟨⟨⟨-4, 4⟩, ⟨0, 0⟩, ⟨8, 0⟩⟩, ⟨8, 8⟩⟩, ⟨⟨⟨8, 0⟩, ⟨-4, 4⟩, ⟨0, 0⟩⟩, ⟨8, 8⟩⟩]

/-- The mirror's accepted-plane list after the first 960 triples. -/
def accS15 : List PlaneZ :=
  [⟨⟨⟨-8, 0⟩, ⟨4, -4⟩, ⟨0, 0⟩⟩, ⟨8, 8⟩⟩, ⟨⟨⟨4, -4⟩, ⟨0, 0⟩, ⟨-8, 0⟩⟩, ⟨8, 8⟩⟩, ⟨⟨⟨0, 0⟩, ⟨4, -4⟩, ⟨-12, 4⟩⟩, ⟨16, 0⟩⟩, ⟨⟨⟨4, -4⟩, ⟨0, 0⟩, ⟨8, 0⟩⟩, ⟨8, 8⟩⟩, ⟨⟨⟨0, 0⟩, ⟨4, -4⟩, ⟨12, -4⟩⟩, ⟨16, 0⟩⟩, ⟨⟨⟨-8, 0⟩, ⟨-4, 4⟩, ⟨0, 0⟩⟩, ⟨8, 8⟩⟩, ⟨⟨⟨0, 0⟩, ⟨-4, 4⟩, ⟨-12, 4⟩⟩, ⟨16, 0⟩⟩, ⟨⟨⟨0, 0⟩, ⟨-4, 4⟩, ⟨12, -4⟩⟩, ⟨16, 0⟩⟩, ⟨⟨⟨8, 0⟩, ⟨4, -4⟩, ⟨0, 0⟩⟩, ⟨8, 8⟩⟩, ⟨⟨⟨-4, 4⟩, ⟨0, 0⟩, ⟨-8, 0⟩⟩, ⟨8, 8⟩⟩, ⟨⟨⟨-4, 4⟩, ⟨0, 0⟩, ⟨8, 0⟩⟩, ⟨8, 8⟩⟩, ⟨⟨⟨8, 0⟩, ⟨-4, 4⟩, ⟨0, 0⟩⟩, ⟨8, 8⟩⟩]

/-- The mirror's accepted-plane list after the first 1020 triples. -/
def accS16 : List PlaneZ :=
  [⟨⟨⟨-8, 0⟩, ⟨4, -4⟩, ⟨0, 0⟩⟩, ⟨8, 8⟩⟩, ⟨⟨⟨4, -4⟩, ⟨0, 0⟩, ⟨-8, 0⟩⟩, ⟨8, 8⟩⟩, ⟨⟨⟨0, 0⟩, ⟨4, -4⟩, ⟨-12, 4⟩⟩, ⟨16, 0⟩⟩, ⟨⟨⟨4, -4⟩, ⟨0, 0⟩, ⟨8, 0⟩⟩, ⟨8, 8⟩⟩, ⟨⟨⟨0, 0⟩, ⟨4, -4⟩, ⟨12, -4⟩⟩, ⟨16, 0⟩⟩, ⟨⟨⟨-8, 0⟩, ⟨-4, 4⟩, ⟨0, 0⟩⟩, ⟨8, 8⟩⟩, ⟨⟨⟨0, 0⟩, ⟨-4, 4⟩, ⟨-12, 4⟩⟩, ⟨16, 0⟩⟩, ⟨⟨⟨0, 0⟩, ⟨-4, 4⟩, ⟨12, -4⟩⟩, ⟨16, 0⟩⟩, ⟨⟨⟨8, 0⟩, ⟨4, -4⟩, ⟨0, 0⟩⟩, ⟨8, 8⟩⟩, ⟨⟨⟨-4, 4⟩, ⟨0, 0⟩, ⟨-8, 0⟩⟩, ⟨8, 8⟩⟩, ⟨⟨⟨-4, 4⟩, ⟨0, 0⟩, ⟨8, 0⟩⟩, ⟨8, 8⟩⟩, ⟨⟨⟨8, 0⟩, ⟨-4, 4⟩, ⟨0, 0⟩⟩, ⟨8, 8⟩⟩]

/-- The mirror's accepted-plane list after the first 1080 triples. -/
def accS17 : List PlaneZ :=
  [⟨⟨⟨-8, 0⟩, ⟨4, -4⟩, ⟨0, 0⟩⟩, ⟨8, 8⟩⟩, ⟨⟨⟨4, -4⟩, ⟨0, 0⟩, ⟨-8, 0⟩⟩, ⟨8, 8⟩⟩, ⟨⟨⟨0, 0⟩, ⟨4, -4⟩, ⟨-12, 4⟩⟩, ⟨16, 0⟩⟩, ⟨⟨⟨4, -4⟩, ⟨0, 0⟩, ⟨8, 0⟩⟩, ⟨8, 8⟩⟩, ⟨⟨⟨0, 0⟩, ⟨4, -4⟩, ⟨12, -4⟩⟩, ⟨16, 0⟩⟩, ⟨⟨⟨-8, 0⟩, ⟨-4, 4⟩, ⟨0, 0⟩⟩, ⟨8, 8⟩⟩, ⟨⟨⟨0, 0⟩, ⟨-4, 4⟩, ⟨-12, 4⟩⟩, ⟨16, 0⟩⟩, ⟨⟨⟨0, 0⟩, ⟨-4, 4⟩, ⟨12, -4⟩⟩, ⟨16, 0⟩⟩, ⟨⟨⟨8, 0⟩, ⟨4, -4⟩, ⟨0, 0⟩⟩, ⟨8, 8⟩⟩, ⟨⟨⟨-4, 4⟩, ⟨0, 0⟩, ⟨-8, 0⟩⟩, ⟨8, 8⟩⟩, ⟨⟨⟨-4, 4⟩, ⟨0, 0⟩, ⟨8, 0⟩⟩, ⟨8, 8⟩⟩, ⟨⟨⟨8, 0⟩, ⟨-4, 4⟩, ⟨0, 0⟩⟩, ⟨8, 8⟩⟩]

/-- The mirror's accepted-plane list after the first 1140 triples. -/
def accS18 : List PlaneZ :=
  [⟨⟨⟨-8, 0⟩, ⟨4, -4⟩, ⟨0, 0⟩⟩, ⟨8, 8⟩⟩, ⟨⟨⟨4, -4⟩, ⟨0, 0⟩, ⟨-8, 0⟩⟩, ⟨8, 8⟩⟩, ⟨⟨⟨0, 0⟩, ⟨4, -4⟩, ⟨-12, 4⟩⟩, ⟨16, 0⟩⟩, ⟨⟨⟨4, -4⟩, ⟨0, 0⟩, ⟨8, 0⟩⟩, ⟨8, 8⟩⟩, ⟨⟨⟨0, 0⟩, ⟨4, -4⟩, ⟨12, -4⟩⟩, ⟨16, 0⟩⟩, ⟨⟨⟨-8, 0⟩, ⟨-4, 4⟩, ⟨0, 0⟩⟩, ⟨8, 8⟩⟩, ⟨⟨⟨0, 0⟩, ⟨-4, 4⟩, ⟨-12, 4⟩⟩, ⟨16, 0⟩⟩, ⟨⟨⟨0, 0⟩, ⟨-4, 4⟩, ⟨12, -4⟩⟩, ⟨16, 0⟩⟩, ⟨⟨⟨8, 0⟩, ⟨4, -4⟩, ⟨0, 0⟩⟩, ⟨8, 8⟩⟩, ⟨⟨⟨-4, 4⟩, ⟨0, 0⟩, ⟨-8, 0⟩⟩, ⟨8, 8⟩⟩, ⟨⟨⟨-4, 4⟩, ⟨0, 0⟩, ⟨8, 0⟩⟩, ⟨8, 8⟩⟩, ⟨⟨⟨8, 0⟩, ⟨-4, 4⟩, ⟨0, 0⟩⟩, ⟨8, 8⟩⟩]

noncomputable section

/-- The real number an element of ℤ[√5] denotes. -/
def Z5.val (z : Z5) : ℝ := (z.a : ℝ) + (z.b : ℝ) * Real.sqrt 5

/-- The real vector a mirror vertex denotes: mirror coordinates carry a
factor `4`. -/
def val4V (z : Vec3Z) : Vec3 := ⟨z.x.val / 4, z.y.val / 4, z.z.val / 4⟩

/-- The real vector a mirror cross product denotes: it carries a factor
`16`. -/
def val16V (z : Vec3Z) : Vec3 := ⟨z.x.val / 16, z.y.val / 16, z.z.val / 16⟩

/-- The real plane a mirror candidate denotes: the normalized normal and
offset the real algorithm computes from the same triple. -/
def valP4 (p : PlaneZ) : Plane :=
  let q := (dotZ p.raw p.raw).val
  ⟨⟨p.raw.x.val / Real.sqrt q, p.raw.y.val / Real.sqrt q, p.raw.z.val / Real.sqrt q⟩,
    p.a.val / (4 * Real.sqrt q)⟩

end

/-! ## Theorems -/

/-- Dot products are symmetric. -/
theorem dot_comm (a b : Vec3) : dot a b = dot b a := by
  simp only [dot]; ring

/-- A dot product of a vector with itself is nonnegative. -/
theorem dot_self_nonneg (v : Vec3) : 0 ≤ dot v v := by
  have hx := mul_self_nonneg v.x
  have hy := mul_self_nonneg v.y
  have hz := mul_self_nonneg v.z
  simp only [dot]; linarith

/-- `length` is nonnegative. -/
theorem length_nonneg (v : Vec3) : 0 ≤ length v := Real.sqrt_nonneg _

/-- C8: when the input's length is below the `1e-6` tolerance, `normalize`
returns its input unchanged (the guard short-circuits the division). -/
theorem normalize_short_input (v : Vec3) (h : length v < TOL) : normalize v = v := by
  simp only [normalize, if_pos h]

/-- Witness for C8 at the zero vector. -/
theorem normalize_short_input_witness :
    length ⟨0, 0, 0⟩ < TOL ∧ normalize (⟨0, 0, 0⟩ : Vec3) = ⟨0, 0, 0⟩ := by
  have h0 : dot (⟨0, 0, 0⟩ : Vec3) ⟨0, 0, 0⟩ = 0 := by simp [dot]
  have h : length (⟨0, 0, 0⟩ : Vec3) < TOL := by
    rw [length, h0, Real.sqrt_zero, TOL]; norm_num
  exact ⟨h, normalize_short_input _ h⟩

/-- The composite rotation preserves the self dot product. -/
theorem dot_rotate_self (v : Vec3) (angle : ℝ) :
    dot (rotate v angle) (rotate v angle) = dot v v := by
  have hA := Real.sin_sq_add_cos_sq angle
  have hB := Real.sin_sq_add_cos_sq (angle * (1 / 2))
  simp only [rotate, dot]
  linear_combination (v.x ^ 2 + v.z ^ 2) * hA +
    (v.y ^ 2 + (-Real.sin angle * v.x + Real.cos angle * v.z) ^ 2) * hB

/-- C9: the two-axis composite rotation preserves Euclidean length. -/
theorem length_rotate (v : Vec3) (angle : ℝ) :
    length (rotate v angle) = length v := by
  unfold length
  rw [dot_rotate_self]

/-- C2: after the per-plane slab loop, a pixel gets the background color
exactly when `tNear > tFar` or `tFar < 0`; otherwise it is shaded from the
recorded entering plane's normal (fallback `{0,0,1}` when none was recorded),
and the visible hit parameter is `tNear` when `tNear ≥ 0`, else `tFar`. -/
theorem shadePixel_slab_cases (planes : List Plane) (px py : ℤ) :
    shadePixel planes px py =
      (if missOf (runSlab planes (rayOf px py)) then bgColor
       else greyColor (intensity
         (dot (surfNOf (runSlab planes (rayOf px py)).2.2) lightDir))) ∧
    tHitOf (runSlab planes (rayOf px py)) =
      (if 0 ≤ (runSlab planes (rayOf px py)).1
       then (runSlab planes (rayOf px py)).1
       else (runSlab planes (rayOf px py)).2.1) ∧
    (∀ pl : Plane, surfNOf (some pl) = pl.n) ∧ surfNOf none = ⟨0, 0, 1⟩ := by
  refine ⟨rfl, ?_, fun pl => rfl, rfl⟩
  simp only [tHitOf, ge_iff_le]

/-- C6 counterexample: the slab state is not initialized with infinities; the
initial `tNear` is the finite sentinel `-1e9` and the initial `tFar` is the
finite sentinel `1e9` (in particular bounded above by `2e9`), so the initial
interval is not literally unbounded. -/
theorem slabInit_counterexample :
    slabInit.1 = -1000000000 ∧ slabInit.2.1 = 1000000000 ∧
      slabInit.2.1 < 2000000000 := by
  refine ⟨rfl, rfl, ?_⟩
  rw [slabInit]
  norm_num

/-- C6 amended: at the start of each pixel's slab pass, `tNear` is the large
finite sentinel `-1e9`, `tFar` is `1e9`, and the tracked entering plane is
`none`; the sentinels stand in for an effectively unbounded interval but are
not infinities. -/
theorem slabInit_spec :
    slabInit = ((-1000000000 : ℝ), (1000000000 : ℝ), (none : Option Plane)) := rfl

/-- C5: a frame's rotated plane set has the cardinality of the base set, each
rotated normal is `rotate` of the corresponding base normal at the frame
angle, and each offset is the corresponding base offset unchanged. -/
theorem rotatedPlanes_spec (angle : ℝ) (base : List Plane) :
    (rotatedPlanes angle base).length = base.length ∧
    ∀ i : Fin base.length,
      ((rotatedPlanes angle base).get
          (Fin.cast (by simp [rotatedPlanes]) i)).n = rotate (base.get i).n angle ∧
      ((rotatedPlanes angle base).get
          (Fin.cast (by simp [rotatedPlanes]) i)).d = (base.get i).d := by
  refine ⟨by simp [rotatedPlanes], fun i => ?_⟩
  simp [rotatedPlanes]

/-- Scaling one argument of a dot product scales the product. -/
theorem dot_scale_left (v : Vec3) (s : ℝ) (w : Vec3) :
    dot (scale v s) w = s * dot v w := by
  simp only [dot, scale]; ring

/-- A nonpositive diffuse dot product is shaded to intensity `0`. -/
theorem intensity_of_nonpos {d : ℝ} (h : d ≤ 0) : intensity d = 0 := by
  rw [intensity]
  rcases lt_or_eq_of_le h with hlt | heq
  · simp only [if_pos hlt]
    norm_num
  · simp only [heq, lt_self_iff_false, if_false]
    norm_num

/-- C3: the 8-bit intensity is monotonically non-decreasing in the raw
diffuse dot product, always lies in `[0, 255]`, and is `0` for every normal
anti-parallel to the light direction (a negative multiple of `lightDir`). -/
theorem intensity_shading_spec :
    (∀ d₁ d₂ : ℝ, d₁ ≤ d₂ → intensity d₁ ≤ intensity d₂) ∧
    (∀ d : ℝ, 0 ≤ intensity d ∧ intensity d ≤ 255) ∧
    (∀ t : ℝ, 0 < t → intensity (dot (scale lightDir (-t)) lightDir) = 0) := by
  have hdiff : ∀ d : ℝ, 0 ≤ (if d < 0 then 0 else d) := by
    intro d
    by_cases h : d < 0
    · simp [h]
    · simp [h]; linarith [not_lt.mp h]
  refine ⟨?_, ?_, ?_⟩
  · intro d₁ d₂ hle
    have hmono : (if d₁ < 0 then 0 else d₁) ≤ (if d₂ < 0 then 0 else d₂) := by
      by_cases h2 : d₂ < 0
      · have h1 : d₁ < 0 := lt_of_le_of_lt hle h2
        simp [h1, h2]
      · by_cases h1 : d₁ < 0
        · simp only [if_pos h1, if_neg h2]
          exact le_of_not_lt h2
        · simp only [if_neg h1, if_neg h2]
          exact hle
    have hfloor : ⌊(if d₁ < 0 then 0 else d₁) * 255⌋ ≤ ⌊(if d₂ < 0 then 0 else d₂) * 255⌋ :=
      Int.floor_le_floor (by nlinarith)
    rw [intensity, intensity]
    by_cases hc1 : ⌊(if d₁ < 0 then 0 else d₁) * 255⌋ > 255 <;>
      by_cases hc2 : ⌊(if d₂ < 0 then 0 else d₂) * 255⌋ > 255 <;>
      simp only [hc1, hc2, if_pos, if_neg, if_true, if_false] <;> omega
  · intro d
    have h0 : (0 : ℤ) ≤ ⌊(if d < 0 then 0 else d) * 255⌋ := by
      apply Int.floor_nonneg.mpr
      nlinarith [hdiff d]
    rw [intensity]
    by_cases hc : ⌊(if d < 0 then 0 else d) * 255⌋ > 255 <;>
      simp only [hc, if_pos, if_neg, if_true, if_false] <;> omega
  · intro t ht
    apply intensity_of_nonpos
    rw [dot_scale_left]
    nlinarith [dot_self_nonneg lightDir]

/-- Witness for C3 at concrete inputs. -/
theorem intensity_shading_spec_witness :
    ((0 : ℝ) ≤ 1 ∧ intensity 0 ≤ intensity 1) ∧
    (0 ≤ intensity 0 ∧ intensity 0 ≤ 255) ∧
    ((0 : ℝ) < 1 ∧ intensity (dot (scale lightDir (-1)) lightDir) = 0) :=
  ⟨⟨by norm_num, intensity_shading_spec.1 0 1 (by norm_num)⟩,
   intensity_shading_spec.2.1 0,
   ⟨by norm_num, by
     have := intensity_shading_spec.2.2 1 (by norm_num)
     simpa using this⟩⟩

/-- The fixed light points away from the fallback normal. -/
theorem dot_fallback_lightDir_neg : dot ⟨0, 0, 1⟩ lightDir < 0 := by
  have h3 : (1 : ℝ) < Real.sqrt 3 := by
    rw [show (1 : ℝ) = Real.sqrt 1 from Real.sqrt_one.symm]
    exact Real.sqrt_lt_sqrt (by norm_num) (by norm_num)
  have hlen : length ⟨1, 1, -1⟩ = Real.sqrt 3 := by
    rw [length]
    norm_num [dot]
  have hnlt : ¬ length (⟨1, 1, -1⟩ : Vec3) < TOL := by
    rw [hlen, TOL]
    push_neg
    nlinarith
  rw [lightDir, normalize]
  simp only [hnlt, if_neg, if_false]
  rw [dot, hlen]
  have hpos : 0 < Real.sqrt 3 := by linarith
  have : (-1 : ℝ) / Real.sqrt 3 < 0 := by
    apply div_neg_of_neg_of_pos <;> norm_num [hpos]
  simp only [Vec3.mk.injEq]
  nlinarith [this]

/-- The fallback normal is shaded to intensity `0`. -/
theorem intensity_fallback : intensity (dot ⟨0, 0, 1⟩ lightDir) = 0 := by
  rw [intensity]
  simp only [if_pos dot_fallback_lightDir_neg]
  norm_num

/-- C10: with an empty plane set the miss test never fires (the initial
`tNear`/`tFar` sentinels survive and `tFar = 1e9 ≥ 0`), so every pixel is
shaded as a hit through the fallback normal `{0,0,1}`, and the background
color is never written. -/
theorem shadePixel_empty (px py : ℤ) :
    ¬ missOf (runSlab [] (rayOf px py)) ∧
    shadePixel [] px py = greyColor (intensity (dot ⟨0, 0, 1⟩ lightDir)) ∧
    shadePixel [] px py ≠ bgColor := by
  have hrun : runSlab [] (rayOf px py) = slabInit := rfl
  have hmiss : ¬ missOf (runSlab [] (rayOf px py)) := by
    rw [hrun, missOf, slabInit]
    push_neg
    norm_num
  have hshade : shadePixel [] px py = greyColor (intensity (dot ⟨0, 0, 1⟩ lightDir)) := by
    have hmiss' : ¬ missOf slabInit := by rw [← hrun]; exact hmiss
    rw [shadePixel]
    simp only [hrun, if_neg hmiss']
    rfl
  refine ⟨hmiss, hshade, ?_⟩
  rw [hshade, intensity_fallback, greyColor, bgColor]
  norm_num

/-! ### Structural lemmas about `computeBasePlanes` -/

/-- `length` of a scaled vector. -/
theorem length_scale (v : Vec3) (s : ℝ) : length (scale v s) = |s| * length v := by
  rw [length, length]
  have h : dot (scale v s) (scale v s) = s ^ 2 * dot v v := by
    simp only [dot, scale]; ring
  rw [h, Real.sqrt_mul (sq_nonneg s), Real.sqrt_sq_eq_abs]

/-- `normalize` really produces a unit vector when the guard does not fire. -/
theorem length_normalize {v : Vec3} (h : ¬ length v < TOL) :
    length (normalize v) = 1 := by
  have hTOL : (0 : ℝ) < TOL := by rw [TOL]; norm_num
  have hpos : 0 < length v := lt_of_lt_of_le hTOL (not_lt.mp h)
  have hL : length v ≠ 0 := ne_of_gt hpos
  have hdot : dot v v = length v ^ 2 := (Real.sq_sqrt (dot_self_nonneg v)).symm
  rw [normalize]
  simp only [if_neg h]
  rw [length]
  have key : dot ⟨v.x / length v, v.y / length v, v.z / length v⟩
      ⟨v.x / length v, v.y / length v, v.z / length v⟩ = 1 := by
    simp only [dot]
    field_simp
    have hd : v.x * v.x + v.y * v.y + v.z * v.z = length v ^ 2 := by
      rw [← hdot]; rw [dot]
    linarith [hd]
  rw [key, Real.sqrt_one]

/-- A fold preserves any invariant its step function preserves. -/
theorem foldl_inv {α β : Type _} (f : α → β → α) (P : α → Prop) (l : List β)
    (a : α) (h0 : P a) (hstep : ∀ x b, P x → P (f x b)) : P (l.foldl f a) := by
  induction l generalizing a with
  | nil => exact h0
  | cons b tl ih => exact ih (f a b) (hstep a b h0)

/-- Two folds over the same list preserve any relation their step functions
preserve. -/
theorem foldl_rel {α β : Type _} (f g : α → β → α) (R : α → α → Prop)
    (l : List β) (a₁ a₂ : α) (h0 : R a₁ a₂)
    (hstep : ∀ x y b, R x y → R (f x b) (g y b)) :
    R (l.foldl f a₁) (l.foldl g a₂) := by
  induction l generalizing a₁ a₂ with
  | nil => exact h0
  | cons b tl ih => exact ih (f a₁ b) (g a₂ b) (hstep a₁ a₂ b h0)

/-- `planeStep` decomposes through the accumulator-independent geometric
candidate `candO`: a triple either contributes nothing, or contributes its
candidate plane exactly when the candidate is no duplicate and there is
capacity. -/
theorem planeStep_eq_candO (vs : List Vec3) (maxP : ℕ) (acc : List Plane)
    (t : ℕ × ℕ × ℕ) :
    planeStep vs maxP acc t =
      match candO vs t with
      | none => acc
      | some pl =>
          if (¬ ∃ p ∈ acc, dupPred p pl) ∧ acc.length < maxP
          then acc ++ [pl] else acc := by
  rw [planeStep, candO]
  dsimp only
  set vi := vs.getD t.1 (⟨0, 0, 0⟩ : Vec3) with hvi
  set vj := vs.getD t.2.1 (⟨0, 0, 0⟩ : Vec3) with hvj
  set vk := vs.getD t.2.2 (⟨0, 0, 0⟩ : Vec3) with hvk
  set n0 := cross (subtract vj vi) (subtract vk vi) with hn0
  set n := normalize n0 with hn
  set d := dot n vi with hd
  by_cases h1 : length n0 < TOL
  · rw [if_pos h1, if_pos h1]
  · rw [if_neg h1, if_neg h1]
    by_cases h2 : ¬((∀ vm ∈ vs, dot n vm - d ≤ TOL) ∨ (∀ vm ∈ vs, -TOL ≤ dot n vm - d))
    · rw [if_pos h2, if_pos h2]
    · rw [if_neg h2, if_neg h2]
      by_cases h3 : ∀ vm ∈ vs, -TOL ≤ dot n vm - d
      · rw [if_pos h3, if_pos h3, if_pos h3]
      · rw [if_neg h3, if_neg h3, if_neg h3]

/-- Every candidate plane has an exactly unit normal and bounds every input
point within the `1e-6` tolerance. -/
theorem candO_spec {vs : List Vec3} {t : ℕ × ℕ × ℕ} {pl : Plane}
    (h : candO vs t = some pl) :
    length pl.n = 1 ∧ ∀ p ∈ vs, dot pl.n p ≤ pl.d + TOL := by
  rw [candO] at h
  dsimp only at h
  split_ifs at h with h1 h2 h3
  · -- allAbove branch: flipped candidate
    injection h with h'
    subst h'
    constructor
    · simp only
      rw [length_scale, length_normalize h1]
      norm_num
    · intro p hp
      have := h3 p hp
      simp only
      rw [dot_scale_left]
      linarith
  · -- allBelow branch (no flip)
    injection h with h'
    subst h'
    rcases h2 with hBelow | hAbove
    · constructor
      · exact length_normalize h1
      · intro p hp
        have := hBelow p hp
        linarith
    · exact absurd hAbove h3

/-- C4: for every input point set and capacity, no two distinct planes
returned by `computeBasePlanes` are duplicates under the `1e-3` tolerance:
for every ordered pair of returned planes it is not the case that their
normals' dot product is within `1e-3` of `1` while their offsets differ by
less than `1e-3`. -/
theorem computeBasePlanes_no_duplicates (vs : List Vec3) (maxP : ℕ) :
    List.Pairwise
      (fun p q => ¬ (|dot p.n q.n - 1| < DUP_TOL ∧ |p.d - q.d| < DUP_TOL))
      (computeBasePlanes vs maxP) := by
  rw [computeBasePlanes]
  apply foldl_inv _ _ _ _ List.Pairwise.nil
  intro acc t hP
  rw [planeStep_eq_candO]
  cases hc : candO vs t with
  | none => exact hP
  | some pl =>
    by_cases hacc : (¬ ∃ p ∈ acc, dupPred p pl) ∧ acc.length < maxP
    · simp only [if_pos hacc]
      rw [List.pairwise_append]
      refine ⟨hP, List.pairwise_singleton _ _, ?_⟩
      intro a ha b hb
      rw [List.mem_singleton] at hb
      subst hb
      intro hd
      exact hacc.1 ⟨a, ha, hd⟩
    · simp only [if_neg hacc]
      exact hP

/-- C7, capacity part: the returned plane count never exceeds the capacity. -/
theorem computeBasePlanes_length_le (vs : List Vec3) (maxP : ℕ) :
    (computeBasePlanes vs maxP).length ≤ maxP := by
  rw [computeBasePlanes]
  refine foldl_inv _ (fun acc : List Plane => acc.length ≤ maxP) _ _ (by simp) ?_
  intro acc t hP
  rw [planeStep_eq_candO]
  cases hc : candO vs t with
  | none => exact hP
  | some pl =>
    by_cases hacc : (¬ ∃ p ∈ acc, dupPred p pl) ∧ acc.length < maxP
    · simp only [if_pos hacc, List.length_append, List.length_singleton]
      omega
    · simp only [if_neg hacc]
      exact hP

/-- C7: the count is between `0` and `maxPlanes`, and a run with capacity
`maxPlanes` returns exactly the first `maxPlanes` planes of a run with larger
capacity — qualifying planes beyond capacity are silently dropped without
disturbing the accepted ones. -/
theorem computeBasePlanes_capacity (vs : List Vec3) (maxP : ℕ) :
    0 ≤ (computeBasePlanes vs maxP).length ∧
    (computeBasePlanes vs maxP).length ≤ maxP ∧
    computeBasePlanes vs maxP = (computeBasePlanes vs (maxP + 1)).take maxP := by
  refine ⟨Nat.zero_le _, computeBasePlanes_length_le vs maxP, ?_⟩
  rw [computeBasePlanes, computeBasePlanes]
  have hstep : ∀ x y t, ((x = y ∧ x.length ≤ maxP) ∨
        (x.length = maxP ∧ x = y.take maxP)) →
      ((planeStep vs maxP x t = planeStep vs (maxP + 1) y t ∧
          (planeStep vs maxP x t).length ≤ maxP) ∨
        ((planeStep vs maxP x t).length = maxP ∧
          planeStep vs maxP x t = (planeStep vs (maxP + 1) y t).take maxP)) := by
    intro x y t hR
    rw [planeStep_eq_candO, planeStep_eq_candO]
    cases hc : candO vs t with
    | none => exact hR
    | some pl =>
      rcases hR with ⟨heq, hle⟩ | ⟨hlen, heq⟩
      · subst heq
        by_cases hdup : ∃ p ∈ x, dupPred p pl
        · have h1 : ¬ ((¬ ∃ p ∈ x, dupPred p pl) ∧ x.length < maxP) := by
            intro hcontra; exact hcontra.1 hdup
          have h2 : ¬ ((¬ ∃ p ∈ x, dupPred p pl) ∧ x.length < maxP + 1) := by
            intro hcontra; exact hcontra.1 hdup
          simp only [if_neg h1, if_neg h2]
          exact Or.inl ⟨by trivial, hle⟩
        · rcases lt_or_eq_of_le hle with hlt | heqlen
          · have h1 : (¬ ∃ p ∈ x, dupPred p pl) ∧ x.length < maxP := ⟨hdup, hlt⟩
            have h2 : (¬ ∃ p ∈ x, dupPred p pl) ∧ x.length < maxP + 1 :=
              ⟨hdup, Nat.lt_succ_of_lt hlt⟩
            simp only [if_pos h1, if_pos h2]
            exact Or.inl ⟨by trivial, by simp only [List.length_append, List.length_singleton]; omega⟩
          · have h1 : ¬ ((¬ ∃ p ∈ x, dupPred p pl) ∧ x.length < maxP) := by
              intro hcontra; omega
            have h2 : (¬ ∃ p ∈ x, dupPred p pl) ∧ x.length < maxP + 1 := by
              constructor
              · exact hdup
              · omega
            simp only [if_neg h1, if_pos h2]
            refine Or.inr ⟨heqlen, ?_⟩
            rw [← heqlen]
            exact (List.take_left x [pl]).symm
      · have hylen : maxP ≤ y.length := by
          have hl : (y.take maxP).length = maxP := by rw [← heq, hlen]
          simp only [List.length_take] at hl
          omega
        have h1 : ¬ ((¬ ∃ p ∈ x, dupPred p pl) ∧ x.length < maxP) := by
          intro hcontra; omega
        simp only [if_neg h1]
        by_cases h2 : (¬ ∃ p ∈ y, dupPred p pl) ∧ y.length < maxP + 1
        · simp only [if_pos h2]
          refine Or.inr ⟨hlen, ?_⟩
          rw [List.take_append_of_le_length hylen]
          exact heq
        · simp only [if_neg h2]
          exact Or.inr ⟨hlen, heq⟩
  have key := foldl_rel (planeStep vs maxP) (planeStep vs (maxP + 1))
    (fun l₁ l₂ => (l₁ = l₂ ∧ l₁.length ≤ maxP) ∨
      (l₁.length = maxP ∧ l₁ = l₂.take maxP))
    (triples vs.length) [] [] (Or.inl ⟨rfl, Nat.zero_le _⟩) hstep
  rcases key with ⟨heq, hle⟩ | ⟨hlen, heq⟩
  · rw [heq, List.take_of_length_le (heq ▸ hle)]
  · exact heq

/-- Every plane `computeBasePlanes` returns has an exactly unit normal and
satisfies the half-space inequality for every input point. -/
theorem computeBasePlanes_sound (vs : List Vec3) (maxP : ℕ) :
    ∀ pl ∈ computeBasePlanes vs maxP,
      length pl.n = 1 ∧ ∀ p ∈ vs, dot pl.n p ≤ pl.d + TOL := by
  rw [computeBasePlanes]
  refine foldl_inv _ (fun acc : List Plane => ∀ pl ∈ acc, length pl.n = 1 ∧
    ∀ p ∈ vs, dot pl.n p ≤ pl.d + TOL) _ _ (by simp) ?_
  intro acc t hP
  rw [planeStep_eq_candO]
  cases hc : candO vs t with
  | none => exact hP
  | some pl =>
    by_cases hacc : (¬ ∃ p ∈ acc, dupPred p pl) ∧ acc.length < maxP
    · simp only [if_pos hacc]
      intro q hq
      rw [List.mem_append, List.mem_singleton] at hq
      rcases hq with hq | hq
      · exact hP q hq
      · subst hq
        exact candO_spec hc
    · simp only [if_neg hacc]
      exact hP

/-! ### ℤ[√5]: values, signs, and order -/

/-- `Z5.add` denotes real addition. -/
theorem Z5.val_add (x y : Z5) : (x + y).val = x.val + y.val := by
  show (Z5.add x y).val = _
  simp only [Z5.add, Z5.val]
  push_cast
  ring

/-- `Z5.sub` denotes real subtraction. -/
theorem Z5.val_sub (x y : Z5) : (x - y).val = x.val - y.val := by
  show (Z5.sub x y).val = _
  simp only [Z5.sub, Z5.val]
  push_cast
  ring

/-- `Z5.neg` denotes real negation. -/
theorem Z5.val_neg (x : Z5) : (-x).val = -x.val := by
  show (Z5.neg x).val = _
  simp only [Z5.neg, Z5.val]
  push_cast
  ring

/-- `Z5.mul` denotes real multiplication. -/
theorem Z5.val_mul (x y : Z5) : (x * y).val = x.val * y.val := by
  have h5 : Real.sqrt 5 * Real.sqrt 5 = 5 := Real.mul_self_sqrt (by norm_num)
  show (Z5.mul x y).val = _
  simp only [Z5.mul, Z5.val]
  push_cast
  linear_combination (-((x.b : ℝ) * y.b)) * h5

/-- `Z5.ofInt` denotes the integer it wraps. -/
theorem Z5.val_ofInt (k : ℤ) : (Z5.ofInt k).val = (k : ℝ) := by
  simp [Z5.ofInt, Z5.val]

/-- The zero of ℤ[√5] denotes `0`. -/
theorem Z5.val_zero : (0 : Z5).val = 0 := by
  show (⟨0, 0⟩ : Z5).val = 0
  simp [Z5.val]

/-- `Z5.posB` decides real positivity. -/
theorem Z5.posB_iff (z : Z5) : z.posB = true ↔ 0 < z.val := by
  have h5 : Real.sqrt 5 * Real.sqrt 5 = 5 := Real.mul_self_sqrt (by norm_num)
  have h50 : 0 < Real.sqrt 5 := Real.sqrt_pos.mpr (by norm_num)
  set s := Real.sqrt 5 with hs
  have prod1 : ((z.a : ℝ) + z.b * s) * ((z.a : ℝ) - z.b * s) =
      (z.a : ℝ) ^ 2 - 5 * (z.b : ℝ) ^ 2 := by
    linear_combination (-((z.b : ℝ) ^ 2)) * h5
  rw [Z5.val]
  rcases le_or_lt 0 z.a with ha | ha
  · have haR : (0 : ℝ) ≤ (z.a : ℝ) := by exact_mod_cast ha
    rcases le_or_lt 0 z.b with hb | hb
    · have hbR : (0 : ℝ) ≤ (z.b : ℝ) := by exact_mod_cast hb
      rw [Z5.posB, if_pos ha, if_pos hb]
      simp only [decide_eq_true_eq]
      constructor
      · rintro (h | h)
        · have ha' : (0 : ℝ) < (z.a : ℝ) := by
            exact_mod_cast lt_of_le_of_ne ha (Ne.symm h)
          nlinarith [mul_nonneg hbR h50.le]
        · have hb' : (0 : ℝ) < (z.b : ℝ) := by
            exact_mod_cast lt_of_le_of_ne hb (Ne.symm h)
          nlinarith [mul_pos hb' h50]
      · intro hv
        by_contra hcon
        push_neg at hcon
        obtain ⟨ha0, hb0⟩ := hcon
        rw [ha0, hb0] at hv
        norm_num at hv
    · have hbR : (z.b : ℝ) < 0 := by exact_mod_cast hb
      have key : 0 < (z.a : ℝ) - z.b * s := by nlinarith [mul_pos (neg_pos.mpr hbR) h50]
      rw [Z5.posB, if_pos ha, if_neg (not_le.mpr hb)]
      simp only [decide_eq_true_eq]
      constructor
      · intro h
        have h' : 5 * (z.b : ℝ) ^ 2 < (z.a : ℝ) ^ 2 := by exact_mod_cast h
        by_contra hle
        push_neg at hle
        have hm : ((z.a : ℝ) + z.b * s) * ((z.a : ℝ) - z.b * s) ≤ 0 :=
          mul_nonpos_of_nonpos_of_nonneg hle key.le
        rw [prod1] at hm
        linarith
      · intro h
        have hm : 0 < ((z.a : ℝ) + z.b * s) * ((z.a : ℝ) - z.b * s) := mul_pos h key
        rw [prod1] at hm
        have hg : 5 * (z.b : ℝ) ^ 2 < (z.a : ℝ) ^ 2 := by linarith
        exact_mod_cast hg
  · have haR : (z.a : ℝ) < 0 := by exact_mod_cast ha
    rw [Z5.posB, if_neg (not_le.mpr ha)]
    simp only [decide_eq_true_eq]
    have prod2 : ((z.b : ℝ) * s + z.a) * ((z.b : ℝ) * s - z.a) =
        5 * (z.b : ℝ) ^ 2 - (z.a : ℝ) ^ 2 := by
      linear_combination ((z.b : ℝ) ^ 2) * h5
    constructor
    · rintro ⟨hb, hlt⟩
      have hbR : (0 : ℝ) < (z.b : ℝ) := by exact_mod_cast hb
      have hlt' : (z.a : ℝ) ^ 2 < 5 * (z.b : ℝ) ^ 2 := by exact_mod_cast hlt
      have key : 0 < (z.b : ℝ) * s - z.a := by nlinarith [mul_pos hbR h50]
      by_contra hle
      push_neg at hle
      have hm : ((z.b : ℝ) * s + z.a) * ((z.b : ℝ) * s - z.a) ≤ 0 := by
        apply mul_nonpos_of_nonpos_of_nonneg _ key.le
        linarith
      rw [prod2] at hm
      linarith
    · intro h
      have hb : 0 < z.b := by
        by_contra hble
        push_neg at hble
        have : (z.b : ℝ) ≤ 0 := by exact_mod_cast hble
        nlinarith [mul_nonpos_of_nonpos_of_nonneg this h50.le]
      refine ⟨hb, ?_⟩
      have hbR : (0 : ℝ) < (z.b : ℝ) := by exact_mod_cast hb
      have key : 0 < (z.b : ℝ) * s - z.a := by nlinarith [mul_pos hbR h50]
      have hm : 0 < ((z.b : ℝ) * s + z.a) * ((z.b : ℝ) * s - z.a) := by
        apply mul_pos _ key
        linarith
      rw [prod2] at hm
      have hg : (z.a : ℝ) ^ 2 < 5 * (z.b : ℝ) ^ 2 := by linarith
      exact_mod_cast hg

/-- `Z5.ltB` decides the real order. -/
theorem Z5.ltB_iff (x y : Z5) : Z5.ltB x y = true ↔ x.val < y.val := by
  rw [Z5.ltB, Z5.posB_iff, Z5.val_sub]
  exact sub_pos

/-- `Z5.posB` on a negation decides real negativity. -/
theorem Z5.posB_neg_iff (x : Z5) : (-x).posB = true ↔ x.val < 0 := by
  rw [Z5.posB_iff, Z5.val_neg]
  exact neg_pos

/-! ### Comparisons against square roots -/

/-- `c < s / √q` unfolded into sign and squared comparisons. -/
theorem div_sqrt_gt_iff {s q c : ℝ} (hq : 0 < q) (hc : 0 < c) :
    c < s / Real.sqrt q ↔ 0 < s ∧ c ^ 2 * q < s ^ 2 := by
  have hsq : 0 < Real.sqrt q := Real.sqrt_pos.mpr hq
  have hsq2 : Real.sqrt q ^ 2 = q := Real.sq_sqrt hq.le
  rw [lt_div_iff hsq]
  constructor
  · intro h
    have hs : 0 < s := lt_trans (mul_pos hc hsq) h
    exact ⟨hs, by nlinarith [mul_pos hc hsq]⟩
  · rintro ⟨hs, hlt⟩
    nlinarith [mul_pos hc hsq]

/-- `s / √q < -c` unfolded into sign and squared comparisons. -/
theorem div_sqrt_lt_neg_iff {s q c : ℝ} (hq : 0 < q) (hc : 0 < c) :
    s / Real.sqrt q < -c ↔ s < 0 ∧ c ^ 2 * q < s ^ 2 := by
  have hsq : 0 < Real.sqrt q := Real.sqrt_pos.mpr hq
  have hsq2 : Real.sqrt q ^ 2 = q := Real.sq_sqrt hq.le
  rw [div_lt_iff hsq]
  constructor
  · intro h
    have hs : s < 0 := lt_trans h (by nlinarith [mul_pos hc hsq])
    exact ⟨hs, by nlinarith [mul_pos hc hsq]⟩
  · rintro ⟨hs, hlt⟩
    nlinarith [mul_pos hc hsq]

/-- `X < Y · √Q` unfolded into sign and squared comparisons. -/
theorem lt_mul_sqrt_iff {X Y Q : ℝ} (hQ : 0 < Q) :
    X < Y * Real.sqrt Q ↔
      (0 < Y ∧ (X < 0 ∨ X ^ 2 < Y ^ 2 * Q)) ∨
        (¬ 0 < Y ∧ X < 0 ∧ Y ^ 2 * Q < X ^ 2) := by
  have hsq : 0 < Real.sqrt Q := Real.sqrt_pos.mpr hQ
  have hsq2 : Real.sqrt Q ^ 2 = Q := Real.sq_sqrt hQ.le
  by_cases hY : 0 < Y
  · constructor
    · intro h
      rcases lt_or_le X 0 with hx | hx
      · exact Or.inl ⟨hY, Or.inl hx⟩
      · exact Or.inl ⟨hY, Or.inr (by nlinarith [mul_pos hY hsq])⟩
    · rintro (⟨-, hcase⟩ | ⟨hny, -⟩)
      · rcases hcase with hx | hx
        · exact lt_of_lt_of_le hx (mul_nonneg hY.le hsq.le)
        · nlinarith [mul_pos hY hsq]
      · exact absurd hY hny
  · have hY' : Y ≤ 0 := not_lt.mp hY
    have hYs : Y * Real.sqrt Q ≤ 0 := mul_nonpos_of_nonpos_of_nonneg hY' hsq.le
    constructor
    · intro h
      have hx : X < 0 := lt_of_lt_of_le h hYs
      exact Or.inr ⟨hY, hx, by nlinarith⟩
    · rintro (⟨hY0, -⟩ | ⟨-, hx, hlt⟩)
      · exact absurd hY0 hY
      · nlinarith

/-- `|r/√Q - 1| < 1/1000` unfolded into sign and squared comparisons. -/
theorem near_one_iff {r Q : ℝ} (hQ : 0 < Q) :
    |r / Real.sqrt Q - 1| < 1 / 1000 ↔
      0 < r ∧ (999 / 1000) ^ 2 * Q < r ^ 2 ∧ r ^ 2 < (1001 / 1000) ^ 2 * Q := by
  have hsq : 0 < Real.sqrt Q := Real.sqrt_pos.mpr hQ
  have hsq2 : Real.sqrt Q ^ 2 = Q := Real.sq_sqrt hQ.le
  rw [abs_lt]
  constructor
  · rintro ⟨h1, h2⟩
    have ha : (999 / 1000 : ℝ) < r / Real.sqrt Q := by linarith
    have hb : r / Real.sqrt Q < 1001 / 1000 := by linarith
    rw [lt_div_iff hsq] at ha
    rw [div_lt_iff hsq] at hb
    have hr : 0 < r := lt_trans (by positivity) ha
    refine ⟨hr, by nlinarith, by nlinarith⟩
  · rintro ⟨hr, hlo, hhi⟩
    have hlo' : (999 / 1000 : ℝ) * Real.sqrt Q < r := by nlinarith [mul_pos (show (0:ℝ) < 999/1000 by norm_num) hsq]
    have hhi' : r < (1001 / 1000 : ℝ) * Real.sqrt Q := by nlinarith [mul_pos (show (0:ℝ) < 1001/1000 by norm_num) hsq]
    constructor
    · rw [lt_sub_iff_add_lt]
      rw [lt_div_iff hsq]
      linarith
    · rw [sub_lt_iff_lt_add]
      rw [div_lt_iff hsq]
      linarith

/-- `|pa/√qp - ca/√qc| < c` as a one-square-root comparison over the product
`qp·qc`. -/
theorem offset_close_iff {pa ca qp qc c : ℝ} (hqp : 0 < qp) (hqc : 0 < qc)
    (hc : 0 < c) :
    |pa / Real.sqrt qp - ca / Real.sqrt qc| < c ↔
      pa ^ 2 * qc + ca ^ 2 * qp - c ^ 2 * (qp * qc) <
        (2 * (pa * ca)) * Real.sqrt (qp * qc) := by
  have hsp : 0 < Real.sqrt qp := Real.sqrt_pos.mpr hqp
  have hsc : 0 < Real.sqrt qc := Real.sqrt_pos.mpr hqc
  have hsp2 : Real.sqrt qp ^ 2 = qp := Real.sq_sqrt hqp.le
  have hsc2 : Real.sqrt qc ^ 2 = qc := Real.sq_sqrt hqc.le
  have hprod : Real.sqrt (qp * qc) = Real.sqrt qp * Real.sqrt qc :=
    Real.sqrt_mul hqp.le qc
  rw [hprod]
  have habs : |pa / Real.sqrt qp - ca / Real.sqrt qc| < c ↔
      (pa / Real.sqrt qp - ca / Real.sqrt qc) ^ 2 < c ^ 2 := by
    constructor
    · intro h
      nlinarith [sq_abs (pa / Real.sqrt qp - ca / Real.sqrt qc),
        abs_nonneg (pa / Real.sqrt qp - ca / Real.sqrt qc)]
    · intro h
      rw [abs_lt]
      constructor <;> nlinarith
  rw [habs, div_sub_div _ _ (ne_of_gt hsp) (ne_of_gt hsc), div_pow,
    div_lt_iff (by positivity)]
  set sp := Real.sqrt qp
  set sc := Real.sqrt qc
  rw [← hsp2, ← hsc2]
  constructor <;> intro h <;> nlinarith [h]

/-! ### Values of the mirror's vectors -/

/-- `dotZ` unfolded to component values. -/
theorem val_dotZ (u v : Vec3Z) :
    (dotZ u v).val = u.x.val * v.x.val + u.y.val * v.y.val + u.z.val * v.z.val := by
  simp only [dotZ, Z5.val_add, Z5.val_mul]

/-- `subtract` commutes with the value map (the `4` scale is linear). -/
theorem subtract_val4V (u v : Vec3Z) :
    subtract (val4V u) (val4V v) = val4V (subZ u v) := by
  simp only [subtract, val4V, subZ, Z5.val_sub, Vec3.mk.injEq]
  refine ⟨by ring, by ring, by ring⟩

/-- `cross` of two `4`-scaled mirror vectors is the `16`-scaled mirror
cross product. -/
theorem cross_val4V (u v : Vec3Z) :
    cross (val4V u) (val4V v) = val16V (crossZ u v) := by
  simp only [cross, val4V, val16V, crossZ, Z5.val_sub, Z5.val_mul, Vec3.mk.injEq]
  refine ⟨by ring, by ring, by ring⟩

/-- `dot` of two `16`-scaled mirror vectors. -/
theorem dot_val16V (u v : Vec3Z) :
    dot (val16V u) (val16V v) = (dotZ u v).val / 256 := by
  simp only [dot, val16V, val_dotZ]
  ring

/-- The self dot product of a negated mirror vector. -/
theorem val_dotZ_neg_neg (u : Vec3Z) :
    (dotZ (negZ u) (negZ u)).val = (dotZ u u).val := by
  simp only [val_dotZ, negZ, Z5.val_neg]
  ring

/-! ### The mirror's tests decide the real algorithm's tests -/

/-- `sideGtZ` decides `side > TOL` for the scaled side value `s/(4·√q)`. -/
theorem sideGt_iff {sZ qZ : Z5} (hq : 0 < qZ.val) :
    sideGtZ sZ qZ = true ↔ TOL < sZ.val / (4 * Real.sqrt qZ.val) := by
  have hrw : sZ.val / (4 * Real.sqrt qZ.val) = sZ.val / Real.sqrt qZ.val / 4 := by
    rw [div_div]
    ring_nf
  rw [sideGtZ, Bool.and_eq_true, Z5.posB_iff, Z5.ltB_iff]
  simp only [Z5.val_mul, Z5.val_ofInt]
  rw [hrw, lt_div_iff (by norm_num : (0:ℝ) < 4),
    div_sqrt_gt_iff hq (by rw [TOL]; norm_num : (0:ℝ) < TOL * 4)]
  rw [TOL]
  constructor <;> rintro ⟨h1, h2⟩ <;> refine ⟨h1, ?_⟩ <;> push_cast at h2 ⊢ <;> nlinarith [h2]

/-- `sideLtZ` decides `side < -TOL` for the scaled side value `s/(4·√q)`. -/
theorem sideLt_iff {sZ qZ : Z5} (hq : 0 < qZ.val) :
    sideLtZ sZ qZ = true ↔ sZ.val / (4 * Real.sqrt qZ.val) < -TOL := by
  have hrw : sZ.val / (4 * Real.sqrt qZ.val) = sZ.val / Real.sqrt qZ.val / 4 := by
    rw [div_div]
    ring_nf
  rw [sideLtZ, Bool.and_eq_true, Z5.posB_neg_iff, Z5.ltB_iff]
  simp only [Z5.val_mul, Z5.val_ofInt]
  rw [hrw, div_lt_iff (by norm_num : (0:ℝ) < 4)]
  rw [show -TOL * 4 = -(TOL * 4) by ring,
    div_sqrt_lt_neg_iff hq (by rw [TOL]; norm_num : (0:ℝ) < TOL * 4)]
  rw [TOL]
  constructor <;> rintro ⟨h1, h2⟩ <;> refine ⟨h1, ?_⟩ <;> push_cast at h2 ⊢ <;> nlinarith [h2]

/-- `ltSqrtB` decides `X < Y·√Q` when `Q > 0`. -/
theorem ltSqrtB_iff {X Y Q : Z5} (hQ : 0 < Q.val) :
    ltSqrtB X Y Q = true ↔ X.val < Y.val * Real.sqrt Q.val := by
  rw [lt_mul_sqrt_iff hQ]
  constructor
  · intro h
    rw [ltSqrtB] at h
    by_cases hy : Y.posB = true
    · rw [if_pos hy, Bool.or_eq_true] at h
      refine Or.inl ⟨(Z5.posB_iff Y).mp hy, ?_⟩
      rcases h with h | h
      · exact Or.inl ((Z5.posB_neg_iff X).mp h)
      · right
        have hlt := (Z5.ltB_iff _ _).mp h
        simp only [Z5.val_mul] at hlt
        nlinarith [hlt]
    · rw [if_neg hy, Bool.and_eq_true] at h
      refine Or.inr ⟨fun hpos => hy ((Z5.posB_iff Y).mpr hpos),
        (Z5.posB_neg_iff X).mp h.1, ?_⟩
      have hlt := (Z5.ltB_iff _ _).mp h.2
      simp only [Z5.val_mul] at hlt
      nlinarith [hlt]
  · intro h
    rw [ltSqrtB]
    rcases h with ⟨hy, hcase⟩ | ⟨hy, hx, hlt⟩
    · rw [if_pos ((Z5.posB_iff Y).mpr hy), Bool.or_eq_true]
      rcases hcase with hx | hlt
      · exact Or.inl ((Z5.posB_neg_iff X).mpr hx)
      · right
        rw [Z5.ltB_iff]
        simp only [Z5.val_mul]
        nlinarith [hlt]
    · have hyb : ¬ Y.posB = true := fun hh => hy ((Z5.posB_iff Y).mp hh)
      rw [if_neg hyb, Bool.and_eq_true]
      refine ⟨(Z5.posB_neg_iff X).mpr hx, ?_⟩
      rw [Z5.ltB_iff]
      simp only [Z5.val_mul]
      nlinarith [hlt]

/-- A mirror self dot product denotes a nonnegative real. -/
theorem dotZ_self_val_nonneg (u : Vec3Z) : 0 ≤ (dotZ u u).val := by
  rw [val_dotZ]
  nlinarith [mul_self_nonneg u.x.val, mul_self_nonneg u.y.val, mul_self_nonneg u.z.val]

/-- The dot product of two mirror candidates' normalized normals. -/
theorem dot_valP4_n (p c : PlaneZ) :
    dot (valP4 p).n (valP4 c).n =
      (dotZ p.raw c.raw).val /
        Real.sqrt ((dotZ p.raw p.raw).val * (dotZ c.raw c.raw).val) := by
  have hp := dotZ_self_val_nonneg p.raw
  rw [Real.sqrt_mul hp, valP4, valP4]
  dsimp only
  rw [dot]
  dsimp only
  rw [val_dotZ, div_mul_div_comm, div_mul_div_comm, div_mul_div_comm,
    div_add_div_same, div_add_div_same]
  congr 1
  rw [val_dotZ]

/-- `dupZ` decides the duplicate test on the denoted planes. -/
theorem dupZ_iff {p c : PlaneZ} (hp : 0 < (dotZ p.raw p.raw).val)
    (hc : 0 < (dotZ c.raw c.raw).val) :
    dupZ p c = true ↔ dupPred (valP4 p) (valP4 c) := by
  have hQ : 0 < (dotZ p.raw p.raw).val * (dotZ c.raw c.raw).val := mul_pos hp hc
  have hQ' : ((dotZ p.raw p.raw) * (dotZ c.raw c.raw)).val =
      (dotZ p.raw p.raw).val * (dotZ c.raw c.raw).val := Z5.val_mul _ _
  rw [dupZ]
  rw [Bool.and_eq_true, Bool.and_eq_true, Bool.and_eq_true, dupPred]
  have hd1 : (valP4 p).d = p.a.val / (4 * Real.sqrt (dotZ p.raw p.raw).val) := rfl
  have hd2 : (valP4 c).d = c.a.val / (4 * Real.sqrt (dotZ c.raw c.raw).val) := rfl
  rw [hd1, hd2, dot_valP4_n, DUP_TOL]
  constructor
  · rintro ⟨⟨⟨hr, hlo⟩, hhi⟩, hoff⟩
    have hrv := (Z5.posB_iff _).mp hr
    have hlov := (Z5.ltB_iff _ _).mp hlo
    have hhiv := (Z5.ltB_iff _ _).mp hhi
    simp only [Z5.val_mul, Z5.val_ofInt] at hlov hhiv
    have hoffv := (ltSqrtB_iff (hQ' ▸ hQ)).mp hoff
    simp only [Z5.val_sub, Z5.val_add, Z5.val_mul, Z5.val_ofInt] at hoffv
    constructor
    · rw [near_one_iff hQ]
      refine ⟨hrv, ?_, ?_⟩ <;> push_cast at hlov hhiv <;> nlinarith [hlov, hhiv]
    · have h4p : p.a.val / (4 * Real.sqrt (dotZ p.raw p.raw).val) =
          (p.a.val / 4) / Real.sqrt (dotZ p.raw p.raw).val := by
        rw [div_div]
      have h4c : c.a.val / (4 * Real.sqrt (dotZ c.raw c.raw).val) =
          (c.a.val / 4) / Real.sqrt (dotZ c.raw c.raw).val := by
        rw [div_div]
      rw [h4p, h4c, offset_close_iff hp hc (by norm_num : (0:ℝ) < 1/1000)]
      push_cast at hoffv
      nlinarith [hoffv, Real.sqrt_nonneg ((dotZ p.raw p.raw).val * (dotZ c.raw c.raw).val)]
  · rintro ⟨hnear, hoff⟩
    rw [near_one_iff hQ] at hnear
    obtain ⟨hrv, hlov, hhiv⟩ := hnear
    have h4p : p.a.val / (4 * Real.sqrt (dotZ p.raw p.raw).val) =
        (p.a.val / 4) / Real.sqrt (dotZ p.raw p.raw).val := by
      rw [div_div]
    have h4c : c.a.val / (4 * Real.sqrt (dotZ c.raw c.raw).val) =
        (c.a.val / 4) / Real.sqrt (dotZ c.raw c.raw).val := by
      rw [div_div]
    rw [h4p, h4c, offset_close_iff hp hc (by norm_num : (0:ℝ) < 1/1000)] at hoff
    refine ⟨⟨⟨(Z5.posB_iff _).mpr hrv, ?_⟩, ?_⟩, ?_⟩
    · rw [Z5.ltB_iff]
      simp only [Z5.val_mul, Z5.val_ofInt]
      push_cast
      nlinarith [hlov]
    · rw [Z5.ltB_iff]
      simp only [Z5.val_mul, Z5.val_ofInt]
      push_cast
      nlinarith [hhiv]
    · rw [ltSqrtB_iff (hQ' ▸ hQ)]
      simp only [Z5.val_sub, Z5.val_add, Z5.val_mul, Z5.val_ofInt]
      push_cast
      nlinarith [hoff, Real.sqrt_nonneg ((dotZ p.raw p.raw).val * (dotZ c.raw c.raw).val)]

/-- `getD` commutes with mapping the value function over the vertex list. -/
theorem getD_map_val4V (l : List Vec3Z) (i : ℕ) :
    (l.map val4V).getD i ⟨0, 0, 0⟩ = val4V (l.getD i ⟨0, 0, 0⟩) := by
  have h0 : val4V (⟨0, 0, 0⟩ : Vec3Z) = (⟨0, 0, 0⟩ : Vec3) := by
    simp only [val4V, Vec3.mk.injEq]
    refine ⟨?_, ?_, ?_⟩ <;> (rw [Z5.val_zero]; norm_num)
  rw [← h0]
  induction l generalizing i with
  | nil => rfl
  | cons a l ih =>
    cases i with
    | zero => rfl
    | succ n => exact ih n

/-- The mirror's candidate matches the real algorithm's candidate on the
denoted vertex list: `candZ` refines `candO` triple by triple. -/
theorem candZ_val (vsZ : List Vec3Z) (t : ℕ × ℕ × ℕ) :
    candO (vsZ.map val4V) t = Option.map valP4 (candZ vsZ t) := by
  rw [candO, candZ]
  dsimp only
  rw [getD_map_val4V, getD_map_val4V, getD_map_val4V]
  set viZ := vsZ.getD t.1 ⟨0, 0, 0⟩ with hviZ
  set vjZ := vsZ.getD t.2.1 ⟨0, 0, 0⟩ with hvjZ
  set vkZ := vsZ.getD t.2.2 ⟨0, 0, 0⟩ with hvkZ
  rw [subtract_val4V, subtract_val4V, cross_val4V]
  set rawZ := crossZ (subZ vjZ viZ) (subZ vkZ viZ) with hrawZ
  set qZ := dotZ rawZ rawZ with hqZ
  have hqnn : 0 ≤ qZ.val := dotZ_self_val_nonneg rawZ
  have hlen : length (val16V rawZ) = Real.sqrt qZ.val / 16 := by
    rw [length, dot_val16V, ← hqZ,
      show qZ.val / 256 = qZ.val * (1 / 16 : ℝ) ^ 2 by ring,
      Real.sqrt_mul hqnn, Real.sqrt_sq (by norm_num : (0:ℝ) ≤ 1 / 16)]
    ring
  have hguard : (length (val16V rawZ) < TOL) ↔
      (Z5.ltB (Z5.ofInt (10 ^ 12) * qZ) (Z5.ofInt 256) = true) := by
    rw [hlen, Z5.ltB_iff]
    simp only [Z5.val_mul, Z5.val_ofInt]
    rw [TOL]
    push_cast
    constructor
    · intro h
      have h1 : Real.sqrt qZ.val < 16 / 1000000 := by linarith
      have h2 : qZ.val < (16 / 1000000) ^ 2 := (Real.sqrt_lt' (by norm_num)).mp h1
      nlinarith
    · intro h
      have h2 : qZ.val < (16 / 1000000) ^ 2 := by nlinarith
      have h1 : Real.sqrt qZ.val < 16 / 1000000 := (Real.sqrt_lt' (by norm_num)).mpr h2
      linarith
  by_cases hg : length (val16V rawZ) < TOL
  · rw [if_pos hg, if_pos (hguard.mp hg)]
    rfl
  · have hgB : ¬ (Z5.ltB (Z5.ofInt (10 ^ 12) * qZ) (Z5.ofInt 256) = true) :=
      fun hh => hg (hguard.mpr hh)
    rw [if_neg hg, if_neg hgB]
    have hq0 : 0 < qZ.val := by
      rcases lt_or_eq_of_le hqnn with h | h
      · exact h
      · exfalso
        apply hg
        rw [hlen, ← h, Real.sqrt_zero, TOL]
        norm_num
    have hL0 : 0 < Real.sqrt qZ.val := Real.sqrt_pos.mpr hq0
    have hnorm : normalize (val16V rawZ) =
        ⟨rawZ.x.val / Real.sqrt qZ.val, rawZ.y.val / Real.sqrt qZ.val,
          rawZ.z.val / Real.sqrt qZ.val⟩ := by
      rw [normalize]
      rw [if_neg hg, hlen]
      simp only [val16V, Vec3.mk.injEq]
      refine ⟨?_, ?_, ?_⟩ <;> (field_simp)
    have hdotv : ∀ w : Vec3Z, dot (normalize (val16V rawZ)) (val4V w) =
        (dotZ rawZ w).val / (4 * Real.sqrt qZ.val) := by
      intro w
      rw [hnorm]
      simp only [dot, val4V]
      rw [div_mul_div_comm, div_mul_div_comm, div_mul_div_comm, div_add_div_same,
        div_add_div_same, mul_comm (Real.sqrt qZ.val) (4 : ℝ)]
      congr 1
      rw [val_dotZ]
    have hdval : dot (normalize (val16V rawZ)) (val4V viZ) =
        (dotZ rawZ viZ).val / (4 * Real.sqrt qZ.val) := hdotv viZ
    have hsub : ∀ vm : Vec3Z, (dotZ rawZ vm).val - (dotZ rawZ viZ).val =
        (dotZ rawZ (subZ vm viZ)).val := by
      intro vm
      simp only [val_dotZ, subZ, Z5.val_sub]
      ring
    have hsideval : ∀ vmZ : Vec3Z,
        dot (normalize (val16V rawZ)) (val4V vmZ) -
          dot (normalize (val16V rawZ)) (val4V viZ) =
        (dotZ rawZ (subZ vmZ viZ)).val / (4 * Real.sqrt qZ.val) := by
      intro vmZ
      rw [hdotv vmZ, hdotv viZ, div_sub_div_same, hsub vmZ]
    have hbelow : (∀ vm ∈ vsZ.map val4V,
        dot (normalize (val16V rawZ)) vm -
          dot (normalize (val16V rawZ)) (val4V viZ) ≤ TOL) ↔
        (vsZ.all fun vm => !(sideGtZ (dotZ rawZ (subZ vm viZ)) qZ)) = true := by
      rw [List.all_eq_true]
      constructor
      · intro h vmZ hm
        have h1 := h (val4V vmZ) (List.mem_map_of_mem _ hm)
        rw [hsideval vmZ] at h1
        simp only [Bool.not_eq_true']
        rw [Bool.eq_false_iff]
        intro hT
        have := (sideGt_iff hq0).mp hT
        linarith
      · intro h vm hm
        rcases List.mem_map.mp hm with ⟨vmZ, hmZ, rfl⟩
        rw [hsideval vmZ]
        have hb := h vmZ hmZ
        simp only [Bool.not_eq_true'] at hb
        by_contra hcon
        push_neg at hcon
        have := (sideGt_iff hq0).mpr hcon
        rw [hb] at this
        simp at this
    have habove : (∀ vm ∈ vsZ.map val4V,
        -TOL ≤ dot (normalize (val16V rawZ)) vm -
          dot (normalize (val16V rawZ)) (val4V viZ)) ↔
        (vsZ.all fun vm => !(sideLtZ (dotZ rawZ (subZ vm viZ)) qZ)) = true := by
      rw [List.all_eq_true]
      constructor
      · intro h vmZ hm
        have h1 := h (val4V vmZ) (List.mem_map_of_mem _ hm)
        rw [hsideval vmZ] at h1
        simp only [Bool.not_eq_true']
        rw [Bool.eq_false_iff]
        intro hT
        have := (sideLt_iff hq0).mp hT
        linarith
      · intro h vm hm
        rcases List.mem_map.mp hm with ⟨vmZ, hmZ, rfl⟩
        rw [hsideval vmZ]
        have hb := h vmZ hmZ
        simp only [Bool.not_eq_true'] at hb
        by_contra hcon
        push_neg at hcon
        have := (sideLt_iff hq0).mpr hcon
        rw [hb] at this
        simp at this
    have hplane_noflip :
        (⟨normalize (val16V rawZ), dot (normalize (val16V rawZ)) (val4V viZ)⟩ : Plane) =
          valP4 ⟨rawZ, dotZ rawZ viZ⟩ := by
      rw [valP4]
      dsimp only
      rw [← hqZ, hdval, hnorm]
    have hplane_flip :
        (⟨scale (normalize (val16V rawZ)) (-1),
           -(dot (normalize (val16V rawZ)) (val4V viZ))⟩ : Plane) =
          valP4 ⟨negZ rawZ, -(dotZ rawZ viZ)⟩ := by
      rw [valP4]
      dsimp only
      rw [val_dotZ_neg_neg, ← hqZ, hdval, hnorm]
      simp only [scale, negZ, Z5.val_neg, Plane.mk.injEq, Vec3.mk.injEq]
      refine ⟨⟨?_, ?_, ?_⟩, ?_⟩ <;> (field_simp)
    by_cases hB : ∀ vm ∈ vsZ.map val4V,
        dot (normalize (val16V rawZ)) vm -
          dot (normalize (val16V rawZ)) (val4V viZ) ≤ TOL
    · have hbB : (vsZ.all fun vm => !(sideGtZ (dotZ rawZ (subZ vm viZ)) qZ)) = true :=
        hbelow.mp hB
      by_cases hA : ∀ vm ∈ vsZ.map val4V,
          -TOL ≤ dot (normalize (val16V rawZ)) vm -
            dot (normalize (val16V rawZ)) (val4V viZ)
      · have hbA : (vsZ.all fun vm => !(sideLtZ (dotZ rawZ (subZ vm viZ)) qZ)) = true :=
          habove.mp hA
        rw [hbB, hbA]
        rw [if_neg (by intro hcon; exact hcon (Or.inl hB)), if_pos hA]
        rw [if_neg (by simp), if_pos (by simp)]
        rw [Option.map_some']
        rw [hplane_flip]
      · have hbA : (vsZ.all fun vm => !(sideLtZ (dotZ rawZ (subZ vm viZ)) qZ)) = false := by
          rw [Bool.eq_false_iff]
          intro hT
          exact hA (habove.mpr hT)
        rw [hbB, hbA]
        rw [if_neg (by intro hcon; exact hcon (Or.inl hB)), if_neg hA]
        rw [if_neg (by simp), if_neg (by simp)]
        rw [Option.map_some']
        rw [hplane_noflip]
    · have hbB : (vsZ.all fun vm => !(sideGtZ (dotZ rawZ (subZ vm viZ)) qZ)) = false := by
        rw [Bool.eq_false_iff]
        intro hT
        exact hB (hbelow.mpr hT)
      by_cases hA : ∀ vm ∈ vsZ.map val4V,
          -TOL ≤ dot (normalize (val16V rawZ)) vm -
            dot (normalize (val16V rawZ)) (val4V viZ)
      · have hbA : (vsZ.all fun vm => !(sideLtZ (dotZ rawZ (subZ vm viZ)) qZ)) = true :=
          habove.mp hA
        rw [hbB, hbA]
        rw [if_neg (by intro hcon; exact hcon (Or.inr hA)), if_pos hA]
        rw [if_neg (by simp), if_pos (by simp)]
        rw [Option.map_some']
        rw [hplane_flip]
      · have hbA : (vsZ.all fun vm => !(sideLtZ (dotZ rawZ (subZ vm viZ)) qZ)) = false := by
          rw [Bool.eq_false_iff]
          intro hT
          exact hA (habove.mpr hT)
        rw [hbB, hbA]
        rw [if_pos (by rintro (h | h); exact hB h; exact hA h), if_pos (by simp)]
        rfl

/-- Every accepted mirror candidate has a positive self dot product (its
cross product survived the degeneracy guard). -/
theorem candZ_q_pos {vsZ : List Vec3Z} {t : ℕ × ℕ × ℕ} {c : PlaneZ}
    (h : candZ vsZ t = some c) : 0 < (dotZ c.raw c.raw).val := by
  rw [candZ] at h
  dsimp only at h
  set rawZ := crossZ
    (subZ (vsZ.getD t.2.1 ⟨0, 0, 0⟩) (vsZ.getD t.1 ⟨0, 0, 0⟩))
    (subZ (vsZ.getD t.2.2 ⟨0, 0, 0⟩) (vsZ.getD t.1 ⟨0, 0, 0⟩)) with hrawZ
  have hq : ∀ (hg : ¬ (Z5.ltB (Z5.ofInt (10 ^ 12) * dotZ rawZ rawZ) (Z5.ofInt 256) = true)),
      0 < (dotZ rawZ rawZ).val := by
    intro hg
    have h1 : ¬ ((Z5.ofInt (10 ^ 12) * dotZ rawZ rawZ).val < (Z5.ofInt 256).val) :=
      fun hh => hg ((Z5.ltB_iff _ _).mpr hh)
    simp only [Z5.val_mul, Z5.val_ofInt] at h1
    push_neg at h1
    push_cast at h1
    nlinarith [h1]
  split_ifs at h with h1 h2 h3
  · injection h with h'
    subst h'
    rw [val_dotZ_neg_neg]
    exact hq h1
  · injection h with h'
    subst h'
    exact hq h1

/-- The mirror's loop body refines the real algorithm's loop body. -/
theorem planeStepZ_val (vsZ : List Vec3Z) (maxP : ℕ) (accZ : List PlaneZ)
    (t : ℕ × ℕ × ℕ) (hinv : ∀ p ∈ accZ, 0 < (dotZ p.raw p.raw).val) :
    planeStep (vsZ.map val4V) maxP (accZ.map valP4) t =
      (planeStepZ vsZ maxP accZ t).map valP4 := by
  rw [planeStep_eq_candO, planeStepZ.eq_def, candZ_val]
  cases hc : candZ vsZ t with
  | none => rfl
  | some c =>
    simp only [Option.map_some']
    have hcq := candZ_q_pos hc
    have hdup : (∃ p ∈ accZ.map valP4, dupPred p (valP4 c)) ↔
        (accZ.any fun p => dupZ p c) = true := by
      rw [List.any_eq_true]
      constructor
      · rintro ⟨pR, hmem, hdp⟩
        rcases List.mem_map.mp hmem with ⟨pZ, hpZ, rfl⟩
        exact ⟨pZ, hpZ, (dupZ_iff (hinv pZ hpZ) hcq).mpr hdp⟩
      · rintro ⟨pZ, hpZ, hd⟩
        exact ⟨valP4 pZ, List.mem_map_of_mem _ hpZ, (dupZ_iff (hinv pZ hpZ) hcq).mp hd⟩
    by_cases hcond : (¬ ∃ p ∈ accZ.map valP4, dupPred p (valP4 c)) ∧
        (accZ.map valP4).length < maxP
    · rw [if_pos hcond]
      have hbool : ((!(accZ.any fun p => dupZ p c)) && decide (accZ.length < maxP)) = true := by
        rw [Bool.and_eq_true, Bool.not_eq_true', Bool.eq_false_iff]
        refine ⟨fun hh => hcond.1 (hdup.mpr hh), decide_eq_true ?_⟩
        have := hcond.2
        rwa [List.length_map] at this
      rw [if_pos hbool, List.map_append]
      rfl
    · rw [if_neg hcond]
      have hbool : ¬ (((!(accZ.any fun p => dupZ p c)) && decide (accZ.length < maxP)) = true) := by
        intro hh
        rw [Bool.and_eq_true, Bool.not_eq_true', Bool.eq_false_iff] at hh
        refine hcond ⟨fun hex => hh.1 (hdup.mp hex), ?_⟩
        rw [List.length_map]
        exact of_decide_eq_true hh.2
      rw [if_neg hbool]

/-- The mirror's loop body preserves the positivity invariant. -/
theorem planeStepZ_inv (vsZ : List Vec3Z) (maxP : ℕ) (accZ : List PlaneZ)
    (t : ℕ × ℕ × ℕ) (hinv : ∀ p ∈ accZ, 0 < (dotZ p.raw p.raw).val) :
    ∀ p ∈ planeStepZ vsZ maxP accZ t, 0 < (dotZ p.raw p.raw).val := by
  rw [planeStepZ.eq_def]
  cases hc : candZ vsZ t with
  | none => exact hinv
  | some c =>
    dsimp only
    by_cases hb : ((!(accZ.any fun p => dupZ p c)) && decide (accZ.length < maxP)) = true
    · rw [if_pos hb]
      intro p hp
      rw [List.mem_append, List.mem_singleton] at hp
      rcases hp with hp | hp
      · exact hinv p hp
      · subst hp
        exact candZ_q_pos hc
    · rw [if_neg hb]
      exact hinv

/-- The mirror refines `computeBasePlanes` on the denoted vertex list. -/
theorem computeBasePlanes_val (vsZ : List Vec3Z) (maxP : ℕ) :
    computeBasePlanes (vsZ.map val4V) maxP =
      (computeBasePlanesZ vsZ maxP).map valP4 := by
  rw [computeBasePlanes, computeBasePlanesZ, List.length_map]
  suffices h : ∀ ts : List (ℕ × ℕ × ℕ), ∀ accZ : List PlaneZ,
      (∀ p ∈ accZ, 0 < (dotZ p.raw p.raw).val) →
      ts.foldl (planeStep (vsZ.map val4V) maxP) (accZ.map valP4) =
        (ts.foldl (planeStepZ vsZ maxP) accZ).map valP4 by
    simpa using h (triples vsZ.length) [] (by simp)
  intro ts
  induction ts with
  | nil =>
    intro accZ _
    rfl
  | cons t ts ih =>
    intro accZ hinv
    rw [List.foldl_cons, List.foldl_cons, planeStepZ_val vsZ maxP accZ t hinv]
    exact ih _ (planeStepZ_inv vsZ maxP accZ t hinv)

/-- `invphi` in closed form. -/
theorem invphi_eq : invphi = (Real.sqrt 5 - 1) / 2 := by
  have h5 : Real.sqrt 5 * Real.sqrt 5 = 5 := Real.mul_self_sqrt (by norm_num)
  have hpos : (0:ℝ) < 1 + Real.sqrt 5 := by positivity
  rw [invphi, phi]
  rw [div_eq_div_iff (by positivity) (by norm_num : (2:ℝ) ≠ 0)]
  ring_nf
  nlinarith [h5]

/-- The scaled vertex list of `main` is exactly the denoted mirror list. -/
theorem scaledVertices_eq : scaledVertices = dodecaZ.map val4V := by
  have hinv := invphi_eq
  rw [scaledVertices, baseVertices, dodecaZ]
  simp only [List.map_cons, List.map_nil, scale, val4V, List.cons.injEq, and_true,
    Vec3.mk.injEq]
  rw [modelScale, phi, hinv]
  norm_num [Z5.val]
  ring_nf
  norm_num

set_option maxHeartbeats 4000000 in
set_option maxRecDepth 100000 in
/-- Partial run of the mirror over triples 0 to 59. -/
theorem accS0_eq :
    ([(0, 1, 2), (0, 1, 3), (0, 1, 4), (0, 1, 5), (0, 1, 6), (0, 1, 7), (0, 1, 8), (0, 1, 9), (0, 1, 10), (0, 1, 11), (0, 1, 12), (0, 1, 13), (0, 1, 14), (0, 1, 15), (0, 1, 16), (0, 1, 17), (0, 1, 18), (0, 1, 19), (0, 2, 3), (0, 2, 4), (0, 2, 5), (0, 2, 6), (0, 2, 7), (0, 2, 8), (0, 2, 9), (0, 2, 10), (0, 2, 11), (0, 2, 12), (0, 2, 13), (0, 2, 14), (0, 2, 15), (0, 2, 16), (0, 2, 17), (0, 2, 18), (0, 2, 19), (0, 3, 4), (0, 3, 5), (0, 3, 6), (0, 3, 7), (0, 3, 8), (0, 3, 9), (0, 3, 10), (0, 3, 11), (0, 3, 12), (0, 3, 13), (0, 3, 14), (0, 3, 15), (0, 3, 16), (0, 3, 17), (0, 3, 18), (0, 3, 19), (0, 4, 5), (0, 4, 6), (0, 4, 7), (0, 4, 8), (0, 4, 9), (0, 4, 10), (0, 4, 11), (0, 4, 12), (0, 4, 13)] : List (ℕ × ℕ × ℕ)).foldl (planeStepZ dodecaZ 30) [] = accS0 := by
  decide

set_option maxHeartbeats 4000000 in
set_option maxRecDepth 100000 in
/-- Partial run of the mirror over triples 60 to 119. -/
theorem accS1_eq :
    ([(0, 4, 14), (0, 4, 15), (0, 4, 16), (0, 4, 17), (0, 4, 18), (0, 4, 19), (0, 5, 6), (0, 5, 7), (0, 5, 8), (0, 5, 9), (0, 5, 10), (0, 5, 11), (0, 5, 12), (0, 5, 13), (0, 5, 14), (0, 5, 15), (0, 5, 16), (0, 5, 17), (0, 5, 18), (0, 5, 19), (0, 6, 7), (0, 6, 8), (0, 6, 9), (0, 6, 10), (0, 6, 11), (0, 6, 12), (0, 6, 13), (0, 6, 14), (0, 6, 15), (0, 6, 16), (0, 6, 17), (0, 6, 18), (0, 6, 19), (0, 7, 8), (0, 7, 9), (0, 7, 10), (0, 7, 11), (0, 7, 12), (0, 7, 13), (0, 7, 14), (0, 7, 15), (0, 7, 16), (0, 7, 17), (0, 7, 18), (0, 7, 19), (0, 8, 9), (0, 8, 10), (0, 8, 11), (0, 8, 12), (0, 8, 13), (0, 8, 14), (0, 8, 15), (0, 8, 16), (0, 8, 17), (0, 8, 18), (0, 8, 19), (0, 9, 10), (0, 9, 11), (0, 9, 12), (0, 9, 13)] : List (ℕ × ℕ × ℕ)).foldl (planeStepZ dodecaZ 30) accS0 = accS1 := by
  decide

set_option maxHeartbeats 4000000 in
set_option maxRecDepth 100000 in
/-- Partial run of the mirror over triples 120 to 179. -/
theorem accS2_eq :
    ([(0, 9, 14), (0, 9, 15), (0, 9, 16), (0, 9, 17), (0, 9, 18), (0, 9, 19), (0, 10, 11), (0, 10, 12), (0, 10, 13), (0, 10, 14), (0, 10, 15), (0, 10, 16), (0, 10, 17), (0, 10, 18), (0, 10, 19), (0, 11, 12), (0, 11, 13), (0, 11, 14), (0, 11, 15), (0, 11, 16), (0, 11, 17), (0, 11, 18), (0, 11, 19), (0, 12, 13), (0, 12, 14), (0, 12, 15), (0, 12, 16), (0, 12, 17), (0, 12, 18), (0, 12, 19), (0, 13, 14), (0, 13, 15), (0, 13, 16), (0, 13, 17), (0, 13, 18), (0, 13, 19), (0, 14, 15), (0, 14, 16), (0, 14, 17), (0, 14, 18), (0, 14, 19), (0, 15, 16), (0, 15, 17), (0, 15, 18), (0, 15, 19), (0, 16, 17), (0, 16, 18), (0, 16, 19), (0, 17, 18), (0, 17, 19), (0, 18, 19), (1, 2, 3), (1, 2, 4), (1, 2, 5), (1, 2, 6), (1, 2, 7), (1, 2, 8), (1, 2, 9), (1, 2, 10), (1, 2, 11)] : List (ℕ × ℕ × ℕ)).foldl (planeStepZ dodecaZ 30) accS1 = accS2 := by
  decide

set_option maxHeartbeats 4000000 in
set_option maxRecDepth 100000 in
/-- Partial run of the mirror over triples 180 to 239. -/
theorem accS3_eq :
    ([(1, 2, 12), (1, 2, 13), (1, 2, 14), (1, 2, 15), (1, 2, 16), (1, 2, 17), (1, 2, 18), (1, 2, 19), (1, 3, 4), (1, 3, 5), (1, 3, 6), (1, 3, 7), (1, 3, 8), (1, 3, 9), (1, 3, 10), (1, 3, 11), (1, 3, 12), (1, 3, 13), (1, 3, 14), (1, 3, 15), (1, 3, 16), (1, 3, 17), (1, 3, 18), (1, 3, 19), (1, 4, 5), (1, 4, 6), (1, 4, 7), (1, 4, 8), (1, 4, 9), (1, 4, 10), (1, 4, 11), (1, 4, 12), (1, 4, 13), (1, 4, 14), (1, 4, 15), (1, 4, 16), (1, 4, 17), (1, 4, 18), (1, 4, 19), (1, 5, 6), (1, 5, 7), (1, 5, 8), (1, 5, 9), (1, 5, 10), (1, 5, 11), (1, 5, 12), (1, 5, 13), (1, 5, 14), (1, 5, 15), (1, 5, 16), (1, 5, 17), (1, 5, 18), (1, 5, 19), (1, 6, 7), (1, 6, 8), (1, 6, 9), (1, 6, 10), (1, 6, 11), (1, 6, 12), (1, 6, 13)] : List (ℕ × ℕ × ℕ)).foldl (planeStepZ dodecaZ 30) accS2 = accS3 := by
  decide

set_option maxHeartbeats 4000000 in
set_option maxRecDepth 100000 in
/-- Partial run of the mirror over triples 240 to 299. -/
theorem accS4_eq :
    ([(1, 6, 14), (1, 6, 15), (1, 6, 16), (1, 6, 17), (1, 6, 18), (1, 6, 19), (1, 7, 8), (1, 7, 9), (1, 7, 10), (1, 7, 11), (1, 7, 12), (1, 7, 13), (1, 7, 14), (1, 7, 15), (1, 7, 16), (1, 7, 17), (1, 7, 18), (1, 7, 19), (1, 8, 9), (1, 8, 10), (1, 8, 11), (1, 8, 12), (1, 8, 13), (1, 8, 14), (1, 8, 15), (1, 8, 16), (1, 8, 17), (1, 8, 18), (1, 8, 19), (1, 9, 10), (1, 9, 11), (1, 9, 12), (1, 9, 13), (1, 9, 14), (1, 9, 15), (1, 9, 16), (1, 9, 17), (1, 9, 18), (1, 9, 19), (1, 10, 11), (1, 10, 12), (1, 10, 13), (1, 10, 14), (1, 10, 15), (1, 10, 16), (1, 10, 17), (1, 10, 18), (1, 10, 19), (1, 11, 12), (1, 11, 13), (1, 11, 14), (1, 11, 15), (1, 11, 16), (1, 11, 17), (1, 11, 18), (1, 11, 19), (1, 12, 13), (1, 12, 14), (1, 12, 15), (1, 12, 16)] : List (ℕ × ℕ × ℕ)).foldl (planeStepZ dodecaZ 30) accS3 = accS4 := by
  decide

set_option maxHeartbeats 4000000 in
set_option maxRecDepth 100000 in
/-- Partial run of the mirror over triples 300 to 359. -/
theorem accS5_eq :
    ([(1, 12, 17), (1, 12, 18), (1, 12, 19), (1, 13, 14), (1, 13, 15), (1, 13, 16), (1, 13, 17), (1, 13, 18), (1, 13, 19), (1, 14, 15), (1, 14, 16), (1, 14, 17), (1, 14, 18), (1, 14, 19), (1, 15, 16), (1, 15, 17), (1, 15, 18), (1, 15, 19), (1, 16, 17), (1, 16, 18), (1, 16, 19), (1, 17, 18), (1, 17, 19), (1, 18, 19), (2, 3, 4), (2, 3, 5), (2, 3, 6), (2, 3, 7), (2, 3, 8), (2, 3, 9), (2, 3, 10), (2, 3, 11), (2, 3, 12), (2, 3, 13), (2, 3, 14), (2, 3, 15), (2, 3, 16), (2, 3, 17), (2, 3, 18), (2, 3, 19), (2, 4, 5), (2, 4, 6), (2, 4, 7), (2, 4, 8), (2, 4, 9), (2, 4, 10), (2, 4, 11), (2, 4, 12), (2, 4, 13), (2, 4, 14), (2, 4, 15), (2, 4, 16), (2, 4, 17), (2, 4, 18), (2, 4, 19), (2, 5, 6), (2, 5, 7), (2, 5, 8), (2, 5, 9), (2, 5, 10)] : List (ℕ × ℕ × ℕ)).foldl (planeStepZ dodecaZ 30) accS4 = accS5 := by
  decide

set_option maxHeartbeats 4000000 in
set_option maxRecDepth 100000 in
/-- Partial run of the mirror over triples 360 to 419. -/
theorem accS6_eq :
    ([(2, 5, 11), (2, 5, 12), (2, 5, 13), (2, 5, 14), (2, 5, 15), (2, 5, 16), (2, 5, 17), (2, 5, 18), (2, 5, 19), (2, 6, 7), (2, 6, 8), (2, 6, 9), (2, 6, 10), (2, 6, 11), (2, 6, 12), (2, 6, 13), (2, 6, 14), (2, 6, 15), (2, 6, 16), (2, 6, 17), (2, 6, 18), (2, 6, 19), (2, 7, 8), (2, 7, 9), (2, 7, 10), (2, 7, 11), (2, 7, 12), (2, 7, 13), (2, 7, 14), (2, 7, 15), (2, 7, 16), (2, 7, 17), (2, 7, 18), (2, 7, 19), (2, 8, 9), (2, 8, 10), (2, 8, 11), (2, 8, 12), (2, 8, 13), (2, 8, 14), (2, 8, 15), (2, 8, 16), (2, 8, 17), (2, 8, 18), (2, 8, 19), (2, 9, 10), (2, 9, 11), (2, 9, 12), (2, 9, 13), (2, 9, 14), (2, 9, 15), (2, 9, 16), (2, 9, 17), (2, 9, 18), (2, 9, 19), (2, 10, 11), (2, 10, 12), (2, 10, 13), (2, 10, 14), (2, 10, 15)] : List (ℕ × ℕ × ℕ)).foldl (planeStepZ dodecaZ 30) accS5 = accS6 := by
  decide

set_option maxHeartbeats 4000000 in
set_option maxRecDepth 100000 in
/-- Partial run of the mirror over triples 420 to 479. -/
theorem accS7_eq :
    ([(2, 10, 16), (2, 10, 17), (2, 10, 18), (2, 10, 19), (2, 11, 12), (2, 11, 13), (2, 11, 14), (2, 11, 15), (2, 11, 16), (2, 11, 17), (2, 11, 18), (2, 11, 19), (2, 12, 13), (2, 12, 14), (2, 12, 15), (2, 12, 16), (2, 12, 17), (2, 12, 18), (2, 12, 19), (2, 13, 14), (2, 13, 15), (2, 13, 16), (2, 13, 17), (2, 13, 18), (2, 13, 19), (2, 14, 15), (2, 14, 16), (2, 14, 17), (2, 14, 18), (2, 14, 19), (2, 15, 16), (2, 15, 17), (2, 15, 18), (2, 15, 19), (2, 16, 17), (2, 16, 18), (2, 16, 19), (2, 17, 18), (2, 17, 19), (2, 18, 19), (3, 4, 5), (3, 4, 6), (3, 4, 7), (3, 4, 8), (3, 4, 9), (3, 4, 10), (3, 4, 11), (3, 4, 12), (3, 4, 13), (3, 4, 14), (3, 4, 15), (3, 4, 16), (3, 4, 17), (3, 4, 18), (3, 4, 19), (3, 5, 6), (3, 5, 7), (3, 5, 8), (3, 5, 9), (3, 5, 10)] : List (ℕ × ℕ × ℕ)).foldl (planeStepZ dodecaZ 30) accS6 = accS7 := by
  decide

set_option maxHeartbeats 4000000 in
set_option maxRecDepth 100000 in
/-- Partial run of the mirror over triples 480 to 539. -/
theorem accS8_eq :
    ([(3, 5, 11), (3, 5, 12), (3, 5, 13), (3, 5, 14), (3, 5, 15), (3, 5, 16), (3, 5, 17), (3, 5, 18), (3, 5, 19), (3, 6, 7), (3, 6, 8), (3, 6, 9), (3, 6, 10), (3, 6, 11), (3, 6, 12), (3, 6, 13), (3, 6, 14), (3, 6, 15), (3, 6, 16), (3, 6, 17), (3, 6, 18), (3, 6, 19), (3, 7, 8), (3, 7, 9), (3, 7, 10), (3, 7, 11), (3, 7, 12), (3, 7, 13), (3, 7, 14), (3, 7, 15), (3, 7, 16), (3, 7, 17), (3, 7, 18), (3, 7, 19), (3, 8, 9), (3, 8, 10), (3, 8, 11), (3, 8, 12), (3, 8, 13), (3, 8, 14), (3, 8, 15), (3, 8, 16), (3, 8, 17), (3, 8, 18), (3, 8, 19), (3, 9, 10), (3, 9, 11), (3, 9, 12), (3, 9, 13), (3, 9, 14), (3, 9, 15), (3, 9, 16), (3, 9, 17), (3, 9, 18), (3, 9, 19), (3, 10, 11), (3, 10, 12), (3, 10, 13), (3, 10, 14), (3, 10, 15)] : List (ℕ × ℕ × ℕ)).foldl (planeStepZ dodecaZ 30) accS7 = accS8 := by
  decide

set_option maxHeartbeats 4000000 in
set_option maxRecDepth 100000 in
/-- Partial run of the mirror over triples 540 to 599. -/
theorem accS9_eq :
    ([(3, 10, 16), (3, 10, 17), (3, 10, 18), (3, 10, 19), (3, 11, 12), (3, 11, 13), (3, 11, 14), (3, 11, 15), (3, 11, 16), (3, 11, 17), (3, 11, 18), (3, 11, 19), (3, 12, 13), (3, 12, 14), (3, 12, 15), (3, 12, 16), (3, 12, 17), (3, 12, 18), (3, 12, 19), (3, 13, 14), (3, 13, 15), (3, 13, 16), (3, 13, 17), (3, 13, 18), (3, 13, 19), (3, 14, 15), (3, 14, 16), (3, 14, 17), (3, 14, 18), (3, 14, 19), (3, 15, 16), (3, 15, 17), (3, 15, 18), (3, 15, 19), (3, 16, 17), (3, 16, 18), (3, 16, 19), (3, 17, 18), (3, 17, 19), (3, 18, 19), (4, 5, 6), (4, 5, 7), (4, 5, 8), (4, 5, 9), (4, 5, 10), (4, 5, 11), (4, 5, 12), (4, 5, 13), (4, 5, 14), (4, 5, 15), (4, 5, 16), (4, 5, 17), (4, 5, 18), (4, 5, 19), (4, 6, 7), (4, 6, 8), (4, 6, 9), (4, 6, 10), (4, 6, 11), (4, 6, 12)] : List (ℕ × ℕ × ℕ)).foldl (planeStepZ dodecaZ 30) accS8 = accS9 := by
  decide

set_option maxHeartbeats 4000000 in
set_option maxRecDepth 100000 in
/-- Partial run of the mirror over triples 600 to 659. -/
theorem accS10_eq :
    ([(4, 6, 13), (4, 6, 14), (4, 6, 15), (4, 6, 16), (4, 6, 17), (4, 6, 18), (4, 6, 19), (4, 7, 8), (4, 7, 9), (4, 7, 10), (4, 7, 11), (4, 7, 12), (4, 7, 13), (4, 7, 14), (4, 7, 15), (4, 7, 16), (4, 7, 17), (4, 7, 18), (4, 7, 19), (4, 8, 9), (4, 8, 10), (4, 8, 11), (4, 8, 12), (4, 8, 13), (4, 8, 14), (4, 8, 15), (4, 8, 16), (4, 8, 17), (4, 8, 18), (4, 8, 19), (4, 9, 10), (4, 9, 11), (4, 9, 12), (4, 9, 13), (4, 9, 14), (4, 9, 15), (4, 9, 16), (4, 9, 17), (4, 9, 18), (4, 9, 19), (4, 10, 11), (4, 10, 12), (4, 10, 13), (4, 10, 14), (4, 10, 15), (4, 10, 16), (4, 10, 17), (4, 10, 18), (4, 10, 19), (4, 11, 12), (4, 11, 13), (4, 11, 14), (4, 11, 15), (4, 11, 16), (4, 11, 17), (4, 11, 18), (4, 11, 19), (4, 12, 13), (4, 12, 14), (4, 12, 15)] : List (ℕ × ℕ × ℕ)).foldl (planeStepZ dodecaZ 30) accS9 = accS10 := by
  decide

set_option maxHeartbeats 4000000 in
set_option maxRecDepth 100000 in
/-- Partial run of the mirror over triples 660 to 719. -/
theorem accS11_eq :
    ([(4, 12, 16), (4, 12, 17), (4, 12, 18), (4, 12, 19), (4, 13, 14), (4, 13, 15), (4, 13, 16), (4, 13, 17), (4, 13, 18), (4, 13, 19), (4, 14, 15), (4, 14, 16), (4, 14, 17), (4, 14, 18), (4, 14, 19), (4, 15, 16), (4, 15, 17), (4, 15, 18), (4, 15, 19), (4, 16, 17), (4, 16, 18), (4, 16, 19), (4, 17, 18), (4, 17, 19), (4, 18, 19), (5, 6, 7), (5, 6, 8), (5, 6, 9), (5, 6, 10), (5, 6, 11), (5, 6, 12), (5, 6, 13), (5, 6, 14), (5, 6, 15), (5, 6, 16), (5, 6, 17), (5, 6, 18), (5, 6, 19), (5, 7, 8), (5, 7, 9), (5, 7, 10), (5, 7, 11), (5, 7, 12), (5, 7, 13), (5, 7, 14), (5, 7, 15), (5, 7, 16), (5, 7, 17), (5, 7, 18), (5, 7, 19), (5, 8, 9), (5, 8, 10), (5, 8, 11), (5, 8, 12), (5, 8, 13), (5, 8, 14), (5, 8, 15), (5, 8, 16), (5, 8, 17), (5, 8, 18)] : List (ℕ × ℕ × ℕ)).foldl (planeStepZ dodecaZ 30) accS10 = accS11 := by
  decide

set_option maxHeartbeats 4000000 in
set_option maxRecDepth 100000 in
/-- Partial run of the mirror over triples 720 to 779. -/
theorem accS12_eq :
    ([(5, 8, 19), (5, 9, 10), (5, 9, 11), (5, 9, 12), (5, 9, 13), (5, 9, 14), (5, 9, 15), (5, 9, 16), (5, 9, 17), (5, 9, 18), (5, 9, 19), (5, 10, 11), (5, 10, 12), (5, 10, 13), (5, 10, 14), (5, 10, 15), (5, 10, 16), (5, 10, 17), (5, 10, 18), (5, 10, 19), (5, 11, 12), (5, 11, 13), (5, 11, 14), (5, 11, 15), (5, 11, 16), (5, 11, 17), (5, 11, 18), (5, 11, 19), (5, 12, 13), (5, 12, 14), (5, 12, 15), (5, 12, 16), (5, 12, 17), (5, 12, 18), (5, 12, 19), (5, 13, 14), (5, 13, 15), (5, 13, 16), (5, 13, 17), (5, 13, 18), (5, 13, 19), (5, 14, 15), (5, 14, 16), (5, 14, 17), (5, 14, 18), (5, 14, 19), (5, 15, 16), (5, 15, 17), (5, 15, 18), (5, 15, 19), (5, 16, 17), (5, 16, 18), (5, 16, 19), (5, 17, 18), (5, 17, 19), (5, 18, 19), (6, 7, 8), (6, 7, 9), (6, 7, 10), (6, 7, 11)] : List (ℕ × ℕ × ℕ)).foldl (planeStepZ dodecaZ 30) accS11 = accS12 := by
  decide

set_option maxHeartbeats 4000000 in
set_option maxRecDepth 100000 in
/-- Partial run of the mirror over triples 780 to 839. -/
theorem accS13_eq :
    ([(6, 7, 12), (6, 7, 13), (6, 7, 14), (6, 7, 15), (6, 7, 16), (6, 7, 17), (6, 7, 18), (6, 7, 19), (6, 8, 9), (6, 8, 10), (6, 8, 11), (6, 8, 12), (6, 8, 13), (6, 8, 14), (6, 8, 15), (6, 8, 16), (6, 8, 17), (6, 8, 18), (6, 8, 19), (6, 9, 10), (6, 9, 11), (6, 9, 12), (6, 9, 13), (6, 9, 14), (6, 9, 15), (6, 9, 16), (6, 9, 17), (6, 9, 18), (6, 9, 19), (6, 10, 11), (6, 10, 12), (6, 10, 13), (6, 10, 14), (6, 10, 15), (6, 10, 16), (6, 10, 17), (6, 10, 18), (6, 10, 19), (6, 11, 12), (6, 11, 13), (6, 11, 14), (6, 11, 15), (6, 11, 16), (6, 11, 17), (6, 11, 18), (6, 11, 19), (6, 12, 13), (6, 12, 14), (6, 12, 15), (6, 12, 16), (6, 12, 17), (6, 12, 18), (6, 12, 19), (6, 13, 14), (6, 13, 15), (6, 13, 16), (6, 13, 17), (6, 13, 18), (6, 13, 19), (6, 14, 15)] : List (ℕ × ℕ × ℕ)).foldl (planeStepZ dodecaZ 30) accS12 = accS13 := by
  decide

set_option maxHeartbeats 4000000 in
set_option maxRecDepth 100000 in
/-- Partial run of the mirror over triples 840 to 899. -/
theorem accS14_eq :
    ([(6, 14, 16), (6, 14, 17), (6, 14, 18), (6, 14, 19), (6, 15, 16), (6, 15, 17), (6, 15, 18), (6, 15, 19), (6, 16, 17), (6, 16, 18), (6, 16, 19), (6, 17, 18), (6, 17, 19), (6, 18, 19), (7, 8, 9), (7, 8, 10), (7, 8, 11), (7, 8, 12), (7, 8, 13), (7, 8, 14), (7, 8, 15), (7, 8, 16), (7, 8, 17), (7, 8, 18), (7, 8, 19), (7, 9, 10), (7, 9, 11), (7, 9, 12), (7, 9, 13), (7, 9, 14), (7, 9, 15), (7, 9, 16), (7, 9, 17), (7, 9, 18), (7, 9, 19), (7, 10, 11), (7, 10, 12), (7, 10, 13), (7, 10, 14), (7, 10, 15), (7, 10, 16), (7, 10, 17), (7, 10, 18), (7, 10, 19), (7, 11, 12), (7, 11, 13), (7, 11, 14), (7, 11, 15), (7, 11, 16), (7, 11, 17), (7, 11, 18), (7, 11, 19), (7, 12, 13), (7, 12, 14), (7, 12, 15), (7, 12, 16), (7, 12, 17), (7, 12, 18), (7, 12, 19), (7, 13, 14)] : List (ℕ × ℕ × ℕ)).foldl (planeStepZ dodecaZ 30) accS13 = accS14 := by
  decide

set_option maxHeartbeats 4000000 in
set_option maxRecDepth 100000 in
/-- Partial run of the mirror over triples 900 to 959. -/
theorem accS15_eq :
    ([(7, 13, 15), (7, 13, 16), (7, 13, 17), (7, 13, 18), (7, 13, 19), (7, 14, 15), (7, 14, 16), (7, 14, 17), (7, 14, 18), (7, 14, 19), (7, 15, 16), (7, 15, 17), (7, 15, 18), (7, 15, 19), (7, 16, 17), (7, 16, 18), (7, 16, 19), (7, 17, 18), (7, 17, 19), (7, 18, 19), (8, 9, 10), (8, 9, 11), (8, 9, 12), (8, 9, 13), (8, 9, 14), (8, 9, 15), (8, 9, 16), (8, 9, 17), (8, 9, 18), (8, 9, 19), (8, 10, 11), (8, 10, 12), (8, 10, 13), (8, 10, 14), (8, 10, 15), (8, 10, 16), (8, 10, 17), (8, 10, 18), (8, 10, 19), (8, 11, 12), (8, 11, 13), (8, 11, 14), (8, 11, 15), (8, 11, 16), (8, 11, 17), (8, 11, 18), (8, 11, 19), (8, 12, 13), (8, 12, 14), (8, 12, 15), (8, 12, 16), (8, 12, 17), (8, 12, 18), (8, 12, 19), (8, 13, 14), (8, 13, 15), (8, 13, 16), (8, 13, 17), (8, 13, 18), (8, 13, 19)] : List (ℕ × ℕ × ℕ)).foldl (planeStepZ dodecaZ 30) accS14 = accS15 := by
  decide

set_option maxHeartbeats 4000000 in
set_option maxRecDepth 100000 in
/-- Partial run of the mirror over triples 960 to 1019. -/
theorem accS16_eq :
    ([(8, 14, 15), (8, 14, 16), (8, 14, 17), (8, 14, 18), (8, 14, 19), (8, 15, 16), (8, 15, 17), (8, 15, 18), (8, 15, 19), (8, 16, 17), (8, 16, 18), (8, 16, 19), (8, 17, 18), (8, 17, 19), (8, 18, 19), (9, 10, 11), (9, 10, 12), (9, 10, 13), (9, 10, 14), (9, 10, 15), (9, 10, 16), (9, 10, 17), (9, 10, 18), (9, 10, 19), (9, 11, 12), (9, 11, 13), (9, 11, 14), (9, 11, 15), (9, 11, 16), (9, 11, 17), (9, 11, 18), (9, 11, 19), (9, 12, 13), (9, 12, 14), (9, 12, 15), (9, 12, 16), (9, 12, 17), (9, 12, 18), (9, 12, 19), (9, 13, 14), (9, 13, 15), (9, 13, 16), (9, 13, 17), (9, 13, 18), (9, 13, 19), (9, 14, 15), (9, 14, 16), (9, 14, 17), (9, 14, 18), (9, 14, 19), (9, 15, 16), (9, 15, 17), (9, 15, 18), (9, 15, 19), (9, 16, 17), (9, 16, 18), (9, 16, 19), (9, 17, 18), (9, 17, 19), (9, 18, 19)] : List (ℕ × ℕ × ℕ)).foldl (planeStepZ dodecaZ 30) accS15 = accS16 := by
  decide

set_option maxHeartbeats 4000000 in
set_option maxRecDepth 100000 in
/-- Partial run of the mirror over triples 1020 to 1079. -/
theorem accS17_eq :
    ([(10, 11, 12), (10, 11, 13), (10, 11, 14), (10, 11, 15), (10, 11, 16), (10, 11, 17), (10, 11, 18), (10, 11, 19), (10, 12, 13), (10, 12, 14), (10, 12, 15), (10, 12, 16), (10, 12, 17), (10, 12, 18), (10, 12, 19), (10, 13, 14), (10, 13, 15), (10, 13, 16), (10, 13, 17), (10, 13, 18), (10, 13, 19), (10, 14, 15), (10, 14, 16), (10, 14, 17), (10, 14, 18), (10, 14, 19), (10, 15, 16), (10, 15, 17), (10, 15, 18), (10, 15, 19), (10, 16, 17), (10, 16, 18), (10, 16, 19), (10, 17, 18), (10, 17, 19), (10, 18, 19), (11, 12, 13), (11, 12, 14), (11, 12, 15), (11, 12, 16), (11, 12, 17), (11, 12, 18), (11, 12, 19), (11, 13, 14), (11, 13, 15), (11, 13, 16), (11, 13, 17), (11, 13, 18), (11, 13, 19), (11, 14, 15), (11, 14, 16), (11, 14, 17), (11, 14, 18), (11, 14, 19), (11, 15, 16), (11, 15, 17), (11, 15, 18), (11, 15, 19), (11, 16, 17), (11, 16, 18)] : List (ℕ × ℕ × ℕ)).foldl (planeStepZ dodecaZ 30) accS16 = accS17 := by
  decide

set_option maxHeartbeats 4000000 in
set_option maxRecDepth 100000 in
/-- Partial run of the mirror over triples 1080 to 1139. -/
theorem accS18_eq :
    ([(11, 16, 19), (11, 17, 18), (11, 17, 19), (11, 18, 19), (12, 13, 14), (12, 13, 15), (12, 13, 16), (12, 13, 17), (12, 13, 18), (12, 13, 19), (12, 14, 15), (12, 14, 16), (12, 14, 17), (12, 14, 18), (12, 14, 19), (12, 15, 16), (12, 15, 17), (12, 15, 18), (12, 15, 19), (12, 16, 17), (12, 16, 18), (12, 16, 19), (12, 17, 18), (12, 17, 19), (12, 18, 19), (13, 14, 15), (13, 14, 16), (13, 14, 17), (13, 14, 18), (13, 14, 19), (13, 15, 16), (13, 15, 17), (13, 15, 18), (13, 15, 19), (13, 16, 17), (13, 16, 18), (13, 16, 19), (13, 17, 18), (13, 17, 19), (13, 18, 19), (14, 15, 16), (14, 15, 17), (14, 15, 18), (14, 15, 19), (14, 16, 17), (14, 16, 18), (14, 16, 19), (14, 17, 18), (14, 17, 19), (14, 18, 19), (15, 16, 17), (15, 16, 18), (15, 16, 19), (15, 17, 18), (15, 17, 19), (15, 18, 19), (16, 17, 18), (16, 17, 19), (16, 18, 19), (17, 18, 19)] : List (ℕ × ℕ × ℕ)).foldl (planeStepZ dodecaZ 30) accS17 = accS18 := by
  decide

set_option maxHeartbeats 4000000 in
set_option maxRecDepth 100000 in
/-- The first 60 triples of the enumeration. -/
theorem tchunk0 : (triples (dodecaZ.length)).take 60 = [(0, 1, 2), (0, 1, 3), (0, 1, 4), (0, 1, 5), (0, 1, 6), (0, 1, 7), (0, 1, 8), (0, 1, 9), (0, 1, 10), (0, 1, 11), (0, 1, 12), (0, 1, 13), (0, 1, 14), (0, 1, 15), (0, 1, 16), (0, 1, 17), (0, 1, 18), (0, 1, 19), (0, 2, 3), (0, 2, 4), (0, 2, 5), (0, 2, 6), (0, 2, 7), (0, 2, 8), (0, 2, 9), (0, 2, 10), (0, 2, 11), (0, 2, 12), (0, 2, 13), (0, 2, 14), (0, 2, 15), (0, 2, 16), (0, 2, 17), (0, 2, 18), (0, 2, 19), (0, 3, 4), (0, 3, 5), (0, 3, 6), (0, 3, 7), (0, 3, 8), (0, 3, 9), (0, 3, 10), (0, 3, 11), (0, 3, 12), (0, 3, 13), (0, 3, 14), (0, 3, 15), (0, 3, 16), (0, 3, 17), (0, 3, 18), (0, 3, 19), (0, 4, 5), (0, 4, 6), (0, 4, 7), (0, 4, 8), (0, 4, 9), (0, 4, 10), (0, 4, 11), (0, 4, 12), (0, 4, 13)] := by
  decide

set_option maxHeartbeats 4000000 in
set_option maxRecDepth 100000 in
/-- Triples 60 to 119 of the enumeration. -/
theorem tchunk1 : ((triples (dodecaZ.length)).drop 60).take 60 = [(0, 4, 14), (0, 4, 15), (0, 4, 16), (0, 4, 17), (0, 4, 18), (0, 4, 19), (0, 5, 6), (0, 5, 7), (0, 5, 8), (0, 5, 9), (0, 5, 10), (0, 5, 11), (0, 5, 12), (0, 5, 13), (0, 5, 14), (0, 5, 15), (0, 5, 16), (0, 5, 17), (0, 5, 18), (0, 5, 19), (0, 6, 7), (0, 6, 8), (0, 6, 9), (0, 6, 10), (0, 6, 11), (0, 6, 12), (0, 6, 13), (0, 6, 14), (0, 6, 15), (0, 6, 16), (0, 6, 17), (0, 6, 18), (0, 6, 19), (0, 7, 8), (0, 7, 9), (0, 7, 10), (0, 7, 11), (0, 7, 12), (0, 7, 13), (0, 7, 14), (0, 7, 15), (0, 7, 16), (0, 7, 17), (0, 7, 18), (0, 7, 19), (0, 8, 9), (0, 8, 10), (0, 8, 11), (0, 8, 12), (0, 8, 13), (0, 8, 14), (0, 8, 15), (0, 8, 16), (0, 8, 17), (0, 8, 18), (0, 8, 19), (0, 9, 10), (0, 9, 11), (0, 9, 12), (0, 9, 13)] := by
  decide

set_option maxHeartbeats 4000000 in
set_option maxRecDepth 100000 in
/-- Triples 120 to 179 of the enumeration. -/
theorem tchunk2 : ((triples (dodecaZ.length)).drop 120).take 60 = [(0, 9, 14), (0, 9, 15), (0, 9, 16), (0, 9, 17), (0, 9, 18), (0, 9, 19), (0, 10, 11), (0, 10, 12), (0, 10, 13), (0, 10, 14), (0, 10, 15), (0, 10, 16), (0, 10, 17), (0, 10, 18), (0, 10, 19), (0, 11, 12), (0, 11, 13), (0, 11, 14), (0, 11, 15), (0, 11, 16), (0, 11, 17), (0, 11, 18), (0, 11, 19), (0, 12, 13), (0, 12, 14), (0, 12, 15), (0, 12, 16), (0, 12, 17), (0, 12, 18), (0, 12, 19), (0, 13, 14), (0, 13, 15), (0, 13, 16), (0, 13, 17), (0, 13, 18), (0, 13, 19), (0, 14, 15), (0, 14, 16), (0, 14, 17), (0, 14, 18), (0, 14, 19), (0, 15, 16), (0, 15, 17), (0, 15, 18), (0, 15, 19), (0, 16, 17), (0, 16, 18), (0, 16, 19), (0, 17, 18), (0, 17, 19), (0, 18, 19), (1, 2, 3), (1, 2, 4), (1, 2, 5), (1, 2, 6), (1, 2, 7), (1, 2, 8), (1, 2, 9), (1, 2, 10), (1, 2, 11)] := by
  decide

set_option maxHeartbeats 4000000 in
set_option maxRecDepth 100000 in
/-- Triples 180 to 239 of the enumeration. -/
theorem tchunk3 : ((triples (dodecaZ.length)).drop 180).take 60 = [(1, 2, 12), (1, 2, 13), (1, 2, 14), (1, 2, 15), (1, 2, 16), (1, 2, 17), (1, 2, 18), (1, 2, 19), (1, 3, 4), (1, 3, 5), (1, 3, 6), (1, 3, 7), (1, 3, 8), (1, 3, 9), (1, 3, 10), (1, 3, 11), (1, 3, 12), (1, 3, 13), (1, 3, 14), (1, 3, 15), (1, 3, 16), (1, 3, 17), (1, 3, 18), (1, 3, 19), (1, 4, 5), (1, 4, 6), (1, 4, 7), (1, 4, 8), (1, 4, 9), (1, 4, 10), (1, 4, 11), (1, 4, 12), (1, 4, 13), (1, 4, 14), (1, 4, 15), (1, 4, 16), (1, 4, 17), (1, 4, 18), (1, 4, 19), (1, 5, 6), (1, 5, 7), (1, 5, 8), (1, 5, 9), (1, 5, 10), (1, 5, 11), (1, 5, 12), (1, 5, 13), (1, 5, 14), (1, 5, 15), (1, 5, 16), (1, 5, 17), (1, 5, 18), (1, 5, 19), (1, 6, 7), (1, 6, 8), (1, 6, 9), (1, 6, 10), (1, 6, 11), (1, 6, 12), (1, 6, 13)] := by
  decide

set_option maxHeartbeats 4000000 in
set_option maxRecDepth 100000 in
/-- Triples 240 to 299 of the enumeration. -/
theorem tchunk4 : ((triples (dodecaZ.length)).drop 240).take 60 = [(1, 6, 14), (1, 6, 15), (1, 6, 16), (1, 6, 17), (1, 6, 18), (1, 6, 19), (1, 7, 8), (1, 7, 9), (1, 7, 10), (1, 7, 11), (1, 7, 12), (1, 7, 13), (1, 7, 14), (1, 7, 15), (1, 7, 16), (1, 7, 17), (1, 7, 18), (1, 7, 19), (1, 8, 9), (1, 8, 10), (1, 8, 11), (1, 8, 12), (1, 8, 13), (1, 8, 14), (1, 8, 15), (1, 8, 16), (1, 8, 17), (1, 8, 18), (1, 8, 19), (1, 9, 10), (1, 9, 11), (1, 9, 12), (1, 9, 13), (1, 9, 14), (1, 9, 15), (1, 9, 16), (1, 9, 17), (1, 9, 18), (1, 9, 19), (1, 10, 11), (1, 10, 12), (1, 10, 13), (1, 10, 14), (1, 10, 15), (1, 10, 16), (1, 10, 17), (1, 10, 18), (1, 10, 19), (1, 11, 12), (1, 11, 13), (1, 11, 14), (1, 11, 15), (1, 11, 16), (1, 11, 17), (1, 11, 18), (1, 11, 19), (1, 12, 13), (1, 12, 14), (1, 12, 15), (1, 12, 16)] := by
  decide

set_option maxHeartbeats 4000000 in
set_option maxRecDepth 100000 in
/-- Triples 300 to 359 of the enumeration. -/
theorem tchunk5 : ((triples (dodecaZ.length)).drop 300).take 60 = [(1, 12, 17), (1, 12, 18), (1, 12, 19), (1, 13, 14), (1, 13, 15), (1, 13, 16), (1, 13, 17), (1, 13, 18), (1, 13, 19), (1, 14, 15), (1, 14, 16), (1, 14, 17), (1, 14, 18), (1, 14, 19), (1, 15, 16), (1, 15, 17), (1, 15, 18), (1, 15, 19), (1, 16, 17), (1, 16, 18), (1, 16, 19), (1, 17, 18), (1, 17, 19), (1, 18, 19), (2, 3, 4), (2, 3, 5), (2, 3, 6), (2, 3, 7), (2, 3, 8), (2, 3, 9), (2, 3, 10), (2, 3, 11), (2, 3, 12), (2, 3, 13), (2, 3, 14), (2, 3, 15), (2, 3, 16), (2, 3, 17), (2, 3, 18), (2, 3, 19), (2, 4, 5), (2, 4, 6), (2, 4, 7), (2, 4, 8), (2, 4, 9), (2, 4, 10), (2, 4, 11), (2, 4, 12), (2, 4, 13), (2, 4, 14), (2, 4, 15), (2, 4, 16), (2, 4, 17), (2, 4, 18), (2, 4, 19), (2, 5, 6), (2, 5, 7), (2, 5, 8), (2, 5, 9), (2, 5, 10)] := by
  decide

set_option maxHeartbeats 4000000 in
set_option maxRecDepth 100000 in
/-- Triples 360 to 419 of the enumeration. -/
theorem tchunk6 : ((triples (dodecaZ.length)).drop 360).take 60 = [(2, 5, 11), (2, 5, 12), (2, 5, 13), (2, 5, 14), (2, 5, 15), (2, 5, 16), (2, 5, 17), (2, 5, 18), (2, 5, 19), (2, 6, 7), (2, 6, 8), (2, 6, 9), (2, 6, 10), (2, 6, 11), (2, 6, 12), (2, 6, 13), (2, 6, 14), (2, 6, 15), (2, 6, 16), (2, 6, 17), (2, 6, 18), (2, 6, 19), (2, 7, 8), (2, 7, 9), (2, 7, 10), (2, 7, 11), (2, 7, 12), (2, 7, 13), (2, 7, 14), (2, 7, 15), (2, 7, 16), (2, 7, 17), (2, 7, 18), (2, 7, 19), (2, 8, 9), (2, 8, 10), (2, 8, 11), (2, 8, 12), (2, 8, 13), (2, 8, 14), (2, 8, 15), (2, 8, 16), (2, 8, 17), (2, 8, 18), (2, 8, 19), (2, 9, 10), (2, 9, 11), (2, 9, 12), (2, 9, 13), (2, 9, 14), (2, 9, 15), (2, 9, 16), (2, 9, 17), (2, 9, 18), (2, 9, 19), (2, 10, 11), (2, 10, 12), (2, 10, 13), (2, 10, 14), (2, 10, 15)] := by
  decide

set_option maxHeartbeats 4000000 in
set_option maxRecDepth 100000 in
/-- Triples 420 to 479 of the enumeration. -/
theorem tchunk7 : ((triples (dodecaZ.length)).drop 420).take 60 = [(2, 10, 16), (2, 10, 17), (2, 10, 18), (2, 10, 19), (2, 11, 12), (2, 11, 13), (2, 11, 14), (2, 11, 15), (2, 11, 16), (2, 11, 17), (2, 11, 18), (2, 11, 19), (2, 12, 13), (2, 12, 14), (2, 12, 15), (2, 12, 16), (2, 12, 17), (2, 12, 18), (2, 12, 19), (2, 13, 14), (2, 13, 15), (2, 13, 16), (2, 13, 17), (2, 13, 18), (2, 13, 19), (2, 14, 15), (2, 14, 16), (2, 14, 17), (2, 14, 18), (2, 14, 19), (2, 15, 16), (2, 15, 17), (2, 15, 18), (2, 15, 19), (2, 16, 17), (2, 16, 18), (2, 16, 19), (2, 17, 18), (2, 17, 19), (2, 18, 19), (3, 4, 5), (3, 4, 6), (3, 4, 7), (3, 4, 8), (3, 4, 9), (3, 4, 10), (3, 4, 11), (3, 4, 12), (3, 4, 13), (3, 4, 14), (3, 4, 15), (3, 4, 16), (3, 4, 17), (3, 4, 18), (3, 4, 19), (3, 5, 6), (3, 5, 7), (3, 5, 8), (3, 5, 9), (3, 5, 10)] := by
  decide

set_option maxHeartbeats 4000000 in
set_option maxRecDepth 100000 in
/-- Triples 480 to 539 of the enumeration. -/
theorem tchunk8 : ((triples (dodecaZ.length)).drop 480).take 60 = [(3, 5, 11), (3, 5, 12), (3, 5, 13), (3, 5, 14), (3, 5, 15), (3, 5, 16), (3, 5, 17), (3, 5, 18), (3, 5, 19), (3, 6, 7), (3, 6, 8), (3, 6, 9), (3, 6, 10), (3, 6, 11), (3, 6, 12), (3, 6, 13), (3, 6, 14), (3, 6, 15), (3, 6, 16), (3, 6, 17), (3, 6, 18), (3, 6, 19), (3, 7, 8), (3, 7, 9), (3, 7, 10), (3, 7, 11), (3, 7, 12), (3, 7, 13), (3, 7, 14), (3, 7, 15), (3, 7, 16), (3, 7, 17), (3, 7, 18), (3, 7, 19), (3, 8, 9), (3, 8, 10), (3, 8, 11), (3, 8, 12), (3, 8, 13), (3, 8, 14), (3, 8, 15), (3, 8, 16), (3, 8, 17), (3, 8, 18), (3, 8, 19), (3, 9, 10), (3, 9, 11), (3, 9, 12), (3, 9, 13), (3, 9, 14), (3, 9, 15), (3, 9, 16), (3, 9, 17), (3, 9, 18), (3, 9, 19), (3, 10, 11), (3, 10, 12), (3, 10, 13), (3, 10, 14), (3, 10, 15)] := by
  decide

set_option maxHeartbeats 4000000 in
set_option maxRecDepth 100000 in
/-- Triples 540 to 599 of the enumeration. -/
theorem tchunk9 : ((triples (dodecaZ.length)).drop 540).take 60 = [(3, 10, 16), (3, 10, 17), (3, 10, 18), (3, 10, 19), (3, 11, 12), (3, 11, 13), (3, 11, 14), (3, 11, 15), (3, 11, 16), (3, 11, 17), (3, 11, 18), (3, 11, 19), (3, 12, 13), (3, 12, 14), (3, 12, 15), (3, 12, 16), (3, 12, 17), (3, 12, 18), (3, 12, 19), (3, 13, 14), (3, 13, 15), (3, 13, 16), (3, 13, 17), (3, 13, 18), (3, 13, 19), (3, 14, 15), (3, 14, 16), (3, 14, 17), (3, 14, 18), (3, 14, 19), (3, 15, 16), (3, 15, 17), (3, 15, 18), (3, 15, 19), (3, 16, 17), (3, 16, 18), (3, 16, 19), (3, 17, 18), (3, 17, 19), (3, 18, 19), (4, 5, 6), (4, 5, 7), (4, 5, 8), (4, 5, 9), (4, 5, 10), (4, 5, 11), (4, 5, 12), (4, 5, 13), (4, 5, 14), (4, 5, 15), (4, 5, 16), (4, 5, 17), (4, 5, 18), (4, 5, 19), (4, 6, 7), (4, 6, 8), (4, 6, 9), (4, 6, 10), (4, 6, 11), (4, 6, 12)] := by
  decide

set_option maxHeartbeats 4000000 in
set_option maxRecDepth 100000 in
/-- Triples 600 to 659 of the enumeration. -/
theorem tchunk10 : ((triples (dodecaZ.length)).drop 600).take 60 = [(4, 6, 13), (4, 6, 14), (4, 6, 15), (4, 6, 16), (4, 6, 17), (4, 6, 18), (4, 6, 19), (4, 7, 8), (4, 7, 9), (4, 7, 10), (4, 7, 11), (4, 7, 12), (4, 7, 13), (4, 7, 14), (4, 7, 15), (4, 7, 16), (4, 7, 17), (4, 7, 18), (4, 7, 19), (4, 8, 9), (4, 8, 10), (4, 8, 11), (4, 8, 12), (4, 8, 13), (4, 8, 14), (4, 8, 15), (4, 8, 16), (4, 8, 17), (4, 8, 18), (4, 8, 19), (4, 9, 10), (4, 9, 11), (4, 9, 12), (4, 9, 13), (4, 9, 14), (4, 9, 15), (4, 9, 16), (4, 9, 17), (4, 9, 18), (4, 9, 19), (4, 10, 11), (4, 10, 12), (4, 10, 13), (4, 10, 14), (4, 10, 15), (4, 10, 16), (4, 10, 17), (4, 10, 18), (4, 10, 19), (4, 11, 12), (4, 11, 13), (4, 11, 14), (4, 11, 15), (4, 11, 16), (4, 11, 17), (4, 11, 18), (4, 11, 19), (4, 12, 13), (4, 12, 14), (4, 12, 15)] := by
  decide

set_option maxHeartbeats 4000000 in
set_option maxRecDepth 100000 in
/-- Triples 660 to 719 of the enumeration. -/
theorem tchunk11 : ((triples (dodecaZ.length)).drop 660).take 60 = [(4, 12, 16), (4, 12, 17), (4, 12, 18), (4, 12, 19), (4, 13, 14), (4, 13, 15), (4, 13, 16), (4, 13, 17), (4, 13, 18), (4, 13, 19), (4, 14, 15), (4, 14, 16), (4, 14, 17), (4, 14, 18), (4, 14, 19), (4, 15, 16), (4, 15, 17), (4, 15, 18), (4, 15, 19), (4, 16, 17), (4, 16, 18), (4, 16, 19), (4, 17, 18), (4, 17, 19), (4, 18, 19), (5, 6, 7), (5, 6, 8), (5, 6, 9), (5, 6, 10), (5, 6, 11), (5, 6, 12), (5, 6, 13), (5, 6, 14), (5, 6, 15), (5, 6, 16), (5, 6, 17), (5, 6, 18), (5, 6, 19), (5, 7, 8), (5, 7, 9), (5, 7, 10), (5, 7, 11), (5, 7, 12), (5, 7, 13), (5, 7, 14), (5, 7, 15), (5, 7, 16), (5, 7, 17), (5, 7, 18), (5, 7, 19), (5, 8, 9), (5, 8, 10), (5, 8, 11), (5, 8, 12), (5, 8, 13), (5, 8, 14), (5, 8, 15), (5, 8, 16), (5, 8, 17), (5, 8, 18)] := by
  decide

set_option maxHeartbeats 4000000 in
set_option maxRecDepth 100000 in
/-- Triples 720 to 779 of the enumeration. -/
theorem tchunk12 : ((triples (dodecaZ.length)).drop 720).take 60 = [(5, 8, 19), (5, 9, 10), (5, 9, 11), (5, 9, 12), (5, 9, 13), (5, 9, 14), (5, 9, 15), (5, 9, 16), (5, 9, 17), (5, 9, 18), (5, 9, 19), (5, 10, 11), (5, 10, 12), (5, 10, 13), (5, 10, 14), (5, 10, 15), (5, 10, 16), (5, 10, 17), (5, 10, 18), (5, 10, 19), (5, 11, 12), (5, 11, 13), (5, 11, 14), (5, 11, 15), (5, 11, 16), (5, 11, 17), (5, 11, 18), (5, 11, 19), (5, 12, 13), (5, 12, 14), (5, 12, 15), (5, 12, 16), (5, 12, 17), (5, 12, 18), (5, 12, 19), (5, 13, 14), (5, 13, 15), (5, 13, 16), (5, 13, 17), (5, 13, 18), (5, 13, 19), (5, 14, 15), (5, 14, 16), (5, 14, 17), (5, 14, 18), (5, 14, 19), (5, 15, 16), (5, 15, 17), (5, 15, 18), (5, 15, 19), (5, 16, 17), (5, 16, 18), (5, 16, 19), (5, 17, 18), (5, 17, 19), (5, 18, 19), (6, 7, 8), (6, 7, 9), (6, 7, 10), (6, 7, 11)] := by
  decide

set_option maxHeartbeats 4000000 in
set_option maxRecDepth 100000 in
/-- Triples 780 to 839 of the enumeration. -/
theorem tchunk13 : ((triples (dodecaZ.length)).drop 780).take 60 = [(6, 7, 12), (6, 7, 13), (6, 7, 14), (6, 7, 15), (6, 7, 16), (6, 7, 17), (6, 7, 18), (6, 7, 19), (6, 8, 9), (6, 8, 10), (6, 8, 11), (6, 8, 12), (6, 8, 13), (6, 8, 14), (6, 8, 15), (6, 8, 16), (6, 8, 17), (6, 8, 18), (6, 8, 19), (6, 9, 10), (6, 9, 11), (6, 9, 12), (6, 9, 13), (6, 9, 14), (6, 9, 15), (6, 9, 16), (6, 9, 17), (6, 9, 18), (6, 9, 19), (6, 10, 11), (6, 10, 12), (6, 10, 13), (6, 10, 14), (6, 10, 15), (6, 10, 16), (6, 10, 17), (6, 10, 18), (6, 10, 19), (6, 11, 12), (6, 11, 13), (6, 11, 14), (6, 11, 15), (6, 11, 16), (6, 11, 17), (6, 11, 18), (6, 11, 19), (6, 12, 13), (6, 12, 14), (6, 12, 15), (6, 12, 16), (6, 12, 17), (6, 12, 18), (6, 12, 19), (6, 13, 14), (6, 13, 15), (6, 13, 16), (6, 13, 17), (6, 13, 18), (6, 13, 19), (6, 14, 15)] := by
  decide

set_option maxHeartbeats 4000000 in
set_option maxRecDepth 100000 in
/-- Triples 840 to 899 of the enumeration. -/
theorem tchunk14 : ((triples (dodecaZ.length)).drop 840).take 60 = [(6, 14, 16), (6, 14, 17), (6, 14, 18), (6, 14, 19), (6, 15, 16), (6, 15, 17), (6, 15, 18), (6, 15, 19), (6, 16, 17), (6, 16, 18), (6, 16, 19), (6, 17, 18), (6, 17, 19), (6, 18, 19), (7, 8, 9), (7, 8, 10), (7, 8, 11), (7, 8, 12), (7, 8, 13), (7, 8, 14), (7, 8, 15), (7, 8, 16), (7, 8, 17), (7, 8, 18), (7, 8, 19), (7, 9, 10), (7, 9, 11), (7, 9, 12), (7, 9, 13), (7, 9, 14), (7, 9, 15), (7, 9, 16), (7, 9, 17), (7, 9, 18), (7, 9, 19), (7, 10, 11), (7, 10, 12), (7, 10, 13), (7, 10, 14), (7, 10, 15), (7, 10, 16), (7, 10, 17), (7, 10, 18), (7, 10, 19), (7, 11, 12), (7, 11, 13), (7, 11, 14), (7, 11, 15), (7, 11, 16), (7, 11, 17), (7, 11, 18), (7, 11, 19), (7, 12, 13), (7, 12, 14), (7, 12, 15), (7, 12, 16), (7, 12, 17), (7, 12, 18), (7, 12, 19), (7, 13, 14)] := by
  decide

set_option maxHeartbeats 4000000 in
set_option maxRecDepth 100000 in
/-- Triples 900 to 959 of the enumeration. -/
theorem tchunk15 : ((triples (dodecaZ.length)).drop 900).take 60 = [(7, 13, 15), (7, 13, 16), (7, 13, 17), (7, 13, 18), (7, 13, 19), (7, 14, 15), (7, 14, 16), (7, 14, 17), (7, 14, 18), (7, 14, 19), (7, 15, 16), (7, 15, 17), (7, 15, 18), (7, 15, 19), (7, 16, 17), (7, 16, 18), (7, 16, 19), (7, 17, 18), (7, 17, 19), (7, 18, 19), (8, 9, 10), (8, 9, 11), (8, 9, 12), (8, 9, 13), (8, 9, 14), (8, 9, 15), (8, 9, 16), (8, 9, 17), (8, 9, 18), (8, 9, 19), (8, 10, 11), (8, 10, 12), (8, 10, 13), (8, 10, 14), (8, 10, 15), (8, 10, 16), (8, 10, 17), (8, 10, 18), (8, 10, 19), (8, 11, 12), (8, 11, 13), (8, 11, 14), (8, 11, 15), (8, 11, 16), (8, 11, 17), (8, 11, 18), (8, 11, 19), (8, 12, 13), (8, 12, 14), (8, 12, 15), (8, 12, 16), (8, 12, 17), (8, 12, 18), (8, 12, 19), (8, 13, 14), (8, 13, 15), (8, 13, 16), (8, 13, 17), (8, 13, 18), (8, 13, 19)] := by
  decide

set_option maxHeartbeats 4000000 in
set_option maxRecDepth 100000 in
/-- Triples 960 to 1019 of the enumeration. -/
theorem tchunk16 : ((triples (dodecaZ.length)).drop 960).take 60 = [(8, 14, 15), (8, 14, 16), (8, 14, 17), (8, 14, 18), (8, 14, 19), (8, 15, 16), (8, 15, 17), (8, 15, 18), (8, 15, 19), (8, 16, 17), (8, 16, 18), (8, 16, 19), (8, 17, 18), (8, 17, 19), (8, 18, 19), (9, 10, 11), (9, 10, 12), (9, 10, 13), (9, 10, 14), (9, 10, 15), (9, 10, 16), (9, 10, 17), (9, 10, 18), (9, 10, 19), (9, 11, 12), (9, 11, 13), (9, 11, 14), (9, 11, 15), (9, 11, 16), (9, 11, 17), (9, 11, 18), (9, 11, 19), (9, 12, 13), (9, 12, 14), (9, 12, 15), (9, 12, 16), (9, 12, 17), (9, 12, 18), (9, 12, 19), (9, 13, 14), (9, 13, 15), (9, 13, 16), (9, 13, 17), (9, 13, 18), (9, 13, 19), (9, 14, 15), (9, 14, 16), (9, 14, 17), (9, 14, 18), (9, 14, 19), (9, 15, 16), (9, 15, 17), (9, 15, 18), (9, 15, 19), (9, 16, 17), (9, 16, 18), (9, 16, 19), (9, 17, 18), (9, 17, 19), (9, 18, 19)] := by
  decide

set_option maxHeartbeats 4000000 in
set_option maxRecDepth 100000 in
/-- Triples 1020 to 1079 of the enumeration. -/
theorem tchunk17 : ((triples (dodecaZ.length)).drop 1020).take 60 = [(10, 11, 12), (10, 11, 13), (10, 11, 14), (10, 11, 15), (10, 11, 16), (10, 11, 17), (10, 11, 18), (10, 11, 19), (10, 12, 13), (10, 12, 14), (10, 12, 15), (10, 12, 16), (10, 12, 17), (10, 12, 18), (10, 12, 19), (10, 13, 14), (10, 13, 15), (10, 13, 16), (10, 13, 17), (10, 13, 18), (10, 13, 19), (10, 14, 15), (10, 14, 16), (10, 14, 17), (10, 14, 18), (10, 14, 19), (10, 15, 16), (10, 15, 17), (10, 15, 18), (10, 15, 19), (10, 16, 17), (10, 16, 18), (10, 16, 19), (10, 17, 18), (10, 17, 19), (10, 18, 19), (11, 12, 13), (11, 12, 14), (11, 12, 15), (11, 12, 16), (11, 12, 17), (11, 12, 18), (11, 12, 19), (11, 13, 14), (11, 13, 15), (11, 13, 16), (11, 13, 17), (11, 13, 18), (11, 13, 19), (11, 14, 15), (11, 14, 16), (11, 14, 17), (11, 14, 18), (11, 14, 19), (11, 15, 16), (11, 15, 17), (11, 15, 18), (11, 15, 19), (11, 16, 17), (11, 16, 18)] := by
  decide

set_option maxHeartbeats 4000000 in
set_option maxRecDepth 100000 in
/-- The last 60 triples of the enumeration. -/
theorem tchunk18 : (triples (dodecaZ.length)).drop 1080 = [(11, 16, 19), (11, 17, 18), (11, 17, 19), (11, 18, 19), (12, 13, 14), (12, 13, 15), (12, 13, 16), (12, 13, 17), (12, 13, 18), (12, 13, 19), (12, 14, 15), (12, 14, 16), (12, 14, 17), (12, 14, 18), (12, 14, 19), (12, 15, 16), (12, 15, 17), (12, 15, 18), (12, 15, 19), (12, 16, 17), (12, 16, 18), (12, 16, 19), (12, 17, 18), (12, 17, 19), (12, 18, 19), (13, 14, 15), (13, 14, 16), (13, 14, 17), (13, 14, 18), (13, 14, 19), (13, 15, 16), (13, 15, 17), (13, 15, 18), (13, 15, 19), (13, 16, 17), (13, 16, 18), (13, 16, 19), (13, 17, 18), (13, 17, 19), (13, 18, 19), (14, 15, 16), (14, 15, 17), (14, 15, 18), (14, 15, 19), (14, 16, 17), (14, 16, 18), (14, 16, 19), (14, 17, 18), (14, 17, 19), (14, 18, 19), (15, 16, 17), (15, 16, 18), (15, 16, 19), (15, 17, 18), (15, 17, 19), (15, 18, 19), (16, 17, 18), (16, 17, 19), (16, 18, 19), (17, 18, 19)] := by
  decide

/-- Peeling chunk 1 off the remaining enumeration. -/
theorem gdrop1 : (triples (dodecaZ.length)).drop 60 =
    [(0, 4, 14), (0, 4, 15), (0, 4, 16), (0, 4, 17), (0, 4, 18), (0, 4, 19), (0, 5, 6), (0, 5, 7), (0, 5, 8), (0, 5, 9), (0, 5, 10), (0, 5, 11), (0, 5, 12), (0, 5, 13), (0, 5, 14), (0, 5, 15), (0, 5, 16), (0, 5, 17), (0, 5, 18), (0, 5, 19), (0, 6, 7), (0, 6, 8), (0, 6, 9), (0, 6, 10), (0, 6, 11), (0, 6, 12), (0, 6, 13), (0, 6, 14), (0, 6, 15), (0, 6, 16), (0, 6, 17), (0, 6, 18), (0, 6, 19), (0, 7, 8), (0, 7, 9), (0, 7, 10), (0, 7, 11), (0, 7, 12), (0, 7, 13), (0, 7, 14), (0, 7, 15), (0, 7, 16), (0, 7, 17), (0, 7, 18), (0, 7, 19), (0, 8, 9), (0, 8, 10), (0, 8, 11), (0, 8, 12), (0, 8, 13), (0, 8, 14), (0, 8, 15), (0, 8, 16), (0, 8, 17), (0, 8, 18), (0, 8, 19), (0, 9, 10), (0, 9, 11), (0, 9, 12), (0, 9, 13)] ++ (triples (dodecaZ.length)).drop 120 := by
  conv_lhs => rw [← List.take_append_drop 60 ((triples (dodecaZ.length)).drop 60)]
  rw [tchunk1, List.drop_drop]

/-- Peeling chunk 2 off the remaining enumeration. -/
theorem gdrop2 : (triples (dodecaZ.length)).drop 120 =
    [(0, 9, 14), (0, 9, 15), (0, 9, 16), (0, 9, 17), (0, 9, 18), (0, 9, 19), (0, 10, 11), (0, 10, 12), (0, 10, 13), (0, 10, 14), (0, 10, 15), (0, 10, 16), (0, 10, 17), (0, 10, 18), (0, 10, 19), (0, 11, 12), (0, 11, 13), (0, 11, 14), (0, 11, 15), (0, 11, 16), (0, 11, 17), (0, 11, 18), (0, 11, 19), (0, 12, 13), (0, 12, 14), (0, 12, 15), (0, 12, 16), (0, 12, 17), (0, 12, 18), (0, 12, 19), (0, 13, 14), (0, 13, 15), (0, 13, 16), (0, 13, 17), (0, 13, 18), (0, 13, 19), (0, 14, 15), (0, 14, 16), (0, 14, 17), (0, 14, 18), (0, 14, 19), (0, 15, 16), (0, 15, 17), (0, 15, 18), (0, 15, 19), (0, 16, 17), (0, 16, 18), (0, 16, 19), (0, 17, 18), (0, 17, 19), (0, 18, 19), (1, 2, 3), (1, 2, 4), (1, 2, 5), (1, 2, 6), (1, 2, 7), (1, 2, 8), (1, 2, 9), (1, 2, 10), (1, 2, 11)] ++ (triples (dodecaZ.length)).drop 180 := by
  conv_lhs => rw [← List.take_append_drop 60 ((triples (dodecaZ.length)).drop 120)]
  rw [tchunk2, List.drop_drop]

/-- Peeling chunk 3 off the remaining enumeration. -/
theorem gdrop3 : (triples (dodecaZ.length)).drop 180 =
    [(1, 2, 12), (1, 2, 13), (1, 2, 14), (1, 2, 15), (1, 2, 16), (1, 2, 17), (1, 2, 18), (1, 2, 19), (1, 3, 4), (1, 3, 5), (1, 3, 6), (1, 3, 7), (1, 3, 8), (1, 3, 9), (1, 3, 10), (1, 3, 11), (1, 3, 12), (1, 3, 13), (1, 3, 14), (1, 3, 15), (1, 3, 16), (1, 3, 17), (1, 3, 18), (1, 3, 19), (1, 4, 5), (1, 4, 6), (1, 4, 7), (1, 4, 8), (1, 4, 9), (1, 4, 10), (1, 4, 11), (1, 4, 12), (1, 4, 13), (1, 4, 14), (1, 4, 15), (1, 4, 16), (1, 4, 17), (1, 4, 18), (1, 4, 19), (1, 5, 6), (1, 5, 7), (1, 5, 8), (1, 5, 9), (1, 5, 10), (1, 5, 11), (1, 5, 12), (1, 5, 13), (1, 5, 14), (1, 5, 15), (1, 5, 16), (1, 5, 17), (1, 5, 18), (1, 5, 19), (1, 6, 7), (1, 6, 8), (1, 6, 9), (1, 6, 10), (1, 6, 11), (1, 6, 12), (1, 6, 13)] ++ (triples (dodecaZ.length)).drop 240 := by
  conv_lhs => rw [← List.take_append_drop 60 ((triples (dodecaZ.length)).drop 180)]
  rw [tchunk3, List.drop_drop]

/-- Peeling chunk 4 off the remaining enumeration. -/
theorem gdrop4 : (triples (dodecaZ.length)).drop 240 =
    [(1, 6, 14), (1, 6, 15), (1, 6, 16), (1, 6, 17), (1, 6, 18), (1, 6, 19), (1, 7, 8), (1, 7, 9), (1, 7, 10), (1, 7, 11), (1, 7, 12), (1, 7, 13), (1, 7, 14), (1, 7, 15), (1, 7, 16), (1, 7, 17), (1, 7, 18), (1, 7, 19), (1, 8, 9), (1, 8, 10), (1, 8, 11), (1, 8, 12), (1, 8, 13), (1, 8, 14), (1, 8, 15), (1, 8, 16), (1, 8, 17), (1, 8, 18), (1, 8, 19), (1, 9, 10), (1, 9, 11), (1, 9, 12), (1, 9, 13), (1, 9, 14), (1, 9, 15), (1, 9, 16), (1, 9, 17), (1, 9, 18), (1, 9, 19), (1, 10, 11), (1, 10, 12), (1, 10, 13), (1, 10, 14), (1, 10, 15), (1, 10, 16), (1, 10, 17), (1, 10, 18), (1, 10, 19), (1, 11, 12), (1, 11, 13), (1, 11, 14), (1, 11, 15), (1, 11, 16), (1, 11, 17), (1, 11, 18), (1, 11, 19), (1, 12, 13), (1, 12, 14), (1, 12, 15), (1, 12, 16)] ++ (triples (dodecaZ.length)).drop 300 := by
  conv_lhs => rw [← List.take_append_drop 60 ((triples (dodecaZ.length)).drop 240)]
  rw [tchunk4, List.drop_drop]

/-- Peeling chunk 5 off the remaining enumeration. -/
theorem gdrop5 : (triples (dodecaZ.length)).drop 300 =
    [(1, 12, 17), (1, 12, 18), (1, 12, 19), (1, 13, 14), (1, 13, 15), (1, 13, 16), (1, 13, 17), (1, 13, 18), (1, 13, 19), (1, 14, 15), (1, 14, 16), (1, 14, 17), (1, 14, 18), (1, 14, 19), (1, 15, 16), (1, 15, 17), (1, 15, 18), (1, 15, 19), (1, 16, 17), (1, 16, 18), (1, 16, 19), (1, 17, 18), (1, 17, 19), (1, 18, 19), (2, 3, 4), (2, 3, 5), (2, 3, 6), (2, 3, 7), (2, 3, 8), (2, 3, 9), (2, 3, 10), (2, 3, 11), (2, 3, 12), (2, 3, 13), (2, 3, 14), (2, 3, 15), (2, 3, 16), (2, 3, 17), (2, 3, 18), (2, 3, 19), (2, 4, 5), (2, 4, 6), (2, 4, 7), (2, 4, 8), (2, 4, 9), (2, 4, 10), (2, 4, 11), (2, 4, 12), (2, 4, 13), (2, 4, 14), (2, 4, 15), (2, 4, 16), (2, 4, 17), (2, 4, 18), (2, 4, 19), (2, 5, 6), (2, 5, 7), (2, 5, 8), (2, 5, 9), (2, 5, 10)] ++ (triples (dodecaZ.length)).drop 360 := by
  conv_lhs => rw [← List.take_append_drop 60 ((triples (dodecaZ.length)).drop 300)]
  rw [tchunk5, List.drop_drop]

/-- Peeling chunk 6 off the remaining enumeration. -/
theorem gdrop6 : (triples (dodecaZ.length)).drop 360 =
    [(2, 5, 11), (2, 5, 12), (2, 5, 13), (2, 5, 14), (2, 5, 15), (2, 5, 16), (2, 5, 17), (2, 5, 18), (2, 5, 19), (2, 6, 7), (2, 6, 8), (2, 6, 9), (2, 6, 10), (2, 6, 11), (2, 6, 12), (2, 6, 13), (2, 6, 14), (2, 6, 15), (2, 6, 16), (2, 6, 17), (2, 6, 18), (2, 6, 19), (2, 7, 8), (2, 7, 9), (2, 7, 10), (2, 7, 11), (2, 7, 12), (2, 7, 13), (2, 7, 14), (2, 7, 15), (2, 7, 16), (2, 7, 17), (2, 7, 18), (2, 7, 19), (2, 8, 9), (2, 8, 10), (2, 8, 11), (2, 8, 12), (2, 8, 13), (2, 8, 14), (2, 8, 15), (2, 8, 16), (2, 8, 17), (2, 8, 18), (2, 8, 19), (2, 9, 10), (2, 9, 11), (2, 9, 12), (2, 9, 13), (2, 9, 14), (2, 9, 15), (2, 9, 16), (2, 9, 17), (2, 9, 18), (2, 9, 19), (2, 10, 11), (2, 10, 12), (2, 10, 13), (2, 10, 14), (2, 10, 15)] ++ (triples (dodecaZ.length)).drop 420 := by
  conv_lhs => rw [← List.take_append_drop 60 ((triples (dodecaZ.length)).drop 360)]
  rw [tchunk6, List.drop_drop]

/-- Peeling chunk 7 off the remaining enumeration. -/
theorem gdrop7 : (triples (dodecaZ.length)).drop 420 =
    [(2, 10, 16), (2, 10, 17), (2, 10, 18), (2, 10, 19), (2, 11, 12), (2, 11, 13), (2, 11, 14), (2, 11, 15), (2, 11, 16), (2, 11, 17), (2, 11, 18), (2, 11, 19), (2, 12, 13), (2, 12, 14), (2, 12, 15), (2, 12, 16), (2, 12, 17), (2, 12, 18), (2, 12, 19), (2, 13, 14), (2, 13, 15), (2, 13, 16), (2, 13, 17), (2, 13, 18), (2, 13, 19), (2, 14, 15), (2, 14, 16), (2, 14, 17), (2, 14, 18), (2, 14, 19), (2, 15, 16), (2, 15, 17), (2, 15, 18), (2, 15, 19), (2, 16, 17), (2, 16, 18), (2, 16, 19), (2, 17, 18), (2, 17, 19), (2, 18, 19), (3, 4, 5), (3, 4, 6), (3, 4, 7), (3, 4, 8), (3, 4, 9), (3, 4, 10), (3, 4, 11), (3, 4, 12), (3, 4, 13), (3, 4, 14), (3, 4, 15), (3, 4, 16), (3, 4, 17), (3, 4, 18), (3, 4, 19), (3, 5, 6), (3, 5, 7), (3, 5, 8), (3, 5, 9), (3, 5, 10)] ++ (triples (dodecaZ.length)).drop 480 := by
  conv_lhs => rw [← List.take_append_drop 60 ((triples (dodecaZ.length)).drop 420)]
  rw [tchunk7, List.drop_drop]

/-- Peeling chunk 8 off the remaining enumeration. -/
theorem gdrop8 : (triples (dodecaZ.length)).drop 480 =
    [(3, 5, 11), (3, 5, 12), (3, 5, 13), (3, 5, 14), (3, 5, 15), (3, 5, 16), (3, 5, 17), (3, 5, 18), (3, 5, 19), (3, 6, 7), (3, 6, 8), (3, 6, 9), (3, 6, 10), (3, 6, 11), (3, 6, 12), (3, 6, 13), (3, 6, 14), (3, 6, 15), (3, 6, 16), (3, 6, 17), (3, 6, 18), (3, 6, 19), (3, 7, 8), (3, 7, 9), (3, 7, 10), (3, 7, 11), (3, 7, 12), (3, 7, 13), (3, 7, 14), (3, 7, 15), (3, 7, 16), (3, 7, 17), (3, 7, 18), (3, 7, 19), (3, 8, 9), (3, 8, 10), (3, 8, 11), (3, 8, 12), (3, 8, 13), (3, 8, 14), (3, 8, 15), (3, 8, 16), (3, 8, 17), (3, 8, 18), (3, 8, 19), (3, 9, 10), (3, 9, 11), (3, 9, 12), (3, 9, 13), (3, 9, 14), (3, 9, 15), (3, 9, 16), (3, 9, 17), (3, 9, 18), (3, 9, 19), (3, 10, 11), (3, 10, 12), (3, 10, 13), (3, 10, 14), (3, 10, 15)] ++ (triples (dodecaZ.length)).drop 540 := by
  conv_lhs => rw [← List.take_append_drop 60 ((triples (dodecaZ.length)).drop 480)]
  rw [tchunk8, List.drop_drop]

/-- Peeling chunk 9 off the remaining enumeration. -/
theorem gdrop9 : (triples (dodecaZ.length)).drop 540 =
    [(3, 10, 16), (3, 10, 17), (3, 10, 18), (3, 10, 19), (3, 11, 12), (3, 11, 13), (3, 11, 14), (3, 11, 15), (3, 11, 16), (3, 11, 17), (3, 11, 18), (3, 11, 19), (3, 12, 13), (3, 12, 14), (3, 12, 15), (3, 12, 16), (3, 12, 17), (3, 12, 18), (3, 12, 19), (3, 13, 14), (3, 13, 15), (3, 13, 16), (3, 13, 17), (3, 13, 18), (3, 13, 19), (3, 14, 15), (3, 14, 16), (3, 14, 17), (3, 14, 18), (3, 14, 19), (3, 15, 16), (3, 15, 17), (3, 15, 18), (3, 15, 19), (3, 16, 17), (3, 16, 18), (3, 16, 19), (3, 17, 18), (3, 17, 19), (3, 18, 19), (4, 5, 6), (4, 5, 7), (4, 5, 8), (4, 5, 9), (4, 5, 10), (4, 5, 11), (4, 5, 12), (4, 5, 13), (4, 5, 14), (4, 5, 15), (4, 5, 16), (4, 5, 17), (4, 5, 18), (4, 5, 19), (4, 6, 7), (4, 6, 8), (4, 6, 9), (4, 6, 10), (4, 6, 11), (4, 6, 12)] ++ (triples (dodecaZ.length)).drop 600 := by
  conv_lhs => rw [← List.take_append_drop 60 ((triples (dodecaZ.length)).drop 540)]
  rw [tchunk9, List.drop_drop]

/-- Peeling chunk 10 off the remaining enumeration. -/
theorem gdrop10 : (triples (dodecaZ.length)).drop 600 =
    [(4, 6, 13), (4, 6, 14), (4, 6, 15), (4, 6, 16), (4, 6, 17), (4, 6, 18), (4, 6, 19), (4, 7, 8), (4, 7, 9), (4, 7, 10), (4, 7, 11), (4, 7, 12), (4, 7, 13), (4, 7, 14), (4, 7, 15), (4, 7, 16), (4, 7, 17), (4, 7, 18), (4, 7, 19), (4, 8, 9), (4, 8, 10), (4, 8, 11), (4, 8, 12), (4, 8, 13), (4, 8, 14), (4, 8, 15), (4, 8, 16), (4, 8, 17), (4, 8, 18), (4, 8, 19), (4, 9, 10), (4, 9, 11), (4, 9, 12), (4, 9, 13), (4, 9, 14), (4, 9, 15), (4, 9, 16), (4, 9, 17), (4, 9, 18), (4, 9, 19), (4, 10, 11), (4, 10, 12), (4, 10, 13), (4, 10, 14), (4, 10, 15), (4, 10, 16), (4, 10, 17), (4, 10, 18), (4, 10, 19), (4, 11, 12), (4, 11, 13), (4, 11, 14), (4, 11, 15), (4, 11, 16), (4, 11, 17), (4, 11, 18), (4, 11, 19), (4, 12, 13), (4, 12, 14), (4, 12, 15)] ++ (triples (dodecaZ.length)).drop 660 := by
  conv_lhs => rw [← List.take_append_drop 60 ((triples (dodecaZ.length)).drop 600)]
  rw [tchunk10, List.drop_drop]

/-- Peeling chunk 11 off the remaining enumeration. -/
theorem gdrop11 : (triples (dodecaZ.length)).drop 660 =
    [(4, 12, 16), (4, 12, 17), (4, 12, 18), (4, 12, 19), (4, 13, 14), (4, 13, 15), (4, 13, 16), (4, 13, 17), (4, 13, 18), (4, 13, 19), (4, 14, 15), (4, 14, 16), (4, 14, 17), (4, 14, 18), (4, 14, 19), (4, 15, 16), (4, 15, 17), (4, 15, 18), (4, 15, 19), (4, 16, 17), (4, 16, 18), (4, 16, 19), (4, 17, 18), (4, 17, 19), (4, 18, 19), (5, 6, 7), (5, 6, 8), (5, 6, 9), (5, 6, 10), (5, 6, 11), (5, 6, 12), (5, 6, 13), (5, 6, 14), (5, 6, 15), (5, 6, 16), (5, 6, 17), (5, 6, 18), (5, 6, 19), (5, 7, 8), (5, 7, 9), (5, 7, 10), (5, 7, 11), (5, 7, 12), (5, 7, 13), (5, 7, 14), (5, 7, 15), (5, 7, 16), (5, 7, 17), (5, 7, 18), (5, 7, 19), (5, 8, 9), (5, 8, 10), (5, 8, 11), (5, 8, 12), (5, 8, 13), (5, 8, 14), (5, 8, 15), (5, 8, 16), (5, 8, 17), (5, 8, 18)] ++ (triples (dodecaZ.length)).drop 720 := by
  conv_lhs => rw [← List.take_append_drop 60 ((triples (dodecaZ.length)).drop 660)]
  rw [tchunk11, List.drop_drop]

/-- Peeling chunk 12 off the remaining enumeration. -/
theorem gdrop12 : (triples (dodecaZ.length)).drop 720 =
    [(5, 8, 19), (5, 9, 10), (5, 9, 11), (5, 9, 12), (5, 9, 13), (5, 9, 14), (5, 9, 15), (5, 9, 16), (5, 9, 17), (5, 9, 18), (5, 9, 19), (5, 10, 11), (5, 10, 12), (5, 10, 13), (5, 10, 14), (5, 10, 15), (5, 10, 16), (5, 10, 17), (5, 10, 18), (5, 10, 19), (5, 11, 12), (5, 11, 13), (5, 11, 14), (5, 11, 15), (5, 11, 16), (5, 11, 17), (5, 11, 18), (5, 11, 19), (5, 12, 13), (5, 12, 14), (5, 12, 15), (5, 12, 16), (5, 12, 17), (5, 12, 18), (5, 12, 19), (5, 13, 14), (5, 13, 15), (5, 13, 16), (5, 13, 17), (5, 13, 18), (5, 13, 19), (5, 14, 15), (5, 14, 16), (5, 14, 17), (5, 14, 18), (5, 14, 19), (5, 15, 16), (5, 15, 17), (5, 15, 18), (5, 15, 19), (5, 16, 17), (5, 16, 18), (5, 16, 19), (5, 17, 18), (5, 17, 19), (5, 18, 19), (6, 7, 8), (6, 7, 9), (6, 7, 10), (6, 7, 11)] ++ (triples (dodecaZ.length)).drop 780 := by
  conv_lhs => rw [← List.take_append_drop 60 ((triples (dodecaZ.length)).drop 720)]
  rw [tchunk12, List.drop_drop]

/-- Peeling chunk 13 off the remaining enumeration. -/
theorem gdrop13 : (triples (dodecaZ.length)).drop 780 =
    [(6, 7, 12), (6, 7, 13), (6, 7, 14), (6, 7, 15), (6, 7, 16), (6, 7, 17), (6, 7, 18), (6, 7, 19), (6, 8, 9), (6, 8, 10), (6, 8, 11), (6, 8, 12), (6, 8, 13), (6, 8, 14), (6, 8, 15), (6, 8, 16), (6, 8, 17), (6, 8, 18), (6, 8, 19), (6, 9, 10), (6, 9, 11), (6, 9, 12), (6, 9, 13), (6, 9, 14), (6, 9, 15), (6, 9, 16), (6, 9, 17), (6, 9, 18), (6, 9, 19), (6, 10, 11), (6, 10, 12), (6, 10, 13), (6, 10, 14), (6, 10, 15), (6, 10, 16), (6, 10, 17), (6, 10, 18), (6, 10, 19), (6, 11, 12), (6, 11, 13), (6, 11, 14), (6, 11, 15), (6, 11, 16), (6, 11, 17), (6, 11, 18), (6, 11, 19), (6, 12, 13), (6, 12, 14), (6, 12, 15), (6, 12, 16), (6, 12, 17), (6, 12, 18), (6, 12, 19), (6, 13, 14), (6, 13, 15), (6, 13, 16), (6, 13, 17), (6, 13, 18), (6, 13, 19), (6, 14, 15)] ++ (triples (dodecaZ.length)).drop 840 := by
  conv_lhs => rw [← List.take_append_drop 60 ((triples (dodecaZ.length)).drop 780)]
  rw [tchunk13, List.drop_drop]

/-- Peeling chunk 14 off the remaining enumeration. -/
theorem gdrop14 : (triples (dodecaZ.length)).drop 840 =
    [(6, 14, 16), (6, 14, 17), (6, 14, 18), (6, 14, 19), (6, 15, 16), (6, 15, 17), (6, 15, 18), (6, 15, 19), (6, 16, 17), (6, 16, 18), (6, 16, 19), (6, 17, 18), (6, 17, 19), (6, 18, 19), (7, 8, 9), (7, 8, 10), (7, 8, 11), (7, 8, 12), (7, 8, 13), (7, 8, 14), (7, 8, 15), (7, 8, 16), (7, 8, 17), (7, 8, 18), (7, 8, 19), (7, 9, 10), (7, 9, 11), (7, 9, 12), (7, 9, 13), (7, 9, 14), (7, 9, 15), (7, 9, 16), (7, 9, 17), (7, 9, 18), (7, 9, 19), (7, 10, 11), (7, 10, 12), (7, 10, 13), (7, 10, 14), (7, 10, 15), (7, 10, 16), (7, 10, 17), (7, 10, 18), (7, 10, 19), (7, 11, 12), (7, 11, 13), (7, 11, 14), (7, 11, 15), (7, 11, 16), (7, 11, 17), (7, 11, 18), (7, 11, 19), (7, 12, 13), (7, 12, 14), (7, 12, 15), (7, 12, 16), (7, 12, 17), (7, 12, 18), (7, 12, 19), (7, 13, 14)] ++ (triples (dodecaZ.length)).drop 900 := by
  conv_lhs => rw [← List.take_append_drop 60 ((triples (dodecaZ.length)).drop 840)]
  rw [tchunk14, List.drop_drop]

/-- Peeling chunk 15 off the remaining enumeration. -/
theorem gdrop15 : (triples (dodecaZ.length)).drop 900 =
    [(7, 13, 15), (7, 13, 16), (7, 13, 17), (7, 13, 18), (7, 13, 19), (7, 14, 15), (7, 14, 16), (7, 14, 17), (7, 14, 18), (7, 14, 19), (7, 15, 16), (7, 15, 17), (7, 15, 18), (7, 15, 19), (7, 16, 17), (7, 16, 18), (7, 16, 19), (7, 17, 18), (7, 17, 19), (7, 18, 19), (8, 9, 10), (8, 9, 11), (8, 9, 12), (8, 9, 13), (8, 9, 14), (8, 9, 15), (8, 9, 16), (8, 9, 17), (8, 9, 18), (8, 9, 19), (8, 10, 11), (8, 10, 12), (8, 10, 13), (8, 10, 14), (8, 10, 15), (8, 10, 16), (8, 10, 17), (8, 10, 18), (8, 10, 19), (8, 11, 12), (8, 11, 13), (8, 11, 14), (8, 11, 15), (8, 11, 16), (8, 11, 17), (8, 11, 18), (8, 11, 19), (8, 12, 13), (8, 12, 14), (8, 12, 15), (8, 12, 16), (8, 12, 17), (8, 12, 18), (8, 12, 19), (8, 13, 14), (8, 13, 15), (8, 13, 16), (8, 13, 17), (8, 13, 18), (8, 13, 19)] ++ (triples (dodecaZ.length)).drop 960 := by
  conv_lhs => rw [← List.take_append_drop 60 ((triples (dodecaZ.length)).drop 900)]
  rw [tchunk15, List.drop_drop]

/-- Peeling chunk 16 off the remaining enumeration. -/
theorem gdrop16 : (triples (dodecaZ.length)).drop 960 =
    [(8, 14, 15), (8, 14, 16), (8, 14, 17), (8, 14, 18), (8, 14, 19), (8, 15, 16), (8, 15, 17), (8, 15, 18), (8, 15, 19), (8, 16, 17), (8, 16, 18), (8, 16, 19), (8, 17, 18), (8, 17, 19), (8, 18, 19), (9, 10, 11), (9, 10, 12), (9, 10, 13), (9, 10, 14), (9, 10, 15), (9, 10, 16), (9, 10, 17), (9, 10, 18), (9, 10, 19), (9, 11, 12), (9, 11, 13), (9, 11, 14), (9, 11, 15), (9, 11, 16), (9, 11, 17), (9, 11, 18), (9, 11, 19), (9, 12, 13), (9, 12, 14), (9, 12, 15), (9, 12, 16), (9, 12, 17), (9, 12, 18), (9, 12, 19), (9, 13, 14), (9, 13, 15), (9, 13, 16), (9, 13, 17), (9, 13, 18), (9, 13, 19), (9, 14, 15), (9, 14, 16), (9, 14, 17), (9, 14, 18), (9, 14, 19), (9, 15, 16), (9, 15, 17), (9, 15, 18), (9, 15, 19), (9, 16, 17), (9, 16, 18), (9, 16, 19), (9, 17, 18), (9, 17, 19), (9, 18, 19)] ++ (triples (dodecaZ.length)).drop 1020 := by
  conv_lhs => rw [← List.take_append_drop 60 ((triples (dodecaZ.length)).drop 960)]
  rw [tchunk16, List.drop_drop]

/-- Peeling chunk 17 off the remaining enumeration. -/
theorem gdrop17 : (triples (dodecaZ.length)).drop 1020 =
    [(10, 11, 12), (10, 11, 13), (10, 11, 14), (10, 11, 15), (10, 11, 16), (10, 11, 17), (10, 11, 18), (10, 11, 19), (10, 12, 13), (10, 12, 14), (10, 12, 15), (10, 12, 16), (10, 12, 17), (10, 12, 18), (10, 12, 19), (10, 13, 14), (10, 13, 15), (10, 13, 16), (10, 13, 17), (10, 13, 18), (10, 13, 19), (10, 14, 15), (10, 14, 16), (10, 14, 17), (10, 14, 18), (10, 14, 19), (10, 15, 16), (10, 15, 17), (10, 15, 18), (10, 15, 19), (10, 16, 17), (10, 16, 18), (10, 16, 19), (10, 17, 18), (10, 17, 19), (10, 18, 19), (11, 12, 13), (11, 12, 14), (11, 12, 15), (11, 12, 16), (11, 12, 17), (11, 12, 18), (11, 12, 19), (11, 13, 14), (11, 13, 15), (11, 13, 16), (11, 13, 17), (11, 13, 18), (11, 13, 19), (11, 14, 15), (11, 14, 16), (11, 14, 17), (11, 14, 18), (11, 14, 19), (11, 15, 16), (11, 15, 17), (11, 15, 18), (11, 15, 19), (11, 16, 17), (11, 16, 18)] ++ (triples (dodecaZ.length)).drop 1080 := by
  conv_lhs => rw [← List.take_append_drop 60 ((triples (dodecaZ.length)).drop 1020)]
  rw [tchunk17, List.drop_drop]

set_option maxHeartbeats 16000000 in
/-- The triple enumeration for 20 vertices, split into the chunks above. -/
theorem triples20_split :
    triples (dodecaZ.length) =
      [(0, 1, 2), (0, 1, 3), (0, 1, 4), (0, 1, 5), (0, 1, 6), (0, 1, 7), (0, 1, 8), (0, 1, 9), (0, 1, 10), (0, 1, 11), (0, 1, 12), (0, 1, 13), (0, 1, 14), (0, 1, 15), (0, 1, 16), (0, 1, 17), (0, 1, 18), (0, 1, 19), (0, 2, 3), (0, 2, 4), (0, 2, 5), (0, 2, 6), (0, 2, 7), (0, 2, 8), (0, 2, 9), (0, 2, 10), (0, 2, 11), (0, 2, 12), (0, 2, 13), (0, 2, 14), (0, 2, 15), (0, 2, 16), (0, 2, 17), (0, 2, 18), (0, 2, 19), (0, 3, 4), (0, 3, 5), (0, 3, 6), (0, 3, 7), (0, 3, 8), (0, 3, 9), (0, 3, 10), (0, 3, 11), (0, 3, 12), (0, 3, 13), (0, 3, 14), (0, 3, 15), (0, 3, 16), (0, 3, 17), (0, 3, 18), (0, 3, 19), (0, 4, 5), (0, 4, 6), (0, 4, 7), (0, 4, 8), (0, 4, 9), (0, 4, 10), (0, 4, 11), (0, 4, 12), (0, 4, 13)] ++
      ([(0, 4, 14), (0, 4, 15), (0, 4, 16), (0, 4, 17), (0, 4, 18), (0, 4, 19), (0, 5, 6), (0, 5, 7), (0, 5, 8), (0, 5, 9), (0, 5, 10), (0, 5, 11), (0, 5, 12), (0, 5, 13), (0, 5, 14), (0, 5, 15), (0, 5, 16), (0, 5, 17), (0, 5, 18), (0, 5, 19), (0, 6, 7), (0, 6, 8), (0, 6, 9), (0, 6, 10), (0, 6, 11), (0, 6, 12), (0, 6, 13), (0, 6, 14), (0, 6, 15), (0, 6, 16), (0, 6, 17), (0, 6, 18), (0, 6, 19), (0, 7, 8), (0, 7, 9), (0, 7, 10), (0, 7, 11), (0, 7, 12), (0, 7, 13), (0, 7, 14), (0, 7, 15), (0, 7, 16), (0, 7, 17), (0, 7, 18), (0, 7, 19), (0, 8, 9), (0, 8, 10), (0, 8, 11), (0, 8, 12), (0, 8, 13), (0, 8, 14), (0, 8, 15), (0, 8, 16), (0, 8, 17), (0, 8, 18), (0, 8, 19), (0, 9, 10), (0, 9, 11), (0, 9, 12), (0, 9, 13)] ++
      ([(0, 9, 14), (0, 9, 15), (0, 9, 16), (0, 9, 17), (0, 9, 18), (0, 9, 19), (0, 10, 11), (0, 10, 12), (0, 10, 13), (0, 10, 14), (0, 10, 15), (0, 10, 16), (0, 10, 17), (0, 10, 18), (0, 10, 19), (0, 11, 12), (0, 11, 13), (0, 11, 14), (0, 11, 15), (0, 11, 16), (0, 11, 17), (0, 11, 18), (0, 11, 19), (0, 12, 13), (0, 12, 14), (0, 12, 15), (0, 12, 16), (0, 12, 17), (0, 12, 18), (0, 12, 19), (0, 13, 14), (0, 13, 15), (0, 13, 16), (0, 13, 17), (0, 13, 18), (0, 13, 19), (0, 14, 15), (0, 14, 16), (0, 14, 17), (0, 14, 18), (0, 14, 19), (0, 15, 16), (0, 15, 17), (0, 15, 18), (0, 15, 19), (0, 16, 17), (0, 16, 18), (0, 16, 19), (0, 17, 18), (0, 17, 19), (0, 18, 19), (1, 2, 3), (1, 2, 4), (1, 2, 5), (1, 2, 6), (1, 2, 7), (1, 2, 8), (1, 2, 9), (1, 2, 10), (1, 2, 11)] ++
      ([(1, 2, 12), (1, 2, 13), (1, 2, 14), (1, 2, 15), (1, 2, 16), (1, 2, 17), (1, 2, 18), (1, 2, 19), (1, 3, 4), (1, 3, 5), (1, 3, 6), (1, 3, 7), (1, 3, 8), (1, 3, 9), (1, 3, 10), (1, 3, 11), (1, 3, 12), (1, 3, 13), (1, 3, 14), (1, 3, 15), (1, 3, 16), (1, 3, 17), (1, 3, 18), (1, 3, 19), (1, 4, 5), (1, 4, 6), (1, 4, 7), (1, 4, 8), (1, 4, 9), (1, 4, 10), (1, 4, 11), (1, 4, 12), (1, 4, 13), (1, 4, 14), (1, 4, 15), (1, 4, 16), (1, 4, 17), (1, 4, 18), (1, 4, 19), (1, 5, 6), (1, 5, 7), (1, 5, 8), (1, 5, 9), (1, 5, 10), (1, 5, 11), (1, 5, 12), (1, 5, 13), (1, 5, 14), (1, 5, 15), (1, 5, 16), (1, 5, 17), (1, 5, 18), (1, 5, 19), (1, 6, 7), (1, 6, 8), (1, 6, 9), (1, 6, 10), (1, 6, 11), (1, 6, 12), (1, 6, 13)] ++
      ([(1, 6, 14), (1, 6, 15), (1, 6, 16), (1, 6, 17), (1, 6, 18), (1, 6, 19), (1, 7, 8), (1, 7, 9), (1, 7, 10), (1, 7, 11), (1, 7, 12), (1, 7, 13), (1, 7, 14), (1, 7, 15), (1, 7, 16), (1, 7, 17), (1, 7, 18), (1, 7, 19), (1, 8, 9), (1, 8, 10), (1, 8, 11), (1, 8, 12), (1, 8, 13), (1, 8, 14), (1, 8, 15), (1, 8, 16), (1, 8, 17), (1, 8, 18), (1, 8, 19), (1, 9, 10), (1, 9, 11), (1, 9, 12), (1, 9, 13), (1, 9, 14), (1, 9, 15), (1, 9, 16), (1, 9, 17), (1, 9, 18), (1, 9, 19), (1, 10, 11), (1, 10, 12), (1, 10, 13), (1, 10, 14), (1, 10, 15), (1, 10, 16), (1, 10, 17), (1, 10, 18), (1, 10, 19), (1, 11, 12), (1, 11, 13), (1, 11, 14), (1, 11, 15), (1, 11, 16), (1, 11, 17), (1, 11, 18), (1, 11, 19), (1, 12, 13), (1, 12, 14), (1, 12, 15), (1, 12, 16)] ++
      ([(1, 12, 17), (1, 12, 18), (1, 12, 19), (1, 13, 14), (1, 13, 15), (1, 13, 16), (1, 13, 17), (1, 13, 18), (1, 13, 19), (1, 14, 15), (1, 14, 16), (1, 14, 17), (1, 14, 18), (1, 14, 19), (1, 15, 16), (1, 15, 17), (1, 15, 18), (1, 15, 19), (1, 16, 17), (1, 16, 18), (1, 16, 19), (1, 17, 18), (1, 17, 19), (1, 18, 19), (2, 3, 4), (2, 3, 5), (2, 3, 6), (2, 3, 7), (2, 3, 8), (2, 3, 9), (2, 3, 10), (2, 3, 11), (2, 3, 12), (2, 3, 13), (2, 3, 14), (2, 3, 15), (2, 3, 16), (2, 3, 17), (2, 3, 18), (2, 3, 19), (2, 4, 5), (2, 4, 6), (2, 4, 7), (2, 4, 8), (2, 4, 9), (2, 4, 10), (2, 4, 11), (2, 4, 12), (2, 4, 13), (2, 4, 14), (2, 4, 15), (2, 4, 16), (2, 4, 17), (2, 4, 18), (2, 4, 19), (2, 5, 6), (2, 5, 7), (2, 5, 8), (2, 5, 9), (2, 5, 10)] ++
      ([(2, 5, 11), (2, 5, 12), (2, 5, 13), (2, 5, 14), (2, 5, 15), (2, 5, 16), (2, 5, 17), (2, 5, 18), (2, 5, 19), (2, 6, 7), (2, 6, 8), (2, 6, 9), (2, 6, 10), (2, 6, 11), (2, 6, 12), (2, 6, 13), (2, 6, 14), (2, 6, 15), (2, 6, 16), (2, 6, 17), (2, 6, 18), (2, 6, 19), (2, 7, 8), (2, 7, 9), (2, 7, 10), (2, 7, 11), (2, 7, 12), (2, 7, 13), (2, 7, 14), (2, 7, 15), (2, 7, 16), (2, 7, 17), (2, 7, 18), (2, 7, 19), (2, 8, 9), (2, 8, 10), (2, 8, 11), (2, 8, 12), (2, 8, 13), (2, 8, 14), (2, 8, 15), (2, 8, 16), (2, 8, 17), (2, 8, 18), (2, 8, 19), (2, 9, 10), (2, 9, 11), (2, 9, 12), (2, 9, 13), (2, 9, 14), (2, 9, 15), (2, 9, 16), (2, 9, 17), (2, 9, 18), (2, 9, 19), (2, 10, 11), (2, 10, 12), (2, 10, 13), (2, 10, 14), (2, 10, 15)] ++
      ([(2, 10, 16), (2, 10, 17), (2, 10, 18), (2, 10, 19), (2, 11, 12), (2, 11, 13), (2, 11, 14), (2, 11, 15), (2, 11, 16), (2, 11, 17), (2, 11, 18), (2, 11, 19), (2, 12, 13), (2, 12, 14), (2, 12, 15), (2, 12, 16), (2, 12, 17), (2, 12, 18), (2, 12, 19), (2, 13, 14), (2, 13, 15), (2, 13, 16), (2, 13, 17), (2, 13, 18), (2, 13, 19), (2, 14, 15), (2, 14, 16), (2, 14, 17), (2, 14, 18), (2, 14, 19), (2, 15, 16), (2, 15, 17), (2, 15, 18), (2, 15, 19), (2, 16, 17), (2, 16, 18), (2, 16, 19), (2, 17, 18), (2, 17, 19), (2, 18, 19), (3, 4, 5), (3, 4, 6), (3, 4, 7), (3, 4, 8), (3, 4, 9), (3, 4, 10), (3, 4, 11), (3, 4, 12), (3, 4, 13), (3, 4, 14), (3, 4, 15), (3, 4, 16), (3, 4, 17), (3, 4, 18), (3, 4, 19), (3, 5, 6), (3, 5, 7), (3, 5, 8), (3, 5, 9), (3, 5, 10)] ++
      ([(3, 5, 11), (3, 5, 12), (3, 5, 13), (3, 5, 14), (3, 5, 15), (3, 5, 16), (3, 5, 17), (3, 5, 18), (3, 5, 19), (3, 6, 7), (3, 6, 8), (3, 6, 9), (3, 6, 10), (3, 6, 11), (3, 6, 12), (3, 6, 13), (3, 6, 14), (3, 6, 15), (3, 6, 16), (3, 6, 17), (3, 6, 18), (3, 6, 19), (3, 7, 8), (3, 7, 9), (3, 7, 10), (3, 7, 11), (3, 7, 12), (3, 7, 13), (3, 7, 14), (3, 7, 15), (3, 7, 16), (3, 7, 17), (3, 7, 18), (3, 7, 19), (3, 8, 9), (3, 8, 10), (3, 8, 11), (3, 8, 12), (3, 8, 13), (3, 8, 14), (3, 8, 15), (3, 8, 16), (3, 8, 17), (3, 8, 18), (3, 8, 19), (3, 9, 10), (3, 9, 11), (3, 9, 12), (3, 9, 13), (3, 9, 14), (3, 9, 15), (3, 9, 16), (3, 9, 17), (3, 9, 18), (3, 9, 19), (3, 10, 11), (3, 10, 12), (3, 10, 13), (3, 10, 14), (3, 10, 15)] ++
      ([(3, 10, 16), (3, 10, 17), (3, 10, 18), (3, 10, 19), (3, 11, 12), (3, 11, 13), (3, 11, 14), (3, 11, 15), (3, 11, 16), (3, 11, 17), (3, 11, 18), (3, 11, 19), (3, 12, 13), (3, 12, 14), (3, 12, 15), (3, 12, 16), (3, 12, 17), (3, 12, 18), (3, 12, 19), (3, 13, 14), (3, 13, 15), (3, 13, 16), (3, 13, 17), (3, 13, 18), (3, 13, 19), (3, 14, 15), (3, 14, 16), (3, 14, 17), (3, 14, 18), (3, 14, 19), (3, 15, 16), (3, 15, 17), (3, 15, 18), (3, 15, 19), (3, 16, 17), (3, 16, 18), (3, 16, 19), (3, 17, 18), (3, 17, 19), (3, 18, 19), (4, 5, 6), (4, 5, 7), (4, 5, 8), (4, 5, 9), (4, 5, 10), (4, 5, 11), (4, 5, 12), (4, 5, 13), (4, 5, 14), (4, 5, 15), (4, 5, 16), (4, 5, 17), (4, 5, 18), (4, 5, 19), (4, 6, 7), (4, 6, 8), (4, 6, 9), (4, 6, 10), (4, 6, 11), (4, 6, 12)] ++
      ([(4, 6, 13), (4, 6, 14), (4, 6, 15), (4, 6, 16), (4, 6, 17), (4, 6, 18), (4, 6, 19), (4, 7, 8), (4, 7, 9), (4, 7, 10), (4, 7, 11), (4, 7, 12), (4, 7, 13), (4, 7, 14), (4, 7, 15), (4, 7, 16), (4, 7, 17), (4, 7, 18), (4, 7, 19), (4, 8, 9), (4, 8, 10), (4, 8, 11), (4, 8, 12), (4, 8, 13), (4, 8, 14), (4, 8, 15), (4, 8, 16), (4, 8, 17), (4, 8, 18), (4, 8, 19), (4, 9, 10), (4, 9, 11), (4, 9, 12), (4, 9, 13), (4, 9, 14), (4, 9, 15), (4, 9, 16), (4, 9, 17), (4, 9, 18), (4, 9, 19), (4, 10, 11), (4, 10, 12), (4, 10, 13), (4, 10, 14), (4, 10, 15), (4, 10, 16), (4, 10, 17), (4, 10, 18), (4, 10, 19), (4, 11, 12), (4, 11, 13), (4, 11, 14), (4, 11, 15), (4, 11, 16), (4, 11, 17), (4, 11, 18), (4, 11, 19), (4, 12, 13), (4, 12, 14), (4, 12, 15)] ++
      ([(4, 12, 16), (4, 12, 17), (4, 12, 18), (4, 12, 19), (4, 13, 14), (4, 13, 15), (4, 13, 16), (4, 13, 17), (4, 13, 18), (4, 13, 19), (4, 14, 15), (4, 14, 16), (4, 14, 17), (4, 14, 18), (4, 14, 19), (4, 15, 16), (4, 15, 17), (4, 15, 18), (4, 15, 19), (4, 16, 17), (4, 16, 18), (4, 16, 19), (4, 17, 18), (4, 17, 19), (4, 18, 19), (5, 6, 7), (5, 6, 8), (5, 6, 9), (5, 6, 10), (5, 6, 11), (5, 6, 12), (5, 6, 13), (5, 6, 14), (5, 6, 15), (5, 6, 16), (5, 6, 17), (5, 6, 18), (5, 6, 19), (5, 7, 8), (5, 7, 9), (5, 7, 10), (5, 7, 11), (5, 7, 12), (5, 7, 13), (5, 7, 14), (5, 7, 15), (5, 7, 16), (5, 7, 17), (5, 7, 18), (5, 7, 19), (5, 8, 9), (5, 8, 10), (5, 8, 11), (5, 8, 12), (5, 8, 13), (5, 8, 14), (5, 8, 15), (5, 8, 16), (5, 8, 17), (5, 8, 18)] ++
      ([(5, 8, 19), (5, 9, 10), (5, 9, 11), (5, 9, 12), (5, 9, 13), (5, 9, 14), (5, 9, 15), (5, 9, 16), (5, 9, 17), (5, 9, 18), (5, 9, 19), (5, 10, 11), (5, 10, 12), (5, 10, 13), (5, 10, 14), (5, 10, 15), (5, 10, 16), (5, 10, 17), (5, 10, 18), (5, 10, 19), (5, 11, 12), (5, 11, 13), (5, 11, 14), (5, 11, 15), (5, 11, 16), (5, 11, 17), (5, 11, 18), (5, 11, 19), (5, 12, 13), (5, 12, 14), (5, 12, 15), (5, 12, 16), (5, 12, 17), (5, 12, 18), (5, 12, 19), (5, 13, 14), (5, 13, 15), (5, 13, 16), (5, 13, 17), (5, 13, 18), (5, 13, 19), (5, 14, 15), (5, 14, 16), (5, 14, 17), (5, 14, 18), (5, 14, 19), (5, 15, 16), (5, 15, 17), (5, 15, 18), (5, 15, 19), (5, 16, 17), (5, 16, 18), (5, 16, 19), (5, 17, 18), (5, 17, 19), (5, 18, 19), (6, 7, 8), (6, 7, 9), (6, 7, 10), (6, 7, 11)] ++
      ([(6, 7, 12), (6, 7, 13), (6, 7, 14), (6, 7, 15), (6, 7, 16), (6, 7, 17), (6, 7, 18), (6, 7, 19), (6, 8, 9), (6, 8, 10), (6, 8, 11), (6, 8, 12), (6, 8, 13), (6, 8, 14), (6, 8, 15), (6, 8, 16), (6, 8, 17), (6, 8, 18), (6, 8, 19), (6, 9, 10), (6, 9, 11), (6, 9, 12), (6, 9, 13), (6, 9, 14), (6, 9, 15), (6, 9, 16), (6, 9, 17), (6, 9, 18), (6, 9, 19), (6, 10, 11), (6, 10, 12), (6, 10, 13), (6, 10, 14), (6, 10, 15), (6, 10, 16), (6, 10, 17), (6, 10, 18), (6, 10, 19), (6, 11, 12), (6, 11, 13), (6, 11, 14), (6, 11, 15), (6, 11, 16), (6, 11, 17), (6, 11, 18), (6, 11, 19), (6, 12, 13), (6, 12, 14), (6, 12, 15), (6, 12, 16), (6, 12, 17), (6, 12, 18), (6, 12, 19), (6, 13, 14), (6, 13, 15), (6, 13, 16), (6, 13, 17), (6, 13, 18), (6, 13, 19), (6, 14, 15)] ++
      ([(6, 14, 16), (6, 14, 17), (6, 14, 18), (6, 14, 19), (6, 15, 16), (6, 15, 17), (6, 15, 18), (6, 15, 19), (6, 16, 17), (6, 16, 18), (6, 16, 19), (6, 17, 18), (6, 17, 19), (6, 18, 19), (7, 8, 9), (7, 8, 10), (7, 8, 11), (7, 8, 12), (7, 8, 13), (7, 8, 14), (7, 8, 15), (7, 8, 16), (7, 8, 17), (7, 8, 18), (7, 8, 19), (7, 9, 10), (7, 9, 11), (7, 9, 12), (7, 9, 13), (7, 9, 14), (7, 9, 15), (7, 9, 16), (7, 9, 17), (7, 9, 18), (7, 9, 19), (7, 10, 11), (7, 10, 12), (7, 10, 13), (7, 10, 14), (7, 10, 15), (7, 10, 16), (7, 10, 17), (7, 10, 18), (7, 10, 19), (7, 11, 12), (7, 11, 13), (7, 11, 14), (7, 11, 15), (7, 11, 16), (7, 11, 17), (7, 11, 18), (7, 11, 19), (7, 12, 13), (7, 12, 14), (7, 12, 15), (7, 12, 16), (7, 12, 17), (7, 12, 18), (7, 12, 19), (7, 13, 14)] ++
      ([(7, 13, 15), (7, 13, 16), (7, 13, 17), (7, 13, 18), (7, 13, 19), (7, 14, 15), (7, 14, 16), (7, 14, 17), (7, 14, 18), (7, 14, 19), (7, 15, 16), (7, 15, 17), (7, 15, 18), (7, 15, 19), (7, 16, 17), (7, 16, 18), (7, 16, 19), (7, 17, 18), (7, 17, 19), (7, 18, 19), (8, 9, 10), (8, 9, 11), (8, 9, 12), (8, 9, 13), (8, 9, 14), (8, 9, 15), (8, 9, 16), (8, 9, 17), (8, 9, 18), (8, 9, 19), (8, 10, 11), (8, 10, 12), (8, 10, 13), (8, 10, 14), (8, 10, 15), (8, 10, 16), (8, 10, 17), (8, 10, 18), (8, 10, 19), (8, 11, 12), (8, 11, 13), (8, 11, 14), (8, 11, 15), (8, 11, 16), (8, 11, 17), (8, 11, 18), (8, 11, 19), (8, 12, 13), (8, 12, 14), (8, 12, 15), (8, 12, 16), (8, 12, 17), (8, 12, 18), (8, 12, 19), (8, 13, 14), (8, 13, 15), (8, 13, 16), (8, 13, 17), (8, 13, 18), (8, 13, 19)] ++
      ([(8, 14, 15), (8, 14, 16), (8, 14, 17), (8, 14, 18), (8, 14, 19), (8, 15, 16), (8, 15, 17), (8, 15, 18), (8, 15, 19), (8, 16, 17), (8, 16, 18), (8, 16, 19), (8, 17, 18), (8, 17, 19), (8, 18, 19), (9, 10, 11), (9, 10, 12), (9, 10, 13), (9, 10, 14), (9, 10, 15), (9, 10, 16), (9, 10, 17), (9, 10, 18), (9, 10, 19), (9, 11, 12), (9, 11, 13), (9, 11, 14), (9, 11, 15), (9, 11, 16), (9, 11, 17), (9, 11, 18), (9, 11, 19), (9, 12, 13), (9, 12, 14), (9, 12, 15), (9, 12, 16), (9, 12, 17), (9, 12, 18), (9, 12, 19), (9, 13, 14), (9, 13, 15), (9, 13, 16), (9, 13, 17), (9, 13, 18), (9, 13, 19), (9, 14, 15), (9, 14, 16), (9, 14, 17), (9, 14, 18), (9, 14, 19), (9, 15, 16), (9, 15, 17), (9, 15, 18), (9, 15, 19), (9, 16, 17), (9, 16, 18), (9, 16, 19), (9, 17, 18), (9, 17, 19), (9, 18, 19)] ++
      ([(10, 11, 12), (10, 11, 13), (10, 11, 14), (10, 11, 15), (10, 11, 16), (10, 11, 17), (10, 11, 18), (10, 11, 19), (10, 12, 13), (10, 12, 14), (10, 12, 15), (10, 12, 16), (10, 12, 17), (10, 12, 18), (10, 12, 19), (10, 13, 14), (10, 13, 15), (10, 13, 16), (10, 13, 17), (10, 13, 18), (10, 13, 19), (10, 14, 15), (10, 14, 16), (10, 14, 17), (10, 14, 18), (10, 14, 19), (10, 15, 16), (10, 15, 17), (10, 15, 18), (10, 15, 19), (10, 16, 17), (10, 16, 18), (10, 16, 19), (10, 17, 18), (10, 17, 19), (10, 18, 19), (11, 12, 13), (11, 12, 14), (11, 12, 15), (11, 12, 16), (11, 12, 17), (11, 12, 18), (11, 12, 19), (11, 13, 14), (11, 13, 15), (11, 13, 16), (11, 13, 17), (11, 13, 18), (11, 13, 19), (11, 14, 15), (11, 14, 16), (11, 14, 17), (11, 14, 18), (11, 14, 19), (11, 15, 16), (11, 15, 17), (11, 15, 18), (11, 15, 19), (11, 16, 17), (11, 16, 18)] ++
      ([(11, 16, 19), (11, 17, 18), (11, 17, 19), (11, 18, 19), (12, 13, 14), (12, 13, 15), (12, 13, 16), (12, 13, 17), (12, 13, 18), (12, 13, 19), (12, 14, 15), (12, 14, 16), (12, 14, 17), (12, 14, 18), (12, 14, 19), (12, 15, 16), (12, 15, 17), (12, 15, 18), (12, 15, 19), (12, 16, 17), (12, 16, 18), (12, 16, 19), (12, 17, 18), (12, 17, 19), (12, 18, 19), (13, 14, 15), (13, 14, 16), (13, 14, 17), (13, 14, 18), (13, 14, 19), (13, 15, 16), (13, 15, 17), (13, 15, 18), (13, 15, 19), (13, 16, 17), (13, 16, 18), (13, 16, 19), (13, 17, 18), (13, 17, 19), (13, 18, 19), (14, 15, 16), (14, 15, 17), (14, 15, 18), (14, 15, 19), (14, 16, 17), (14, 16, 18), (14, 16, 19), (14, 17, 18), (14, 17, 19), (14, 18, 19), (15, 16, 17), (15, 16, 18), (15, 16, 19), (15, 17, 18), (15, 17, 19), (15, 18, 19), (16, 17, 18), (16, 17, 19), (16, 18, 19), (17, 18, 19)])))))))))))))))))) := by
  conv_lhs => rw [← List.take_append_drop 60 (triples (dodecaZ.length))]
  rw [tchunk0, gdrop1, gdrop2, gdrop3, gdrop4, gdrop5, gdrop6, gdrop7, gdrop8, gdrop9, gdrop10, gdrop11, gdrop12, gdrop13, gdrop14, gdrop15, gdrop16, gdrop17, tchunk18]

/-- The mirror run on the concrete dodecahedron input, evaluated in chunks. -/
theorem computeBasePlanesZ_eq : computeBasePlanesZ dodecaZ 30 = accS18 := by
  rw [computeBasePlanesZ, triples20_split]
  simp only [List.foldl_append]
  rw [accS0_eq, accS1_eq, accS2_eq, accS3_eq, accS4_eq, accS5_eq, accS6_eq, accS7_eq, accS8_eq, accS9_eq, accS10_eq, accS11_eq, accS12_eq, accS13_eq, accS14_eq, accS15_eq, accS16_eq, accS17_eq, accS18_eq]

/-- The mirror run on the concrete dodecahedron input accepts exactly 12
planes. -/
theorem computeBasePlanesZ_count : (computeBasePlanesZ dodecaZ 30).length = 12 := by
  rw [computeBasePlanesZ_eq]
  rfl

/-- C1: on the canonical 20-vertex golden-ratio point set scaled by `0.5`,
`computeBasePlanes` (with the source's capacity 30) returns exactly 12
planes; every returned plane's normal has unit length within `1e-6`, and
every returned plane satisfies `dot(n, p) ≤ d + 1e-6` for each of the 20
points. -/
theorem computeBasePlanes_dodecahedron :
    (computeBasePlanes scaledVertices 30).length = 12 ∧
    List.Forall (fun pl => |length pl.n - 1| ≤ TOL ∧
        List.Forall (fun p => dot pl.n p ≤ pl.d + TOL) scaledVertices)
      (computeBasePlanes scaledVertices 30) := by
  have hmain : computeBasePlanes scaledVertices 30 =
      (computeBasePlanesZ dodecaZ 30).map valP4 := by
    rw [scaledVertices_eq, computeBasePlanes_val]
  constructor
  · rw [hmain, List.length_map, computeBasePlanesZ_count]
  · rw [List.forall_iff_forall_mem]
    intro pl hpl
    obtain ⟨h1, h2⟩ := computeBasePlanes_sound scaledVertices 30 pl hpl
    refine ⟨by rw [h1]; rw [TOL]; norm_num, ?_⟩
    rw [List.forall_iff_forall_mem]
    intro p hp
    exact h2 p hp

end Dodeca
